import Mathlib

/-!
Verification development for the cryptographic core of the Qubic-SmartGuard
repository (file `smartcontract-test/qubic-cli/K12AndKeyUtil.h`).

The C code is shallowly embedded: byte buffers become `List Nat` (each element
a byte value), 64-bit machine words become `Nat` with explicit `% 2^64`
wrapping (written with masks and shifts mirroring the source), and the
200-byte Keccak state becomes a single `Nat` holding the little-endian value
of the buffer, so that byte `i` of the buffer is `(st >>> (8*i)) &&& 0xFF`.
A 128-bit field element (`felm_t`, a pair of 64-bit words in the source)
becomes a single `Nat` below `2^128` whose low word is `a % 2^64` and whose
high word is `a / 2^64`; the word-level carry chains of the source are
rendered as arithmetic on that combined value, with `% 2^128` wherever the
source drops a carry out of the two-word window.
-/

set_option maxRecDepth 100000
set_option exponentiation.threshold 200000

/-- 2^64 - 1, the mask of a 64-bit machine word. -/
def mask64 : Nat := 0xFFFFFFFFFFFFFFFF

/-- `ROL64(a, offset)`: 64-bit rotation as written in the source,
`(a << offset) ^ (a >> (64 - offset))`, truncated to 64 bits. -/
def rol64 (a off : Nat) : Nat := ((a <<< off) ^^^ (a >>> (64 - off))) &&& mask64

/-- 64-bit complement `~a`. -/
def not64 (a : Nat) : Nat := a ^^^ mask64

/-- The 25 64-bit lanes of the 1600-bit Keccak state, named after the
variables `Aba .. Asu` of the source macros (rows b,g,k,m,s; columns
a,e,i,o,u; lane `state[5*row+col]`). -/
structure KLanes where
  ba : Nat
  be : Nat
  bi : Nat
  bo : Nat
  bu : Nat
  ga : Nat
  ge : Nat
  gi : Nat
  go : Nat
  gu : Nat
  ka : Nat
  ke : Nat
  ki : Nat
  ko : Nat
  ku : Nat
  ma : Nat
  me : Nat
  mi : Nat
  mo : Nat
  mu : Nat
  sa : Nat
  se : Nat
  si : Nat
  so : Nat
  su : Nat

/-- `copyFromState`: split the 200-byte buffer (a single little-endian `Nat`)
into the 25 64-bit lanes `state[0] .. state[24]`. -/
def toLanes (st : Nat) : KLanes :=
  { ba := st &&& mask64
    be := (st >>> 64) &&& mask64
    bi := (st >>> 128) &&& mask64
    bo := (st >>> 192) &&& mask64
    bu := (st >>> 256) &&& mask64
    ga := (st >>> 320) &&& mask64
    ge := (st >>> 384) &&& mask64
    gi := (st >>> 448) &&& mask64
    go := (st >>> 512) &&& mask64
    gu := (st >>> 576) &&& mask64
    ka := (st >>> 640) &&& mask64
    ke := (st >>> 704) &&& mask64
    ki := (st >>> 768) &&& mask64
    ko := (st >>> 832) &&& mask64
    ku := (st >>> 896) &&& mask64
    ma := (st >>> 960) &&& mask64
    me := (st >>> 1024) &&& mask64
    mi := (st >>> 1088) &&& mask64
    mo := (st >>> 1152) &&& mask64
    mu := (st >>> 1216) &&& mask64
    sa := (st >>> 1280) &&& mask64
    se := (st >>> 1344) &&& mask64
    si := (st >>> 1408) &&& mask64
    so := (st >>> 1472) &&& mask64
    su := (st >>> 1536) &&& mask64 }

/-- `copyToState`: reassemble the 200-byte buffer from the 25 lanes. -/
def ofLanes (l : KLanes) : Nat :=
  l.ba ||| (l.be <<< 64) ||| (l.bi <<< 128) ||| (l.bo <<< 192) ||| (l.bu <<< 256) |||
  (l.ga <<< 320) ||| (l.ge <<< 384) ||| (l.gi <<< 448) ||| (l.go <<< 512) ||| (l.gu <<< 576) |||
  (l.ka <<< 640) ||| (l.ke <<< 704) ||| (l.ki <<< 768) ||| (l.ko <<< 832) ||| (l.ku <<< 896) |||
  (l.ma <<< 960) ||| (l.me <<< 1024) ||| (l.mi <<< 1088) ||| (l.mo <<< 1152) ||| (l.mu <<< 1216) |||
  (l.sa <<< 1280) ||| (l.se <<< 1344) ||| (l.si <<< 1408) ||| (l.so <<< 1472) ||| (l.su <<< 1536)

/-- One round of the permutation: the `thetaRhoPiChiIotaPrepareTheta(i, A, E)`
macro of the source, mapping state `A` to state `E` with round constant `rc`.
The source carries the column parities `Ca..Cu` incrementally between rounds;
they always equal the column parities of the current state, which is how they
are computed here. -/
def keccakRound (A : KLanes) (rc : Nat) : KLanes :=
  let Ca := A.ba ^^^ A.ga ^^^ A.ka ^^^ A.ma ^^^ A.sa
  let Ce := A.be ^^^ A.ge ^^^ A.ke ^^^ A.me ^^^ A.se
  let Ci := A.bi ^^^ A.gi ^^^ A.ki ^^^ A.mi ^^^ A.si
  let Co := A.bo ^^^ A.go ^^^ A.ko ^^^ A.mo ^^^ A.so
  let Cu := A.bu ^^^ A.gu ^^^ A.ku ^^^ A.mu ^^^ A.su
  let Da := Cu ^^^ rol64 Ce 1
  let De := Ca ^^^ rol64 Ci 1
  let Di := Ce ^^^ rol64 Co 1
  let Do := Ci ^^^ rol64 Cu 1
  let Du := Co ^^^ rol64 Ca 1
  let Bba := A.ba ^^^ Da
  let Bbe := rol64 (A.ge ^^^ De) 44
  let Bbi := rol64 (A.ki ^^^ Di) 43
  let Bbo := rol64 (A.mo ^^^ Do) 21
  let Bbu := rol64 (A.su ^^^ Du) 14
  let Eba := (Bba ^^^ (not64 Bbe &&& Bbi)) ^^^ rc
  let Ebe := Bbe ^^^ (not64 Bbi &&& Bbo)
  let Ebi := Bbi ^^^ (not64 Bbo &&& Bbu)
  let Ebo := Bbo ^^^ (not64 Bbu &&& Bba)
  let Ebu := Bbu ^^^ (not64 Bba &&& Bbe)
  let Bga := rol64 (A.bo ^^^ Do) 28
  let Bge := rol64 (A.gu ^^^ Du) 20
  let Bgi := rol64 (A.ka ^^^ Da) 3
  let Bgo := rol64 (A.me ^^^ De) 45
  let Bgu := rol64 (A.si ^^^ Di) 61
  let Ega := Bga ^^^ (not64 Bge &&& Bgi)
  let Ege := Bge ^^^ (not64 Bgi &&& Bgo)
  let Egi := Bgi ^^^ (not64 Bgo &&& Bgu)
  let Ego := Bgo ^^^ (not64 Bgu &&& Bga)
  let Egu := Bgu ^^^ (not64 Bga &&& Bge)
  let Bka := rol64 (A.be ^^^ De) 1
  let Bke := rol64 (A.gi ^^^ Di) 6
  let Bki := rol64 (A.ko ^^^ Do) 25
  let Bko := rol64 (A.mu ^^^ Du) 8
  let Bku := rol64 (A.sa ^^^ Da) 18
  let Eka := Bka ^^^ (not64 Bke &&& Bki)
  let Eke := Bke ^^^ (not64 Bki &&& Bko)
  let Eki := Bki ^^^ (not64 Bko &&& Bku)
  let Eko := Bko ^^^ (not64 Bku &&& Bka)
  let Eku := Bku ^^^ (not64 Bka &&& Bke)
  let Bma := rol64 (A.bu ^^^ Du) 27
  let Bme := rol64 (A.ga ^^^ Da) 36
  let Bmi := rol64 (A.ke ^^^ De) 10
  let Bmo := rol64 (A.mi ^^^ Di) 15
  let Bmu := rol64 (A.so ^^^ Do) 56
  let Ema := Bma ^^^ (not64 Bme &&& Bmi)
  let Eme := Bme ^^^ (not64 Bmi &&& Bmo)
  let Emi := Bmi ^^^ (not64 Bmo &&& Bmu)
  let Emo := Bmo ^^^ (not64 Bmu &&& Bma)
  let Emu := Bmu ^^^ (not64 Bma &&& Bme)
  let Bsa := rol64 (A.bi ^^^ Di) 62
  let Bse := rol64 (A.go ^^^ Do) 55
  let Bsi := rol64 (A.ku ^^^ Du) 39
  let Bso := rol64 (A.ma ^^^ Da) 41
  let Bsu := rol64 (A.se ^^^ De) 2
  let Esa := Bsa ^^^ (not64 Bse &&& Bsi)
  let Ese := Bse ^^^ (not64 Bsi &&& Bso)
  let Esi := Bsi ^^^ (not64 Bso &&& Bsu)
  let Eso := Bso ^^^ (not64 Bsu &&& Bsa)
  let Esu := Bsu ^^^ (not64 Bsa &&& Bse)
  { ba := Eba, be := Ebe, bi := Ebi, bo := Ebo, bu := Ebu
    ga := Ega, ge := Ege, gi := Egi, go := Ego, gu := Egu
    ka := Eka, ke := Eke, ki := Eki, ko := Eko, ku := Eku
    ma := Ema, me := Eme, mi := Emi, mo := Emo, mu := Emu
    sa := Esa, se := Ese, si := Esi, so := Eso, su := Esu }

/-- The 12 round constants of the source: `KeccakF1600RoundConstant0 .. 10`
followed by the constant hard-coded in the last round of `rounds12`. -/
def k12RoundConstants : List Nat :=
  [0x000000008000808b, 0x800000000000008b, 0x8000000000008089,
   0x8000000000008003, 0x8000000000008002, 0x8000000000000080,
   0x000000000000800a, 0x800000008000000a, 0x8000000080008081,
   0x8000000000008080, 0x0000000080000001, 0x8000000080008008]

/-- `KeccakP1600_Permute_12rounds`: the 12-round permutation `rounds12`
applied to a 200-byte state buffer. -/
def keccakP1600_12 (st : Nat) : Nat :=
  ofLanes (k12RoundConstants.foldl keccakRound (toLanes st))

/-- `K12_rateInBytes` = (1600 - 256) / 8. -/
def K12_rateInBytes : Nat := 168

/-- `K12_chunkSize`. -/
def K12_chunkSize : Nat := 8192

/-- `K12_capacityInBytes`. -/
def K12_capacityInBytes : Nat := 32

/-- `K12_suffixLeaf`. -/
def K12_suffixLeaf : Nat := 0x0B

/-- A byte buffer: its length and its contents as a little-endian `Nat`
(byte `i` is `(val >>> (8*i)) &&& 0xFF`; a well-formed buffer has
`val < 2^(8*len)`).  This mirrors the C calling convention of a pointer plus
an explicit byte count. -/
structure Bytes where
  len : Nat
  val : Nat
deriving DecidableEq

/-- Byte `i` of a buffer. -/
def byteAt (b : Bytes) (i : Nat) : Nat := b.val >>> (8 * i) &&& 0xFF

/-- Buffer concatenation (the second buffer's bytes follow the first's). -/
def bcat (a b : Bytes) : Bytes := ⟨a.len + b.len, a.val ||| (b.val <<< (8 * a.len))⟩

/-- The first `n` bytes of a buffer. -/
def btake (n : Nat) (b : Bytes) : Bytes :=
  ⟨min n b.len, b.val % 2 ^ (8 * min n b.len)⟩

/-- The buffer without its first `n` bytes. -/
def bdrop (n : Nat) (b : Bytes) : Bytes := ⟨b.len - n, b.val >>> (8 * n)⟩

/-- Value of a little-endian byte list (used to build short buffers). -/
def bytesToNat (l : List Nat) : Nat :=
  l.foldr (fun b acc => b + 256 * acc) 0

/-- Buffer holding the bytes of a list. -/
def bofList (l : List Nat) : Bytes := ⟨l.length, bytesToNat l⟩

/-- The `KangarooTwelve_F` instance: the 200-byte state (as a little-endian
`Nat`) and the byte I/O index. -/
structure K12F where
  st : Nat
  byteIOIndex : Nat

/-- XOR byte `b` into buffer position `i` of a state buffer. -/
def xorByteAt (st : Nat) (i b : Nat) : Nat := st ^^^ (b <<< (8 * i))

/-- Identity on `Nat`, defined by case distinction so that reducing
`natForce n k` first evaluates `n` to a numeral and then continues with `k`:
a strictness hint that keeps kernel evaluation of the absorption loop
iterative (it changes nothing about the computed value; see `natForce_eq`). -/
def natForce (n : Nat) (k : Nat → α) : α :=
  match n with
  | 0 => k 0
  | m + 1 => k (m + 1)

/-- `natForce` is function application. -/
theorem natForce_eq (n : Nat) (k : Nat → α) : natForce n k = k n := by
  cases n <;> rfl

/-- The loop of `KangarooTwelve_F_Absorb(instance, data, dataByteLen)`: XOR
the next `min(rate - byteIOIndex, remaining)` bytes into the state at
`byteIOIndex` and permute whenever a full 168-byte rate block completes —
the byte-level effect of the source's unrolled lane-wise and block-wise
absorption paths.  Structural recursion on a fuel bound; the byte count
bounds the iterations as every iteration after the first consumes a full
168-byte block. -/
def k12AbsorbGo (fuel : Nat) (inst : K12F) (len xs : Nat) : K12F :=
  match fuel with
  | 0 => inst
  | fuel + 1 =>
    if len = 0 then inst
    else
      let n := min (K12_rateInBytes - inst.byteIOIndex) len
      let st := inst.st ^^^ ((xs % 2 ^ (8 * n)) <<< (8 * inst.byteIOIndex))
      if inst.byteIOIndex + n = K12_rateInBytes then
        natForce (keccakP1600_12 st) fun s =>
          k12AbsorbGo fuel ⟨s, 0⟩ (len - n) (xs >>> (8 * n))
      else
        k12AbsorbGo fuel ⟨st, inst.byteIOIndex + n⟩ (len - n) (xs >>> (8 * n))

/-- `KangarooTwelve_F_Absorb`.  The fuel bound `len/rate + 2` dominates the
iteration count: the first iteration consumes at least one byte (filling the
current block) and every further one consumes a full rate block or ends. -/
def k12Absorb (inst : K12F) (data : Bytes) : K12F :=
  k12AbsorbGo (data.len / K12_rateInBytes + 2) inst data.len data.val

/-- The first `n` bytes of a state buffer (the output `memcpy` and the
chaining-value reads). -/
def stateBytes (st : Nat) (n : Nat) : Bytes := ⟨n, st % 2 ^ (8 * n)⟩

/-- The tree-mode suffix of the final node (`finalNode.state[byteIOIndex] ^= 0x03`
followed by an increment that either triggers a permutation or aligns
`byteIOIndex` up to the next lane boundary `(byteIOIndex + 7) & ~7`). -/
def k12SuffixTree (fn : K12F) : K12F :=
  let st := xorByteAt fn.st fn.byteIOIndex 0x03
  if fn.byteIOIndex + 1 = K12_rateInBytes then ⟨keccakP1600_12 st, 0⟩
  else ⟨st, (fn.byteIOIndex + 1 + 7) / 8 * 8⟩

/-- The short-input suffix (`++byteIOIndex` first, then `^= 0x07` — after a
permutation at position 0 when the incremented index reaches the rate). -/
def k12SuffixShort (fn : K12F) : K12F :=
  if fn.byteIOIndex + 1 = K12_rateInBytes then
    ⟨xorByteAt (keccakP1600_12 fn.st) 0 0x07, 0⟩
  else
    ⟨xorByteAt fn.st (fn.byteIOIndex + 1) 0x07, fn.byteIOIndex + 1⟩

/-- Finalize a leaf node (`queueNode.state[queueNode.byteIOIndex] ^= K12_suffixLeaf;
queueNode.state[K12_rateInBytes - 1] ^= 0x80; KeccakP1600_Permute_12rounds`),
returning the 32-byte chaining value that is absorbed into the final node. -/
def k12LeafDigest (q : K12F) : Bytes :=
  stateBytes (keccakP1600_12 (xorByteAt (xorByteAt q.st q.byteIOIndex K12_suffixLeaf)
    (K12_rateInBytes - 1) 0x80)) K12_capacityInBytes

/-- The intermediate-chunk loop of `KangarooTwelve` (`while (inputByteLen > 0)`
in the tree branch): consume the remaining input chunk by chunk.  Full chunks
are hashed as leaves whose 32-byte digests are absorbed into the final node; a
trailing partial chunk is left in `queueNode` with its length in
`queueAbsorbedLen`.  Structural recursion on a fuel argument (instantiated
with the remaining chunk count plus two, which bounds the number of
iterations since every iteration consumes a full chunk or ends the loop). -/
def k12Loop (fuel : Nat) (fn : K12F) (blockNumber : Nat) (queueAbsorbedLen : Nat)
    (q : K12F) (input : Bytes) : K12F × Nat × Nat × K12F :=
  match fuel with
  | 0 => (fn, blockNumber, queueAbsorbedLen, q)
  | fuel + 1 =>
    if input.len = 0 then (fn, blockNumber, queueAbsorbedLen, q)
    else
      let len := if input.len < K12_chunkSize then input.len else K12_chunkSize
      let q1 := k12Absorb ⟨0, 0⟩ (btake len input)
      let rest := bdrop len input
      if len = K12_chunkSize then
        let fn1 := k12Absorb fn (k12LeafDigest q1)
        k12Loop fuel fn1 (blockNumber + 1) queueAbsorbedLen ⟨q1.st, K12_capacityInBytes⟩ rest
      else
        k12Loop fuel fn blockNumber len q1 rest

/-- The `--blockNumber` length-encoding loop (`for (v = --blockNumber; v && n < 8; ...)`):
the number of bytes (at most 8) needed to write `v` in base 256, counted with
the remaining iteration budget as the structural fuel. -/
def k12EncLenGo : Nat → Nat → Nat → Nat
  | 0, _, n => n
  | fuel + 1, v, n => if v = 0 then n else k12EncLenGo fuel (v / 256) (n + 1)

/-- The byte count of the leaf-count encoding (the loop starts at `n = 0` and
stops at `n = 8`). -/
def k12EncLen (v : Nat) : Nat := k12EncLenGo 8 v 0

/-- The `encbuf` suffix absorbed into the final node: the big-endian bytes of
`blockNumber - 1`, the byte count `n`, and two `0xFF` bytes. -/
def k12EncBuf (bn : Nat) : Bytes :=
  let n := k12EncLen bn
  bofList (((List.range n).map fun i => (bn >>> (8 * (n - 1 - i))) &&& 0xFF) ++ [n, 0xFF, 0xFF])

/-- The common tail of `KangarooTwelve` from the `if (blockNumber)` test on:
in the tree case absorb the pending leaf (if any) and the encoded leaf count
followed by the `0x06` final-node suffix, then apply the `0x80` rate-end
padding, permute, and copy out `outputByteLen` bytes. -/
def k12Tail (fn : K12F) (blockNumber queueAbsorbedLen : Nat) (q : K12F)
    (outputByteLen : Nat) : Bytes :=
  let fn1 :=
    if blockNumber ≠ 0 then
      let (fn', bn') :=
        if queueAbsorbedLen ≠ 0 then (k12Absorb fn (k12LeafDigest q), blockNumber + 1)
        else (fn, blockNumber)
      let fn'' := k12Absorb fn' (k12EncBuf (bn' - 1))
      (⟨xorByteAt fn''.st fn''.byteIOIndex 0x06, fn''.byteIOIndex⟩ : K12F)
    else fn
  stateBytes (keccakP1600_12 (xorByteAt fn1.st (K12_rateInBytes - 1) 0x80)) outputByteLen

/-- The trailing-partial-chunk handling of the tree branch (the
`if (queueAbsorbedLen) ... else ...` block after the chunk loop): advance the
queue node by one position; if that closes a chunk, absorb its leaf digest
into the final node at once; when no partial chunk is pending, register an
empty one-byte queue node.  Returns the updated
(finalNode, blockNumber, queueAbsorbedLen, queueNode). -/
def k12Trailing (fn : K12F) (blockNumber queueAbsorbedLen : Nat) (q : K12F) :
    K12F × Nat × Nat × K12F :=
  if queueAbsorbedLen ≠ 0 then
    let q1 : K12F :=
      if q.byteIOIndex + 1 = K12_rateInBytes then ⟨keccakP1600_12 q.st, 0⟩
      else ⟨q.st, q.byteIOIndex + 1⟩
    if queueAbsorbedLen + 1 = K12_chunkSize then
      (k12Absorb fn (k12LeafDigest q1), blockNumber + 1, 0, q1)
    else (fn, blockNumber, queueAbsorbedLen + 1, q1)
  else (fn, blockNumber, 1, ⟨0, 1⟩)

/-- `KangarooTwelve(input, inputByteLen, output, outputByteLen)`.  The
branchless `len = min(inputByteLen, K12_chunkSize)` computations of the source
(`x ^ ((y ^ x) & -(y < x))` selections) are written as conditionals. -/
def KangarooTwelve (input : Bytes) (outputByteLen : Nat) : Bytes :=
  let inputByteLen := input.len
  let len := if K12_chunkSize < inputByteLen then K12_chunkSize else inputByteLen
  let fn := k12Absorb ⟨0, 0⟩ (btake len input)
  let rest := bdrop len input
  if len = K12_chunkSize ∧ rest.len ≠ 0 then
    -- more than one chunk: hash the remaining chunks as leaves
    let fn1 := k12SuffixTree fn
    let r := k12Loop (rest.len / K12_chunkSize + 2) fn1 1 0 ⟨0, 0⟩ rest
    let r' := k12Trailing r.1 r.2.1 r.2.2.1 r.2.2.2
    k12Tail r'.1 r'.2.1 r'.2.2.1 r'.2.2.2 outputByteLen
  else
    if len = K12_chunkSize then
      -- input of exactly one chunk: final node takes the tree-mode suffix and
      -- an empty queue node is registered as a pending leaf
      k12Tail (k12SuffixTree fn) 1 1 ⟨0, 1⟩ outputByteLen
    else
      -- short input: single node, suffix 0x07
      k12Tail (k12SuffixShort fn) 0 0 ⟨0, 0⟩ outputByteLen

/-- The single-node hashing path as the specification describes it for short
inputs ("hashed directly with a short-input domain-separation suffix"): absorb
the whole input into one node, apply the short-input suffix, the rate-end
padding, one permutation, and squeeze.  This is exactly the short-input branch
of `KangarooTwelve`; the claim to check is which input lengths take it. -/
def K12SingleNode (input : Bytes) (outputByteLen : Nat) : Bytes :=
  k12Tail (k12SuffixShort (k12Absorb ⟨0, 0⟩ input)) 0 0 ⟨0, 0⟩ outputByteLen


/-!
Field arithmetic over GF(p), p = 2^127 - 1 (`felm_t`, here a `Nat` holding
the 128-bit two-word value).  Each definition renders the two-word carry
chains of the source as arithmetic on the combined value: a dropped carry out
of the top word becomes `% 2^128`, `x[1] >> 63` (the top bit) becomes
`/ 2^127`, and `x[1] & 0x7FFFFFFFFFFFFFFF` becomes `% 2^127`.
-/

/-- The field prime 2^127 - 1. -/
def p1271 : Nat := 2 ^ 127 - 1

/-- `mod1271(a)`: subtract p with borrow; if the subtraction wrapped (top bit
of the difference set), add p back.  Maps any `a` in [0, 2p) into [0, p). -/
def mod1271 (a : Nat) : Nat :=
  let d := (a + 2 ^ 128 - p1271) % 2 ^ 128
  if d / 2 ^ 127 = 1 then (d + p1271) % 2 ^ 128 else d

/-- `fpadd1271(a, b)`: two-word add (carry out dropped), then fold the top bit
back into the low part (`c[0] += c[1] >> 63; c[1] &= 0x7FFF...`). -/
def fpadd1271 (a b : Nat) : Nat :=
  let c := (a + b) % 2 ^ 128
  c % 2 ^ 127 + c / 2 ^ 127

/-- `fpsub1271(a, b)`: two-word subtract (borrow out dropped), then subtract
the top bit of the difference from the low part. -/
def fpsub1271 (a b : Nat) : Nat :=
  let c := (a + 2 ^ 128 - b % 2 ^ 128) % 2 ^ 128
  (c % 2 ^ 127 + 2 ^ 128 - c / 2 ^ 127) % 2 ^ 128

/-- `fpneg1271(a)`: `a[0] = ~a[0]; a[1] = 0x7FFF... - a[1]` (the high-word
subtraction wraps like the unsigned machine subtraction). -/
def fpneg1271 (a : Nat) : Nat :=
  (2 ^ 64 - 1 - a % 2 ^ 64) + 2 ^ 64 * ((2 ^ 63 - 1 + 2 ^ 64 - a / 2 ^ 64 % 2 ^ 64) % 2 ^ 64)

/-- `fpmul1271(a, b)`: schoolbook 128x128 product folded back into 128 bits
using 2^127 = 1 (mod p).  `tt2` is the middle part `a0*b1 + a1*b0 + hi(a0*b0)`;
`u` is `(tt2 >> 63) + 2*a1*b1` (the source's `__shiftleft128`/`__shiftright128`
recombination); `t` adds the low word of `a0*b0` and `2^64 * (tt2 mod 2^63)`;
the final line folds the top bit exactly as `fpadd1271` does. -/
def fpmul1271 (a b : Nat) : Nat :=
  let a0 := a % 2 ^ 64
  let a1 := a / 2 ^ 64 % 2 ^ 64
  let b0 := b % 2 ^ 64
  let b1 := b / 2 ^ 64 % 2 ^ 64
  let tt2 := (a0 * b1 + a0 * b0 / 2 ^ 64 + a1 * b0) % 2 ^ 128
  let u := (tt2 / 2 ^ 63 + 2 * (a1 * b1)) % 2 ^ 128
  let t := (a0 * b0 % 2 ^ 64 + 2 ^ 64 * (tt2 % 2 ^ 63) + u) % 2 ^ 128
  t % 2 ^ 127 + t / 2 ^ 127

/-- `fpsqr1271(a)`: as `fpmul1271 a a`, with the middle part computed as
`2*(a0*a1) + hi(a0*a0)` by the source's two-step addition. -/
def fpsqr1271 (a : Nat) : Nat :=
  let a0 := a % 2 ^ 64
  let a1 := a / 2 ^ 64 % 2 ^ 64
  let t3 := (a0 * a1 + a0 * a0 / 2 ^ 64) % 2 ^ 128
  let tt2 := (a0 * a1 + t3) % 2 ^ 128
  let u := (tt2 / 2 ^ 63 + 2 * (a1 * a1)) % 2 ^ 128
  let t := (a0 * a0 % 2 ^ 64 + 2 ^ 64 * (tt2 % 2 ^ 63) + u) % 2 ^ 128
  t % 2 ^ 127 + t / 2 ^ 127

/-- `n` successive applications of `fpsqr1271` (the squaring `for` loops). -/
def fpsqrN : Nat → Nat → Nat
  | 0, x => x
  | n + 1, x => fpsqrN n (fpsqr1271 x)

/-- `fpexp1251(a)`: the fixed addition chain computing `a^(2^125-1)`. -/
def fpexp1251 (a : Nat) : Nat :=
  let t2 := fpmul1271 a (fpsqr1271 a)
  let t3 := fpmul1271 t2 (fpsqrN 2 t2)
  let t4 := fpmul1271 t3 (fpsqrN 4 t3)
  let t5 := fpmul1271 t4 (fpsqrN 8 t4)
  let t2b := fpmul1271 t5 (fpsqrN 16 t5)
  let t1 := fpmul1271 t2b (fpsqrN 32 t2b)
  let t1b := fpmul1271 (fpsqrN 32 t1) t2b
  let t1c := fpmul1271 t5 (fpsqrN 16 t1b)
  let t1d := fpmul1271 t4 (fpsqrN 8 t1c)
  let t1e := fpmul1271 t3 (fpsqrN 4 t1d)
  fpmul1271 a (fpsqr1271 t1e)

/-- Division by two of one felm component (the body of `fp2div1271` and the
`x0 = x0/2` block of `decode`): conditionally add p (making the value even),
then shift right by one. -/
def fpdiv2_1271 (a : Nat) : Nat :=
  let t := if a % 2 = 1 then (a + p1271) % 2 ^ 128 else a
  t / 2

/-!
Quadratic extension field GF(p^2) = GF(p)[i]/(i^2+1) (`f2elm_t`): ordered
pairs (real, imaginary) of felm values.
-/

/-- `fp2add1271`. -/
def fp2add1271 (a b : Nat × Nat) : Nat × Nat := (fpadd1271 a.1 b.1, fpadd1271 a.2 b.2)

/-- `fp2sub1271`. -/
def fp2sub1271 (a b : Nat × Nat) : Nat × Nat := (fpsub1271 a.1 b.1, fpsub1271 a.2 b.2)

/-- `fp2neg1271`. -/
def fp2neg1271 (a : Nat × Nat) : Nat × Nat := (fpneg1271 a.1, fpneg1271 a.2)

/-- `fp2div1271`. -/
def fp2div1271 (a : Nat × Nat) : Nat × Nat := (fpdiv2_1271 a.1, fpdiv2_1271 a.2)

/-- `fp2sqr1271`: `((a0+a1)(a0-a1), 2*a0*a1)`. -/
def fp2sqr1271 (a : Nat × Nat) : Nat × Nat :=
  let t1 := fpadd1271 a.1 a.2
  let t2 := fpsub1271 a.1 a.2
  let t3 := fpmul1271 a.1 a.2
  (fpmul1271 t1 t2, fpadd1271 t3 t3)

/-- `fp2mul1271`: Karatsuba-style complex multiplication. -/
def fp2mul1271 (a b : Nat × Nat) : Nat × Nat :=
  let t1 := fpmul1271 a.1 b.1
  let t2 := fpmul1271 a.2 b.2
  let t3 := fpadd1271 a.1 a.2
  let t4 := fpadd1271 b.1 b.2
  let c0 := fpsub1271 t1 t2
  let t3b := fpmul1271 t3 t4
  let t3c := fpsub1271 t3b t1
  (c0, fpsub1271 t3c t2)

/-- `fp2addsub1271`: `c = 2a - b` (the source doubles `a` in place first). -/
def fp2addsub1271 (a b : Nat × Nat) : Nat × Nat :=
  fp2sub1271 (fp2add1271 a a) b

/-- The f2elm constant 1. -/
def f2one : Nat × Nat := (1, 0)

/-!
Curve structures and constants.  A point in affine coordinates is a pair of
f2elm values; the extended and precomputed representations follow the structs
of the source.
-/

/-- `point_affine`. -/
structure PointAffine where
  x : Nat × Nat
  y : Nat × Nat
deriving DecidableEq

/-- `point_extproj`. -/
structure PointExtproj where
  x : Nat × Nat
  y : Nat × Nat
  z : Nat × Nat
  ta : Nat × Nat
  tb : Nat × Nat
deriving DecidableEq

/-- `point_extproj_precomp`. -/
structure PointExtprojPrecomp where
  xy : Nat × Nat
  yx : Nat × Nat
  z2 : Nat × Nat
  t2 : Nat × Nat
deriving DecidableEq

/-- `point_precomp`. -/
structure PointPrecomp where
  xy : Nat × Nat
  yx : Nat × Nat
  t2 : Nat × Nat
deriving DecidableEq

/-- Abbreviation used by the table transcriptions: a `point_precomp` given by
the six felm values of its three f2elm coordinates. -/
def pp3 (a b c d e f : Nat) : PointPrecomp := ⟨(a, b), (c, d), (e, f)⟩

/-- The curve parameter d (`PARAMETER_d`, a GF(p^2) constant). -/
def PARAMETER_d : Nat × Nat := (0xe40000000000000142, 0x5e472f846657e0fcb3821488f1fc0c8d)

/-- `ctau1`. -/
def ctau1 : Nat × Nat := (0x1964de2c3afad20c74dcd57cebce74c3, 0xc0000000000000012)

/-- `ctaudual1`. -/
def ctaudual1 : Nat × Nat := (0x4aa740eb230586529ecaa6d9decdf034, 0x7ffffffffffffff40000000000000011)

/-- `cphi0`. -/
def cphi0 : Nat × Nat := (0x5fffffffffffffff7, 0x2553a0759182c3294f65536cef66f81a)

/-- `cphi1`. -/
def cphi1 : Nat × Nat := (0x50000000000000007, 0x62c8caa0c50c62cf334d90e9e28296f9)

/-- `cphi2`. -/
def cphi2 : Nat × Nat := (0xf0000000000000015, 0x78df262b6c9b5c982c2cb7154f1df391)

/-- `cphi3`. -/
def cphi3 : Nat × Nat := (0x20000000000000003, 0x5084c6491d76342a92440457a7962ea4)

/-- `cphi4`. -/
def cphi4 : Nat × Nat := (0x30000000000000003, 0x12440457a7962ea4a1098c923aec6855)

/-- `cphi5`. -/
def cphi5 : Nat × Nat := (0xa000000000000000f, 0x459195418a18c59e669b21d3c5052df3)

/-- `cphi6`. -/
def cphi6 : Nat × Nat := (0x120000000000000018, 0xb232a8314318b3ccd3643a78a0a5be7)

/-- `cphi7`. -/
def cphi7 : Nat × Nat := (0x180000000000000023, 0x3963bc1c99e2ea1a66c183035f48781a)

/-- `cphi8`. -/
def cphi8 : Nat × Nat := (0xaa00000000000000f0, 0x1f529f860316cbe544e251582b5d0ef0)

/-- `cphi9`. -/
def cphi9 : Nat × Nat := (0x8700000000000000bef, 0xfd52e9cfe00375b014d3e48976e2505)

/-- `cpsi1`. -/
def cpsi1 : Nat × Nat := (0x2af99e9a83d54a02edf07f4767e346ef, 0xde000000000000013a)

/-- `cpsi2`. -/
def cpsi2 : Nat × Nat := (0xe40000000000000143, 0x21b8d07b99a81f034c7deb770e03f372)

/-- `cpsi3`. -/
def cpsi3 : Nat × Nat := (0x60000000000000009, 0x4cb26f161d7d69063a6e6abe75e73a61)

/-- `cpsi4`. -/
def cpsi4 : Nat × Nat := (0x7ffffffffffffff9fffffffffffffff6, 0x334d90e9e28296f9c59195418a18c59e)

/-- The prime subgroup order (`curve_order`, 256-bit little-endian words). -/
def curveOrder : Nat := 0x29cbc14e5e0a72f05397829cbc14e5dfbd004dfe0f79992fb2540ec7768ce7

/-- `Montgomery_Rprime` (the global 4-word constant). -/
def montgomeryRprime : Nat := 0x6a5f16ac8f9d33d01b7c72136f61c173ea5aaea6b387dc81db8795ff3d621

/-- `ell1` (fast-Babai rounding constant). -/
def ell1c : Nat := 0x7fc5bb5c5ea2be5dff75682ace6a6bd66259686e09d1a7d4f

/-- `ell2`. -/
def ell2c : Nat := 0x38fd4b04caa6c0f8a2bd235580f468d8dd1ba1d84dd627afb

/-- `ell3`. -/
def ell3c : Nat := 0xd038bf8d0bffbaf6c42bd6c965dca9029b291a33678c203c

/-- `ell4`. -/
def ell4c : Nat := 0x31b073877a22d841081cbdc3714983d8212e5666b77e7fdc0

/-- `point_setup`: conversion to representation (X,Y,1,Ta,Tb). -/
def point_setup (P : PointAffine) : PointExtproj :=
  ⟨P.x, P.y, f2one, P.x, P.y⟩

/-- `ecc_point_validate`: evaluate `-x^2 + y^2 - 1 - d*x^2*y^2` and accept when
each felm component of the result is the all-zero word pair or the all-one
word pair (the source's `!(t1[i][0] | t1[i][1]) || !((t1[i][0]+1) | (t1[i][1]+1))`,
i.e. the value 0 or 2^128 - 1). -/
def ecc_point_validate (P : PointExtproj) : Bool :=
  let t1 := fp2sqr1271 P.y
  let t2 := fp2sqr1271 P.x
  let t3 := fp2sub1271 t1 t2
  let t1b := fp2mul1271 t1 t2
  let t2b := fp2mul1271 t1b PARAMETER_d
  let t2c := fp2add1271 t2b f2one
  let t1c := fp2sub1271 t3 t2c
  (t1c.1 == 0 || t1c.1 == 2 ^ 128 - 1) && (t1c.2 == 0 || t1c.2 == 2 ^ 128 - 1)

/-- `eccdouble`. -/
def eccdouble (P : PointExtproj) : PointExtproj :=
  let t1 := fp2sqr1271 P.x
  let t2 := fp2sqr1271 P.y
  let x3 := fp2add1271 P.x P.y
  let tbf := fp2add1271 t1 t2
  let t1b := fp2sub1271 t2 t1
  let ta1 := fp2sqr1271 x3
  let t2b := fp2sqr1271 P.z
  let taf := fp2sub1271 ta1 tbf
  let t2c := fp2addsub1271 t2b t1b
  let yf := fp2mul1271 t1b tbf
  let xf := fp2mul1271 t2c taf
  let zf := fp2mul1271 t1b t2c
  ⟨xf, yf, zf, taf, tbf⟩

/-- `eccadd_core`. -/
def eccadd_core (P Q : PointExtprojPrecomp) : PointExtproj :=
  let z1 := fp2mul1271 P.t2 Q.t2
  let t1 := fp2mul1271 P.z2 Q.z2
  let x1 := fp2mul1271 P.xy Q.xy
  let y1 := fp2mul1271 P.yx Q.yx
  let t2 := fp2sub1271 t1 z1
  let t1b := fp2add1271 t1 z1
  let tbf := fp2sub1271 x1 y1
  let taf := fp2add1271 x1 y1
  let xf := fp2mul1271 tbf t2
  let zf := fp2mul1271 t1b t2
  let yf := fp2mul1271 taf t1b
  ⟨xf, yf, zf, taf, tbf⟩

/-- `R1_to_R2`: (X,Y,Z,Ta,Tb) to (X+Y, Y-X, 2Z, 2dT). -/
def R1_to_R2 (P : PointExtproj) : PointExtprojPrecomp :=
  let t2a := fp2add1271 P.ta P.ta
  let xy := fp2add1271 P.x P.y
  let yx := fp2sub1271 P.y P.x
  let t2b := fp2mul1271 t2a P.tb
  let z2 := fp2add1271 P.z P.z
  ⟨xy, yx, z2, fp2mul1271 t2b PARAMETER_d⟩

/-- `R1_to_R3`: (X,Y,Z,Ta,Tb) to (X+Y, Y-X, Z, T). -/
def R1_to_R3 (P : PointExtproj) : PointExtprojPrecomp :=
  ⟨fp2add1271 P.x P.y, fp2sub1271 P.y P.x, P.z, fp2mul1271 P.ta P.tb⟩

/-- `eccadd`: complete addition `P := P + Q`. -/
def eccadd (Q : PointExtprojPrecomp) (P : PointExtproj) : PointExtproj :=
  eccadd_core Q (R1_to_R3 P)

/-- `eccmadd`: mixed addition `P := P + Q` for a precomputed `Q`. -/
def eccmadd (Q : PointPrecomp) (P : PointExtproj) : PointExtproj :=
  let ta1 := fp2mul1271 P.ta P.tb
  let t1 := fp2add1271 P.z P.z
  let ta2 := fp2mul1271 ta1 Q.t2
  let z1 := fp2add1271 P.x P.y
  let tb1 := fp2sub1271 P.y P.x
  let t2 := fp2sub1271 t1 ta2
  let t1b := fp2add1271 t1 ta2
  let ta3 := fp2mul1271 Q.xy z1
  let x1 := fp2mul1271 Q.yx tb1
  let zf := fp2mul1271 t1b t2
  let tbf := fp2sub1271 ta3 x1
  let taf := fp2add1271 ta3 x1
  let xf := fp2mul1271 tbf t2
  let yf := fp2mul1271 taf t1b
  ⟨xf, yf, zf, taf, tbf⟩

/-- `eccnorm`: normalize to affine coordinates, with full reduction.  The
inverse of Z is `conj(Z) * (|Z|^2)^(-1)`, the latter computed with the fixed
addition chain (`fpexp1251` then two squarings and a multiplication give
`n^(4*(2^125-1)+1) = n^(p-2)`). -/
def eccnorm (P : PointExtproj) : PointAffine :=
  let n := fpadd1271 (fpsqr1271 P.z.1) (fpsqr1271 P.z.2)
  let e := fpexp1251 n
  let e2 := fpsqr1271 (fpsqr1271 e)
  let ninv := fpmul1271 n e2
  let z0 := fpmul1271 P.z.1 ninv
  let z1 := fpmul1271 (fpneg1271 P.z.2) ninv
  let x := fp2mul1271 P.x (z0, z1)
  let y := fp2mul1271 P.y (z0, z1)
  ⟨(mod1271 x.1, mod1271 x.2), (mod1271 y.1, mod1271 y.2)⟩

/-- `eccneg_extproj_precomp`: negation by swapping X+Y with Y-X and negating 2dT. -/
def eccneg_extproj_precomp (P : PointExtprojPrecomp) : PointExtprojPrecomp :=
  ⟨P.yx, P.xy, P.z2, fp2neg1271 P.t2⟩

/-- `eccneg_precomp`. -/
def eccneg_precomp (P : PointPrecomp) : PointPrecomp :=
  ⟨P.yx, P.xy, fp2neg1271 P.t2⟩

/-- `ecc_tau` (Ta and Tb are not written by the source and stay stale). -/
def ecc_tau (P : PointExtproj) : PointExtproj :=
  let t0 := fp2sqr1271 P.x
  let t1 := fp2sqr1271 P.y
  let x1 := fp2mul1271 P.x P.y
  let y1 := fp2sqr1271 P.z
  let z1 := fp2add1271 t0 t1
  let t0b := fp2sub1271 t1 t0
  let y2 := fp2add1271 y1 y1
  let x2 := fp2mul1271 x1 t0b
  let y3 := fp2sub1271 y2 t0b
  let xf := fp2mul1271 x2 ctau1
  let yf := fp2mul1271 y3 z1
  let zf := fp2mul1271 z1 t0b
  ⟨xf, yf, zf, P.ta, P.tb⟩

/-- `ecc_tau_dual`. -/
def ecc_tau_dual (P : PointExtproj) : PointExtproj :=
  let t0 := fp2sqr1271 P.x
  let ta1 := fp2sqr1271 P.z
  let t1 := fp2sqr1271 P.y
  let z1 := fp2add1271 ta1 ta1
  let taf := fp2sub1271 t1 t0
  let t0b := fp2add1271 t0 t1
  let x1 := fp2mul1271 P.x P.y
  let z2 := fp2sub1271 z1 taf
  let tbf := fp2mul1271 x1 ctaudual1
  let yf := fp2mul1271 z2 taf
  let xf := fp2mul1271 tbf t0b
  let zf := fp2mul1271 z2 t0b
  ⟨xf, yf, zf, taf, tbf⟩

/-- `ecc_delphidel`. -/
def ecc_delphidel (P : PointExtproj) : PointExtproj :=
  let t4 := fp2sqr1271 P.z
  let t3 := fp2mul1271 P.y P.z
  let t0 := fp2mul1271 t4 cphi4
  let t2 := fp2sqr1271 P.y
  let t0b := fp2add1271 t0 t2
  let t1 := fp2mul1271 t3 cphi3
  let t5 := fp2sub1271 t0b t1
  let t0c := fp2add1271 t0b t1
  let t0d := fp2mul1271 t0c P.z
  let t1b := fp2mul1271 t3 cphi1
  let t0e := fp2mul1271 t0d t5
  let t5b := fp2mul1271 t4 cphi2
  let t5c := fp2add1271 t2 t5b
  let t6 := fp2sub1271 t1b t5c
  let t1c := fp2add1271 t1b t5c
  let t6b := fp2mul1271 t6 t1c
  let t6c := fp2mul1271 t6b cphi0
  let x1 := fp2mul1271 P.x t6c
  let t6d := fp2sqr1271 t2
  let t2b := fp2sqr1271 t3
  let t3b := fp2sqr1271 t4
  let t1d := fp2mul1271 t2b cphi8
  let t5d := fp2mul1271 t3b cphi9
  let t1e := fp2add1271 t1d t6d
  let t2c := fp2mul1271 t2b cphi6
  let t3c := fp2mul1271 t3b cphi7
  let t1f := fp2add1271 t1e t5d
  let t2d := fp2add1271 t2c t3c
  let t1g := fp2mul1271 t1f P.y
  let y1 := fp2add1271 t6d t2d
  let x2 := fp2mul1271 x1 t1g
  let y2 := fp2mul1271 y1 cphi5
  let x3 := (x2.1, fpneg1271 x2.2)
  let y3 := fp2mul1271 y2 P.z
  let z1 := fp2mul1271 t0e t1g
  let y4 := fp2mul1271 y3 t0e
  ⟨x3, (y4.1, fpneg1271 y4.2), (z1.1, fpneg1271 z1.2), P.ta, P.tb⟩

/-- `ecc_delpsidel`. -/
def ecc_delpsidel (P : PointExtproj) : PointExtproj :=
  let x0 := (P.x.1, fpneg1271 P.x.2)
  let z0 := (P.z.1, fpneg1271 P.z.2)
  let y0 := (P.y.1, fpneg1271 P.y.2)
  let t2 := fp2sqr1271 z0
  let t0 := fp2sqr1271 x0
  let x1 := fp2mul1271 x0 t2
  let z1 := fp2mul1271 t2 cpsi2
  let t1 := fp2mul1271 t2 cpsi3
  let t2b := fp2mul1271 t2 cpsi4
  let z2 := fp2add1271 t0 z1
  let t2c := fp2add1271 t0 t2b
  let t1b := fp2add1271 t0 t1
  let t2d := fp2neg1271 t2c
  let z3 := fp2mul1271 z2 y0
  let x2 := fp2mul1271 x1 t2d
  let yf := fp2mul1271 t1b z3
  let xf := fp2mul1271 x2 cpsi1
  let zf := fp2mul1271 z3 t2d
  ⟨xf, yf, zf, P.ta, P.tb⟩

/-- `ecc_psi`. -/
def ecc_psi (P : PointExtproj) : PointExtproj :=
  ecc_tau_dual (ecc_delpsidel (ecc_tau P))

/-- `ecc_phi`. -/
def ecc_phi (P : PointExtproj) : PointExtproj :=
  ecc_tau_dual (ecc_delphidel (ecc_tau P))

/-!
Scalar arithmetic modulo the group order.  256-bit scalars are `Nat` values;
their four 64-bit words are `s % 2^64, s / 2^64 % 2^64, ...`.  The word-level
carry chains are transcribed line by line: `_umul128` low/high parts are
`x*y % 2^64` and `x*y / 2^64`, a plain C `*` of two words is `x*y % 2^64`,
and every `_addcarry_u64` becomes an explicit `% 2^64` / `/ 2^64` pair.
-/

/-- `Montgomery_multiply_mod_order(ma, mb)`: `mc = ma*mb*r' mod order`.
`multiply` (the exact 4x4-word schoolbook product with full carry
propagation) is the product of the 256-bit values; the truncated chain
computing `Q = P*r' mod 2^256` and the final add/subtract correction follow
the source line by line. -/
def Montgomery_multiply_mod_order (ma mb : Nat) : Nat :=
  let P := if mb = 1 then ma % 2 ^ 256 else (ma % 2 ^ 256) * (mb % 2 ^ 256)
  let p0 := P % 2 ^ 64
  let p1 := P / 2 ^ 64 % 2 ^ 64
  let p2 := P / 2 ^ 128 % 2 ^ 64
  let p3 := P / 2 ^ 192 % 2 ^ 64
  let R0 := 0xE12FE5F079BC3929
  let R1 := 0xD75E78B8D1FCDCF3
  let R2 := 0xBCE409ED76B5DB21
  let R3 := 0xF32702FDAFC1C074
  let q0 := p0 * R0 % 2 ^ 64
  let u := p0 * R0 / 2 ^ 64
  let q1 := (p0 * R1 % 2 ^ 64 + u) % 2 ^ 64
  let u := (p0 * R1 % 2 ^ 64 + u) / 2 ^ 64 + p0 * R1 / 2 ^ 64
  let q2 := (p0 * R2 % 2 ^ 64 + u) % 2 ^ 64
  let u := (p0 * R2 % 2 ^ 64 + u) / 2 ^ 64 + p0 * R2 / 2 ^ 64
  let q3 := (p0 * R3 % 2 ^ 64 + u) % 2 ^ 64
  let q1b := (q1 + p1 * R0 % 2 ^ 64) % 2 ^ 64
  let u := (q1 + p1 * R0 % 2 ^ 64) / 2 ^ 64 + p1 * R0 / 2 ^ 64
  let v := (p1 * R1 % 2 ^ 64 + u) % 2 ^ 64
  let u := (p1 * R1 % 2 ^ 64 + u) / 2 ^ 64 + p1 * R1 / 2 ^ 64
  let c := (q2 + v) / 2 ^ 64
  let q2b := (q2 + v) % 2 ^ 64
  let v := (p1 * R2 % 2 ^ 64 + u + c) % 2 ^ 64
  let q3b := (q3 + v) % 2 ^ 64
  let q2c := (q2b + p2 * R0 % 2 ^ 64) % 2 ^ 64
  let u := (q2b + p2 * R0 % 2 ^ 64) / 2 ^ 64 + p2 * R0 / 2 ^ 64
  let v := (p2 * R1 % 2 ^ 64 + u) % 2 ^ 64
  let q3c := (q3b + v) % 2 ^ 64
  let q3d := (q3c + p3 * R0 % 2 ^ 64) % 2 ^ 64
  let Q := q0 + 2 ^ 64 * q1b + 2 ^ 128 * q2c + 2 ^ 192 * q3d
  let temp := Q * curveOrder
  let S := P + temp
  let cadd := S / 2 ^ 512
  let hi := S / 2 ^ 256 % 2 ^ 256
  let mc := (hi + 2 ^ 256 - curveOrder) % 2 ^ 256
  let bsub : Nat := if hi < curveOrder then 1 else 0
  if cadd ≠ bsub then (mc + curveOrder) % 2 ^ 256 else mc

/-- `mul_truncate(s, C)`: the truncated multiply-high used by `decompose`,
transcribed carry for carry (variables named after the source's temporaries). -/
def mul_truncate (s C : Nat) : Nat :=
  let s0 := s % 2 ^ 64
  let s1 := s / 2 ^ 64 % 2 ^ 64
  let s2 := s / 2 ^ 128 % 2 ^ 64
  let s3 := s / 2 ^ 192 % 2 ^ 64
  let C0 := C % 2 ^ 64
  let C1 := C / 2 ^ 64 % 2 ^ 64
  let C2 := C / 2 ^ 128 % 2 ^ 64
  let C3 := C / 2 ^ 192 % 2 ^ 64
  let high00 := s0 * C0 / 2 ^ 64
  let low10 := s1 * C0 % 2 ^ 64
  let high10 := s1 * C0 / 2 ^ 64
  let t0 := (high00 + low10) % 2 ^ 64
  let t1 := (high10 + (high00 + low10) / 2 ^ 64) % 2 ^ 64
  let low01 := s0 * C1 % 2 ^ 64
  let high01 := s0 * C1 / 2 ^ 64
  let c := (t0 + low01) / 2 ^ 64
  let t3 := (t1 + high01 + c) % 2 ^ 64
  let t2 := (t1 + high01 + c) / 2 ^ 64
  let low20 := s2 * C0 % 2 ^ 64
  let high20 := s2 * C0 / 2 ^ 64
  let t4 := (t3 + low20) % 2 ^ 64
  let t5 := (t2 + high20 + (t3 + low20) / 2 ^ 64) % 2 ^ 64
  let low02 := s0 * C2 % 2 ^ 64
  let high02 := s0 * C2 / 2 ^ 64
  let t7 := (t4 + low02) % 2 ^ 64
  let t8 := (t5 + high02 + (t4 + low02) / 2 ^ 64) % 2 ^ 64
  let t6 := (t5 + high02 + (t4 + low02) / 2 ^ 64) / 2 ^ 64
  let low11 := s1 * C1 % 2 ^ 64
  let high11 := s1 * C1 / 2 ^ 64
  let t10 := (t8 + high11 + (t7 + low11) / 2 ^ 64) % 2 ^ 64
  let t9 := (t8 + high11 + (t7 + low11) / 2 ^ 64) / 2 ^ 64
  let low03 := s0 * C3 % 2 ^ 64
  let high03 := s0 * C3 / 2 ^ 64
  let t11 := (t10 + low03) % 2 ^ 64
  let t12 := ((t6 + t9) + high03 + (t10 + low03) / 2 ^ 64) % 2 ^ 64
  let low30 := s3 * C0 % 2 ^ 64
  let high30 := s3 * C0 / 2 ^ 64
  let t13 := (t11 + low30) % 2 ^ 64
  let t14 := (t12 + high30 + (t11 + low30) / 2 ^ 64) % 2 ^ 64
  let low12 := s1 * C2 % 2 ^ 64
  let high12 := s1 * C2 / 2 ^ 64
  let t15 := (t13 + low12) % 2 ^ 64
  let t16 := (t14 + high12 + (t13 + low12) / 2 ^ 64) % 2 ^ 64
  let low21 := s2 * C1 % 2 ^ 64
  let high21 := s2 * C1 / 2 ^ 64
  ((t15 + low21) / 2 ^ 64 + t16 + high21 + s1 * C3 + s2 * C2 + s3 * C1) % 2 ^ 64

/-- The lattice basis words `B11..B44` and rounding offsets `C1..C4`. -/
def B11c : Nat := 0xF6F900D81F5F5E6A
def B12c : Nat := 0x1363E862C22A2DA0
def B13c : Nat := 0xF8BD9FCE1337FCF1
def B14c : Nat := 0x084F739986B9E651
def B21c : Nat := 0xE2B6A4157B033D2C
def B22c : Nat := 0x0000000000000001
def B23c : Nat := 0xFFFFFFFFFFFFFFFF
def B24c : Nat := 0xDA243A43722E9830
def B31c : Nat := 0xE85452E2DCE0FCFE
def B32c : Nat := 0xFD3BDEE51C7725AF
def B33c : Nat := 0x2E4D21C98927C49F
def B34c : Nat := 0xF56190BB3FD13269
def B41c : Nat := 0xEC91CBF56EF737C1
def B42c : Nat := 0xCEDD20D23C1F00CE
def B43c : Nat := 0x068A49F02AA8A9B5
def B44c : Nat := 0x18D5087896DE0AEA
def C1c : Nat := 0x72482C5251A4559C
def C2c : Nat := 0x59F95B0ADD276F6C
def C3c : Nat := 0x7DD2D17C4625FA78
def C4c : Nat := 0x6BC57DEF56CE8877

/-- `decompose(k)`: the four 64-bit sub-scalars (all word arithmetic wraps
modulo 2^64), with the parity fix subtracting `(B41, B42, B43, B44)` when the
first sub-scalar is even. -/
def decompose (k : Nat) : Nat × Nat × Nat × Nat :=
  let a1 := mul_truncate k ell1c
  let a2 := mul_truncate k ell2c
  let a3 := mul_truncate k ell3c
  let a4 := mul_truncate k ell4c
  let s0 := (a1 * B11c + a2 * B21c + a3 * B31c + a4 * B41c + C1c + k % 2 ^ 64) % 2 ^ 64
  let s1 := (a1 * B12c + a2 * B22c + a3 * B32c + a4 * B42c + C2c) % 2 ^ 64
  let s2 := (a1 * B13c + a2 * B23c + a3 * B33c + a4 * B43c + C3c) % 2 ^ 64
  let s3 := (a1 * B14c + a2 * B24c + a3 * B34c + a4 * B44c + C4c) % 2 ^ 64
  if s0 % 2 = 0 then
    ((s0 + 2 ^ 64 - B41c) % 2 ^ 64, (s1 + 2 ^ 64 - B42c) % 2 ^ 64,
     (s2 + 2 ^ 64 - B43c) % 2 ^ 64, (s3 + 2 ^ 64 - B44c) % 2 ^ 64)
  else (s0, s1, s2, s3)

/-- The body of `wNAF_recode`: produce the digit string most-significant-last,
as the source does (each nonzero digit is followed by `w - 1` zeros when more
scalar remains).  Structural recursion on a fuel bound; 130 exceeds the
number of loop iterations for any 64-bit scalar. -/
def wNAFsteps (fuel : Nat) (scalar : Nat) (w : Nat) : List Int :=
  match fuel with
  | 0 => []
  | fuel + 1 =>
    if scalar = 0 then []
    else if scalar % 2 = 0 then 0 :: wNAFsteps fuel (scalar / 2) w
    else
      let digit : Int := (scalar % 2 ^ w : Nat)
      let d : Int := if digit > (2 ^ (w - 1) - 1 : Int) then digit - 2 ^ w else digit
      let scalar' := scalar / 2 ^ w + (if d < 0 then 1 else 0)
      if scalar' ≠ 0 then (d :: List.replicate (w - 1) 0) ++ wNAFsteps fuel scalar' w
      else [d]

/-- `wNAF_recode(scalar, w, digits)`: the 65-entry digit array (the tail is
zero-filled by the final `memset`). -/
def wNAF_recode (scalar w : Nat) : List Int :=
  wNAFsteps 130 scalar w ++ List.replicate 65 0

/-!
The precomputed tables, transcribed from the source: `FIXED_BASE_TABLE`
(80 `point_precomp` entries of 12 words each) and `DOUBLE_SCALAR_TABLE`
(256 entries).  Each `pp3` argument is one felm value, the two 64-bit table
words combined as `low + 2^64 * high`.
-/

def FIXED_BASE_TABLE : List PointPrecomp :=
  [
  pp3 0x287460bf1d502b5fe18a34f3a703e631 0xc3ba0378b86acdee02e62f7e4f90353 0x740b7c7824f0c55590bf0f98b0937edc 0x4ffcf5b93a9557a5b321239123a01366 0x5948d137556c97c6297afccbabda42bb 0xcaf2b720a341f27a8189a393330684c,
  pp3 0x5546128188dd12a83a8ba018fd188787 0x1baeeaf8b84d2049b0b3cc33c09f9b77 0x18f7cd12e1a6f789006425a611faf900 0x448e05eeace7b6eb6dccf09a12556066 0x6d911dcb2957bdb4bf2f33689d2829b0 0x6c54305babee5019f2353dbdc3c03ee,
  pp3 0x72963058648a364d2eaf45713dafa125 0x4f41c7f8bfe2b06961b7771f9d313ef2 0x4d33858644330a42408623ae599790ac 0x74df72e0e598e114fc5696649cdd7487 0x76bd4115fe4b0d8c9a06325913c110b 0x249240147cee3a0876619e65d6bff3d9,
  pp3 0x28aac8a28829f706d695b96148965a73 0x441ca9e89f03e00e41f1c05329f7a57b 0x58f28cafc832b7f4e1aa38ab8bf7241e 0x34b6d106284e863ecadaf8b8fa5400c6 0x6dbe7790017d9c49f5498cab3af15097 0x6371925bf23ae00663bf76a81448e8bc,
  pp3 0x4ede70eed68056abc5e2c721bded81fa 0x4752fd192f0a9aa88f3cd9b5b4975810 0x11ddf7d2c8468662318794eb1f734414 0x465575b37ab067702613b06f72b1a34e 0x48894050790298ce40b9845f82638d2b 0x4f3560d2889b2fbbedb93a501b4f131,
  pp3 0x56f25ee54d92858a457dd875115b278b 0x78fca4187d7499692d4c1cdce0c977e 0x117b28853ddc2bf63bbb2ded76cc22a1 0x73079e25e0ea8a8f43f3767cb9c2baa2 0x2e77721480d9ef920177992b5a15796d 0x258f176b7af7576dbe09883567372916,
  pp3 0x7285925f9a7353a4308338fd6168391b 0x53259ee7423aeb51862c0fd04fe85114 0x1a4f1d661fa071fcfe0031a84b3b1a68 0x60185c1adf196a6a2ddd54168dc928a7 0x6062094b4dcffc0349809717dc6da9b4 0x4a4fe06f277148a0a41ea6fa05fa7e8d,
  pp3 0x419a928bccb117337bb253a9ee9e80f0 0x1b2d1ae972814bb84323be66a9a039e 0x54df1e20cc979dd7a7588584d3051231 0x4e36e9975fdf1a0f91d906fe3e2f22dd 0x3e5e31baeee13433d81871746b747634 0x4b852ad97cfe77c6e4da80979573baa3,
  pp3 0x283d719b2fe6ef88e08b346714418b9e 0x75acfcef11d2d5c8b7339d2de45c180b 0xc54ac40a7134c4b8f40777a8c561876 0x6f357e5006a188bfb92e287d66baee08 0x747c45ef91dafd40c5903319ed1e6971 0x5dcb27edb3b3ef7dde4086a91d2f816e,
  pp3 0x51551f9f7096649843fdc46cfa1dd2ee 0x453455b3073fb07fb54534f761ed9bdc 0x679be25e758cf4dff24773e383cab70b 0x3dc9e5b8d6dc0f66da17edf2943eee29 0x1e65315bc5a8537f56a50cba413fb75b 0x73c9d8c8f425252e5ff90242802c7213,
  pp3 0x534f84b3ed414f333c637b8633198c8f 0x5ed57e941cdf33afad313e72dedd6902 0x73b63dea344713f95a6fe01d2a57306e 0x2df8c6e49f1a18db39cb70570f1c2bf3 0x501ae7cbbebe9062661bc349677797e4 0x372752811c01d515b52a88de8959643,
  pp3 0x378b317155554fc6010c57a2301bb928 0x5f0047b850d7db29f883fa4229a02cf1 0xd030627a850a2bc4d247ae328402daa 0x6ec9686b2d6db089b4e65d9a88a443f5 0x5c64e1d3f28d7600de202e08fea1d987 0x56392d36dd75334c157d17bef661bfb7,
  pp3 0x146d4f2d3d336afde25478d8bd19155c 0x2b185a9a6adf10c09bfbe00bf94e15e8 0x67997e1473101e80926527b3ed52ab7b 0x36f800c7fac99a7ab58f4ff4947cc541 0x4372e43640bc697bd0302e32400456d9 0x75d25afac9a23cbf9144cabb4750d898,
  pp3 0x74db216617fc4b07794591767655cbfe 0x1d543b5908417b237057b2242566d0c9 0x352309fd8b6cc3ef19c280b444428783 0x4ec0671a23c019f437833d6ac068ae72 0x44fe1adff224efe39d9836e1a3d05bb5 0x2efec86835a14150a296bc3ce57efb4a,
  pp3 0x18cc07d3953cd2062fe19c09fb194bca 0x671aa756581abcee5bdff217c9c0b9e0 0x1b6f254937a0a3fee1cc33ae28f7d1a2 0x74b95636d588921151503d1665babb83 0x1507ce189e2510bdbdb97ae4ea96f869 0x6a81765f05960929796e4d54fab93b13,
  pp3 0x3bdea532b245f6442e940521e5a833ed 0x64b94848ba6d4ed6bea76975ffd52693 0x71cf65da55639f259db52d0194e33ec7 0x12e4d13b6c62dc22ede73b1fdb5a8138 0x77a011d257b5fdd09d19b0c265185517 0x46844e151e3492d11fedc5caaecd84e4,
  pp3 0x5b3165c747e8f0997a423a31904220df 0x7802b556fc45595b1c665eeadf35e22e 0x17f2ab87957166ad85a2def4015bd2de 0x122a7ad1be408e6a19cf6d352060c1e5 0x20fb009d4d0adacf5b79bbc8645bf766 0x7041b4e90d420bde97526a272ba28538,
  pp3 0x3d398b66f0d242433b30113358dab057 0x1eae2409cd93809691a5999a03cd4708 0x171308378908196866dd6b604c36108c 0x34b06cb89704f1ca57cad6917125dcfd 0x698331198d544db9dcafe8e71f35abf2 0x200950e5559d2b6d6287676643af075b,
  pp3 0x7473317142ac13a2d4f63fc3ecdd9074 0x2c20ffe0244378ba96b0030805319356 0x4ee327219997fcf64889511ad26ac01a 0x6b617fb4a6d0a6d715ffe6e70f0bf8ea 0x3c8269f0864682774916dca1c52f7324 0x4e480b4f915a542cc24210c4c837e04b,
  pp3 0x31a501de44fd84b2c5fef3b09a7fe35e 0xba7e03ca5cce5ab79f29e4940a407b9 0x46f4c7810e26dadca7a8b2058a74d8ea 0x44db55025495a81146171ace94a1128a 0x4d4f172a43f306b27f889e1a4bf18d5c 0x6254775924d39aca33a99766bb1cffad,
  pp3 0x1c544dd078d9211dd855230ec225136e 0x69af1dc949dd38212fe9969f63f63ba 0x63ae90924bbbb595305bcf40cfe5c256 0x9780cf39fc0043ee451097793b7de06 0x3ace8a6c77577a37827af8e7eb798871 0x561dc07aaacea92b79df061332e055ba,
  pp3 0x6b85df83e0af53487e4422d9820d2673 0x35ead8e5157142bd1f151ac1ded8526b 0x5f2ea04d2594fde46da6ef6c33c79dd4 0x53b5401007b0331b91037d0cc027d5fa 0x4463bd259ba94195810f198a3d4ba5a3 0x78711761d64349ce32b894acec2acf9e,
  pp3 0x409e4b3f535b6463253ae1b3f51fe211 0x19d2b1029c21336a3a236d10da5e49de 0x942a31505190b192835f40436aadd90 0x3afe96c3ca8e1f9cc189131876828279 0x39e28db8625fd0919f1801b491230693 0x145155da729b280d9fab50355dd44c8e,
  pp3 0x5a0faa1a8c2b6c68d3ccf8101d4d76d5 0x51052ce3f566c7733cc66c84cb54ea8a 0x7586118a01ccf0243bee14de65ae9ff5 0x35ff022d261d93d6089e791c896bf15e 0x4f1de98f95b7b8f6cd3ce13d8f7d1cf9 0x61ad9e3c23f6dd2951e68a2462dc41b4,
  pp3 0x5d52fe073f9decf3584fea6480ebdb51 0x1dfa03c980b1696a9afe483eadf336d5 0x697bf55d361100ed55f73d47ff819a19 0x618c94467fce259fded4804446399419 0x7c935b98dd933c0f2597ff1f08ef50c 0x1e9a0d06af13148fbb758cbc78ded5f6,
  pp3 0x28396ca1962d4994879ce1457f4cd4db 0x1e570f3da4c527b1f5095a3dc57605c3 0x591ee376fdd01cce2af69a3904935787 0x5464d651b2f395d1f77b58df88bc8633 0x6ce2df4bf65b6b28afbc096b1e9a86ae 0x6382011d8d2d66d03b3a828d2e9d3e08,
  pp3 0x50ddf70d3b6d56af94987ca64d3d193d 0x39208098bc5b1f928d5df67cc8ad15a9 0x323bbc87b86a7ba9ce99f520dfd5a4fb 0x56ffdcbdf2200055e13f88a8d803c789 0x70011566460c0c163aff0da31b24c72d 0x1c069bfeb7077bc276f7b7f53ac46a13,
  pp3 0x6d73e34af088de3d8f47193ca14a3c36 0x5b404738b77f1ec8634b2bd9317d6634 0x54abbcaca546a46f34fabb71ca1cb1d 0x6971abbf958bdef1e8cdcadd08eda660 0x1e158585b079b67c41338557dddb4eaf 0x53b36d32b3cea469d2270474cfa26068,
  pp3 0x4668e92c5f73314e011523c16c543d08 0x4037d1aa713931abaef3ebe4117acd1 0x6b80cd55a44c157568e118e4e390c68d 0x5cc5475feee99ab27307ea8a5729c032 0x3f09157e5db3dcd834450e424c14ac75 0x27a899c54e652f8f62ce2b1b50588052,
  pp3 0x4b4044ddd5813eec0acd039f2fc2a5ed 0x242551bce71d33a1c04d189e90a75958 0x2988820f809d815d95af96b51f87f05 0x2ef60745f4364b43b27f65f73b9483c5 0x2b86c9b48756bb8acb66bdc93f4fb8b9 0x441e70184e6fe9aaf8ebdae09b9867a1,
  pp3 0x47d8d65a8b4d6992fdc2530330cc1289 0x1ca8693cc3bd99d58c03b6fa30ae74be 0x3da04764d9f4fff5699eb1511018f2a6 0x2fa911612cb857ff361720433d3aab59 0x48a219b933a5c619a4057da10c2f1cac 0x73f8895046a09dad42341020d15f0bc5,
  pp3 0x4194771b368e622e1bad5312c67421b8 0x4b4564e45467f1c28cc71a79e44e0dff 0x391b71dcd75fbea97759f16aafe52093 0x23087545444130d2a1c0694ab4ef798 0x64e26f32d73361e74b7ae1ffcfaa1aa1 0x148cfa6feaecee158da47038bd0b54b9,
  pp3 0x25d44ea8d31543de3756d4d479c2cc3d 0x2c2047033d27f37fd82c8bef26bb2c43 0x77943117a3383b7d5bd33d9837dad260 0x3c7c41272a225bf212071d697ea583f2 0x5d61030c68b6370492ebbdfaf1f03ad3 0x12404b34771a3636ca6e2853baee75d1,
  pp3 0x2bd261916f9be3b0be13c46326667e4f 0x74520d8a1794cb4886e3f8cbadc80f89 0x5cee741e1e53eb021e15c745024cf97e 0x625812961cc0862c8d088de0af99cda1 0x60bbc768c424f7a44313437321c0e934 0x37b8ea9f14a915b8aba71fbf3c10e143,
  pp3 0x74a08828ff77845c8d96ec65c40213ff 0x17e86671161c8706bedb7194daf607a3 0x68552ac494916f09aceb98e0524059cf 0x68442ebcdde21b704cd2971baf1b3c47 0x6a6955d3635fa47a19629b8c0e867595 0x66dd3ef4fcf050c46fab45e0f2e393ad,
  pp3 0x14eb5b751b0bcf9cbb0b7abcfddc7df1 0x5c496f73fff0600a1cf79f9ca2fd411d 0x46c1016a2322d8a949648d8555426d70 0x609eb65209ddb633b57fdb870d9b6d4f 0x772fb5b5c8afaf27e70f9166bedc82c5 0x7f75b141112dbc8d79a294d9b0227a20,
  pp3 0x5953d0aac48217b198d1c7f88e070020 0x267d1dc11e614c45e28253ebe15f33ff 0x4eaaab5c82fe5495be64f50ab99e2246 0x67d3786de6aa1b4d927d5ac07e60bed0 0x63d93844a35eea9ba71962bf0f6e2945 0x169c38d2eb28f5a1b34228c7d26640ac,
  pp3 0x71478457cdaa1e144b7972b33439dc22 0x669d8796e78fd4f15226e125ec1d58c7 0x327c62b55aebbecf750dd1aaaa44a07f 0x2ab3f95d01eb364e006b8e95b54fbd25 0x2a1b9bd75a57e725fcbe5080c0d5e196 0x751cf4af849b7a731d2b2b6758139b5d,
  pp3 0xcee3a4cb83a4bc164a7d2e337d00a5 0x53d899148d285023498e0366dbe28f9 0x4a99132208d68e7401665d64cab0fb69 0x1d34b0f9172122bbba44bbd4bd3f915d 0x8e7a43dd5334b605d114dc729e8a9f3 0x5cb7be1b80264f6228db8e9232f0f3e8,
  pp3 0x336ae7ccf7e3a1b29af2c78782508f23 0x573d2e1b2b8a68727fe2d4ee2dd194be 0x200bc1375b1f42433332ea3363b2ea36 0x42021fca53995c5e65c47c8c06b3260d 0x311fba6a23196d2c2f7e6cf49bb19946 0x61eeac142711b0dcc30c13b62be0d70d,
  pp3 0x70169bcbe6bd21d788526996597d35d4 0x2ade531472c1b94da0f1b2d0ad29a510 0x2d2a1794e85cdb3811e320dc189873e7 0x4b06d5b54525f6f7a0a8c453a6f621e3 0x1d4216555d578730f42916691848ec1c 0x66dd9f39a1f3565ff8c60da7290a5b4e,
  pp3 0x4291967a4a369ee455ac29d937b474a0 0x3d46e8900651c310918dacaa12e6bc89 0x16f62bf56da5ca39af055430a00e90b1 0xd64dadf63fbbcd51a021c33488c51e6 0x3b3319d7dd74203a0918ece59dbfea7c 0x13b792dc908c59e61d88545b8b9fa90c,
  pp3 0x321a5dbeb74bf1270a2d939a9c3d0979 0x22ec9ecafd26bc995e5947fff66d8470 0x593f56c0559dd846de17ca8293b10536 0x23c6b0fdf7448b1c1148373375485023 0x573e91962726ea70377904458a27804f 0x51ba082049f4f85e35e1b24f3235ac70,
  pp3 0x5d29a21e3308e1dd4bc4918160d47194 0x50dbbd2f4f31d0fb7e15894b3e6e4e33 0x3418add21b634710ef248bd235a9c9de 0x7c8414ad9a08c99f96c7233a52363bd2 0x5729021a1193579abc6acb4a54e6c05c 0x3d0b4ff9e17c2a730627c3e00b08fa1c,
  pp3 0x75b27bb3bc7bfe48d507e8755990317f 0x7b9795fc1b706e4644a80f2c6ce651f5 0x75ade50ababffaa89de75bdefdf9a640 0x6f3ddcfcdd59ec6cce0ab116870889a0 0x291d1129ea28a0736e36833588de0674 0x706ef8f1ae854d76f8b8e53864884d61,
  pp3 0x1e45f1cc620f966137a8c6583753069 0x36d29eace3e89c54e28e1ff82f76c7ba 0x65e9c39e2bacb93783379f157f0b49cb 0x16e02f31ab7e2de59b323c45070cda3e 0x1fd7e207d6c2de0953bcf346635122b7 0xcba06e8d0f0b4df3a5f5f94ea1e57ac,
  pp3 0x1e7dc143dee1d80070b440c387a9c392 0x332870a017182d145498ba6d7239912b 0x2c2ce211245b2b4e6be306fc672d794c 0x268520fa9c5f727a109b722c8d2ba79f 0x736201eccbaea698515b300524fe78ee 0x32d8fd919c4418434608ac113210bf78,
  pp3 0x775437f798dc7459c9557e1b04b8f2d8 0x2e00ec5f3e7ad3041200f5585ba417f5 0x32270a93624876e4fc873d5f2b446288 0x2370d9fe925616bec646a47c08789b22 0x156468ceac1f5fb2430afa3619e671c4 0x31140e9017c0e58f3b84dec2f2417635,
  pp3 0xda75f5d64d864ac5c85f88ccb7443fa 0x1b79e10bad3336c3295ff44871b0fb84 0x4c1b198d0f9a1a23ffdf9942dd2977b3 0x74f66897f26d48d0ba778a24c112864e 0x4b98ce33ff7878b93fd5c06e867ab611 0x11665aa099ec5163f7db4dce75cb9165,
  pp3 0x265ec3dbb4eb509a2a498f16ae7118b9 0x36e62baab2e333853da4230668ce2c86 0x25bfb2fc411e887599507d4a79ab4478 0x23d341ae033d0466d7ac1ec933022ce1 0x23d0211ba2d73180d295b465e962bc00 0x1e767148de301514a03ccd7aff922d4d,
  pp3 0x1c9fc2f343fc1e58c241ab36a894efab 0x53623e2285dd7015ca3b96562bd27a87 0x19265577096b42f9557411f01c219420 0x30a9a9a1c3c51c06d3312d941b23592f 0x7eab751dc5c77cb23d89b0b3ea6e8f79 0x4f844d583f155694c0a9b186e6df6e36,
  pp3 0x2add440b6bd3854d419018232793dffa 0x318ce3846ae3e417d55480f131df6e32 0x6ebaec63d2bff9f60565062d1a0984f4 0xdd9434624c8a4e777075fe729e79790 0x1b17d8255ee8b364bf8f11e2dfa9b062 0x28106880d081e8dc62c2150cf72c6344,
  pp3 0x1a8f0e6c977e1f2ef4a4af0ddfec91c1 0x323716728c4e22ec72a7a3a738b9316f 0x81514248911d367c14069065ba4af3b 0x50e77a9b513400e751bd4afaa8b6c337 0x24886e41a5edcfc46c0051b2a822548 0x336a30b01b9c5675a06b0efa41cac17f,
  pp3 0x2b204caa48e9098174fb2c10ca097626 0x39c2e9b6b922303b6902c952b9a17b74 0x6d92930264f15f76b9216b9b3c597419 0xf0744adfe1bd3077b1297d5eeae1427 0x282fa2e533356c1033b57e265be6a89d 0x4f5d8f5e893dcff53a03995c61dc772c,
  pp3 0x596f2241d6a685ae4bfc927efc48023f 0x31018e0d106538423cb3e0afec29b8a2 0x1241d8704982e0112fd00fe944575626 0x1b05f49d0f3de2ce970d56664e6781a7 0x416374a76ba88e98a994ffdf63717e66 0x56781dfab5d2aa4b8b082ced53f1579a,
  pp3 0x64669b840d6081f78151defd1865b318 0x43d438410a974b40e436f4bb5f38e14e 0x6347d9e1ae1828e5832ceb3d666be02 0x2cf2cf61cb4b5ae46979471b39e3ea86 0x12e75cb29aca5768b7ab29eada5a6ee4 0x71f9becd6b320e5ae65b1109d30d1ffc,
  pp3 0x31d62d050ca5458fdc8289026647eed9 0x602bf0b9e3ee5491ea2bbf523a54c1e5 0x2b6b1e3271df5f5825aa73622380ad4b 0x5353c24b8c4354bdbc5efd86aa0470d 0x288a1c8f2b4ea5f7a3c7db3cf5e06bca 0x59d4c1b436673c7dd6152f5e12ce7ca1,
  pp3 0x66d3980f240ad4401e02554e521fcb95 0x7fea351ca94c2f62abf16f6b39a4d9d1 0xfc6b44f2e7895ea3d62b6f3389163ba 0x2e4099090e603193d5c64403cda7c669 0x46295c9d8e12b6399b5c0faf15fa4c2f 0x5fa7bd736c4c58795ce4add63a5b331b,
  pp3 0x28004c1c2232573947b3471447d1aef2 0x2ab19c1812cd27e8d588437d9a3c5299 0x1ad163800b422b363ae700f680037802 0x44bcdeff21dcbd1d45b7ef36fabc2139 0x2c35ee79f7c4cc1441c6da2171e11c7b 0x6492d26f10be050a4852942759c13849,
  pp3 0x6a2db2b6dd62181ba6f54e988c50f0d9 0x57526bdb3ba53d20f7d9806b2a5e57a3 0x5d841b042f8f34517ce6cb1f500e650 0x4f4b559abe2cb8eaa800a6c698de970 0x213839bdf94db935c050dfd7259ce49d 0x7d323b8b19f9705ab371258655306204,
  pp3 0x79717069aa89595b26d4502b16b6c618 0x13d601d86c76e1d0f867c0e36db41872 0x185472f3e42e80752dfc8b0d331b7383 0x519a387490f79b9505bd13e72b10eba0 0x45da45d2cf0f7338d09c1b2d3ad2500 0x728d57f59bfe1b09640181956862426c,
  pp3 0x4fc4831e61dc4e10f9a99f878da2c585 0x484566b67e9e8ae6dc602cc54394fe0 0x71c0c23a58f3e2bbc5fcf0474a93809b 0x614c2f3eaee4c0a7b400fabe36fe6c43 0x1ce8197c88885dcc7610a980d0e1c6c1 0x471ad07baf2f341eeade1c9f3ac2cb2b,
  pp3 0x2a8e64281f59cb59d67a837c6b01121b 0x19e0a27dece5058052e701e42f3262ca 0x43484c311b9df1f2b5691c17a7bda6ac 0x43a2c5dda225fae5a68155549bae49ea 0x58911f5623918856fa5e992aed700eef 0x66e6e30cbdd0c3bd648b81a1e48c4da9,
  pp3 0x20f7a86230447685f3ba209c169d266b 0x366c29843d1111f1d1bb5aaa1a0c3d2e 0x27484a64e109e3fb06c78b642dcc9013 0xb6cb31b1dc24cc18f8eacbca4677464 0x2dd426744920f2a2df69c84f898f0fa0 0x489ade7f6a98d8d6c0912a197d4c5c69,
  pp3 0x124f4123fc05ac97458769f47f203e28 0x330954fed4f00ff83bb936f4ad6d7d67 0x7bf94762d4f9debdc2ce650046f90eaf 0x3c7a6062b4113d962e93172a586dfb83 0x8e3596fc68390345ddb0397147f0d93 0x19021c2119888232374e67ff67639bfa,
  pp3 0x5b4c6e079e1baa3002f5d04fdd55efa 0x1c42f7826a58a77de5678ea3ad74c84c 0x237668d3ede4261ce054668bd2cafacd 0x31ec8c5931cf0ef4edf46a6374aebb32 0x27d8b0ea68259603955c2e95c35b5825 0x6b6cc5c07152bd13b7a8976e427d1ec0,
  pp3 0x1cae9a8cfed89703d88f0ca0b244cd 0x676c9acb7abdec96a844b3a1f693a7fd 0x29f289dc0cddd9b8631b6bd5e0cdbd33 0x1eb2ce650e3eb0590947d57536fb2eff 0x4165edfb39f4ae8d2139b3a40e8bf405 0x2e3cc0328c9084f6e061eda67a70d6a6,
  pp3 0x6d4d01ce49e8b3d51ef8329ed056063f 0x6dad1c4e170829e00110c92f1656d34b 0x597e5f0ad525e935584c56c590b477be 0x3f586754999c829e6008264d8eb7d36d 0x41754f7d9a3f43643d7ea89df5546a1d 0x1ab27795982628723b0796822ef879a7,
  pp3 0x256ec818ec35a097dc37c9f0bbef7923 0x51df6c61edcad45c4a72da5c09dd5846 0xba6bb959ae689f1aef24fcdcf5ce819 0x71ffd591a28a8e4ae667bd65a57b3a9e 0x6667f2986b2dcf1306c325fa53a7fadf 0x517a104240b8c74a3ef751a6d52a09e4,
  pp3 0x59237cc71b8147f1d08cddfd8c8183f5 0x538acc592d10ef67fff94fd188395933 0x69d42b8114c5fe65ac51ce386ff0eb1d 0x5dc6d98fdf05a341a17eda3995bfe8b9 0x31b58521ecc483caf2304d375ce8be78 0x3dc18b2be3ed95c904d2d8140780222a,
  pp3 0x4ffd54a6bc0f38d0a48e1639f2d70d2b 0x482eb41f9178fa9d8ae3c65ba6b7143b 0x6d8532420059eb40240b8b4e87ad4f1d 0x6261076a0daae349c135f77e44275132 0x246165ba3a8bfd9235316bdb3842765c 0x45a2f991647e3b61c2d774bd5177a75,
  pp3 0x514fada5acd4db5ed3b5923594671a8 0x7cd2badcf2952a91e8297fc358a0f50f 0x26a0d43c1e14c9790da45130ea9ac266 0x360357aff7f67ccbbb62b729fe93a390 0x570daffd86fa470b3ad4835d1c7c59e8 0x17e4bdec2ad76ffcd7c4be698fa3bd96,
  pp3 0x58ba7ae0d64a518e43ce4ea9ead7dc51 0x3abc953ce2630b8e014cc7e64680555 0x2b258fa2e84da952a318620c7799be57 0x17371dd79a3aa556dd88fdc5063b2ffd 0x554552101d90ab2d927b837578981299 0x59109b65ffdb6235b45306218ce54bd0,
  pp3 0x41467fe41c6604f48663e0c4a180a515 0x19d3cb02c6c07517ae2c1aa4dcb73878 0x70dac71a31cac43caa147c97ea6745f1 0x67f228e9f60e7b25b9213ec26af87dfa 0x36687792a4256fa3bfb59b8cf78df3df 0x786a9e1b644b1c90e1be5c1f23177544,
  pp3 0x62ae5bb4b8aaeb594172f47393ca7f5b 0x1fbe20b2edc9cc6dbcd9c431fa631b6f 0x241dd315adc5dd595fdd829fbc0ee085 0x595a82fee5bed2d4b4b688d625f7dbb6 0x2b9e85fefc402f7669653ae0cc11880d 0x5d20c575fb34731bb2495b507770a81,
  pp3 0x27012a9665f3febb9d9e623436485ab2 0x44a5860cc0eabfbe586cfef484c04ff7 0x5abeabaaf3220fe6fbfe6e2f3532e80 0x2aa62112b7eafed21bed21f2cb809678 0x1ec8fbbcef9158f8e298837cf610190b 0x6a3b842a068b0ef31efe9b3aa4f96f6b,
  pp3 0x605175bbf3fd1c9792dd4b7cd7f827f7 0x3a3ab2e9978db310139bb6419c1f6d98 0x34c6c76025b2bce0c5c95941c9d5dd0b 0x7622cbeb11daf6190d44115a49bb8126 0x7191647d355cb45d785bff93164ef5ad 0x581b448b0e9aae3e117f255c4cce6e5c,
  pp3 0x790180c539bc468554a4f3cb36225414 0x43cccf5b3a2c010b47064043b7c6b96f 0x1c368f31955725741dfbf3afc14c3731 0x332d8dd63b37f6000bc2ed3b5070b5a 0x2d258e628dacb9ce0744b1908c9bd8f0 0xbca12295a34e996bba5b4bdb9c61e14,
  pp3 0x1a3bed438790be78059c84c66f2175d4 0x304777e63b3c33e4df394f577dabb5b0 0x72e421d1e88e77a459a29d4fe82c5a6a 0x2da03aad8cf2bbb869e6230313312959 0x343099e7a40243a62858d8608fecb0b6 0x3d2028a4f6f15886ba29b675d29a8f63,
  pp3 0x14999b5d6c770e20f068e2d286047d0a 0x78aeb552c15a1cd9d1874a592385da79 0x7b18a19fb54b5745482dcccc23e9c06e 0x2f2c2ce0d1871c13036c896efe9a7a06 0x649c7e50819d0773b2d9b9ed65492c7 0x49b15b40c4aaf03fcdab66ea7b65e3cb]

def DOUBLE_SCALAR_TABLE : List PointPrecomp :=
  [
  pp3 0x287460bf1d502b5fe18a34f3a703e631 0xc3ba0378b86acdee02e62f7e4f90353 0x740b7c7824f0c55590bf0f98b0937edc 0x4ffcf5b93a9557a5b321239123a01366 0x5948d137556c97c6297afccbabda42bb 0xcaf2b720a341f27a8189a393330684c,
  pp3 0x5742f77c98a526ba892756b15bcf68c4 0x14ef680aee75d0f7340a5a1de9f89f9b 0x212c41116c33c9584e770e14043a41f 0x5949df08518d5d2835b791e6de4dc0e2 0x5a5183ce844391d36a0e120744ed10db 0x2ce2037e470e20886f618b158afdba50,
  pp3 0x5f9876d5196704511f49fa149a64ba3c 0x20f1a557d8fd726030105056f55586b 0x694fbcbe7fe58390df4cb175b06d86c8 0x9dbe9924b58f8ec7933294a756a1b67 0x1c07969fc87a0ba7590f4403cdf197b6 0x5508976022f1b096c496477712252367,
  pp3 0x7a0a0cccacc838fbefda361e452e1775 0x24d9b6b418cbcb93b07e791c0be5dc5f 0x3986a158cb96d595497970f3c6117e03 0x305cafda7e4df9d68f80586ce692612b 0x7ef989c0eb583079c1a1c2e06452914a 0x4fee236d58299c6b3a765b1f7364b099,
  pp3 0x53bbd86b7396bc096f81095f770e8419 0x625dda1d2901c78b2b72ba726b2b4210 0x556598c7358d3320ff5bc7b18cd2b3e 0xe7f58e5e919a97e0991245f20ff50d7 0x6447bc93f87c198a5a0561373b758756 0x6b214425475c1bfaf9230604c34c7520,
  pp3 0x2129459d86f4493ce93de62d6a7f9497 0x612434fec3f4a1b3456394c7c464cfe4 0xc6d3854f9e0a3ff1ed91eddf44261f3 0x24691fbdca16910cd3fd153188a7e4e3 0x2aa61cd373f759f4be97465cd7625c9d 0x1a0ae39e50da20ba824d5763a326d62b,
  pp3 0x6c3687109cdd18c632d0c8481ee4c3b9 0x67bfa41fb52ce9c6e52717142fbf95da 0x49a6ca0ae3fb66264e24d6a088a01474 0x674888f5aa6d3062d67f8faa9103191e 0x406b2fd18d35b3144ba73824c2e85a99 0x11d2f222317b160ea7087b1bea728ac1,
  pp3 0x22a196fabbce31a2f8946e007e23a469 0x240fe9953827a3245309ee1bdc1216ba 0x603b8149ed16b1b0f9fcb89b63aeb5c7 0x4a5e32af612f948bb1f1876c02cf61fb 0x1ad9379136e53aa5fc491aede69a8813 0x2f4014f7fe2c12ca5da50db1d5e6c123,
  pp3 0x4c218521c3745a9be4f6791d7685c3f5 0x1462a12953cada7b0c0521af98555f97 0x5783c531ec98bb870bb2ab63d6452c1b 0x49f982b930e86719737def53605dbc9c 0x45ad6574cdbae99e75b16790cb5211e3 0x45029a09cc468c881062b72dfeec9851,
  pp3 0x17bd291eaa9ad0ea532240de77f3a1f2 0x3a7412052021778ee0a2d7efc2f8a0a0 0x7fd603b689a7b1f3b0dfb0976acc90df 0x6340743b631849a31152579ccb00d6c6 0x143265a6d53fef0bebaa47290e0cda01 0xe9780cc39586f2a45325d6fd981e75a,
  pp3 0x50d230b51893e841a4f68d207a8628dd 0x55975c063969292ef3bd769a4bb504b6 0x7ff86cf8ed731fd07727ba25fb8756f 0x70753a70874218fcef57fa40cc35a1f0 0x5aa9d68f1a59df86615954e2342b973c 0x2e749114d60a3d233b8e9e9ff5e44468,
  pp3 0x55f91a63d69aae6d14a1b91ec176db4b 0x2acf1f475facaafdf42382327b1b6d27 0x3baaf4e5c4a45f77fd9069b479b58968 0x5466cb5018f50981a2ac9ab98a7aaab6 0x31ea90cdea1bbbe43e6ba27771ba3205 0x464cb0415a510d7d0000416b5c557393,
  pp3 0x2b9c8ecd7fabe736d02087d206ff2bbf 0x46ea0b7767700a7b2b56d3842caab0d 0x5992a354bef7d0ca113a7a889e317310 0x52661f7678391543edda94ed50388bd 0x1d19c2f2d2f644e54c28edf6e19e28e0 0x680c4714b83580f55d732148db35ab3d,
  pp3 0x789e609bc77ae11ca374f282bb80ccec 0x1c548b5b857721b110d2577d599b45f2 0x3c1562912d1b4ed27baea726b4543fdf 0x1414e523d3c7a900d6362203b7e82082 0x4da4265e3ce80fb47ca349951c1d23a9 0x4ebac9e5b5bf980b7981ebbcaca9ef36,
  pp3 0x3f54acfc25c6340fabd2c1dcf49cb5a4 0x67216b7cb3695e8c202eeffabbd11cbd 0x2eebebdff7fa7afbff7cbcf9b23fc9f1 0x1b8fd98df522902c71156befa111f85e 0x6cf0ea960e01d8ed6b28ebad62519791 0x323da065cb3df0adb4617bc2006967d5,
  pp3 0x2db8f2b509a7cc231687d0741e24d9c 0x68c360f01d6e6d2b9243f85924320527 0x6f56ccfc85c5f3a92351c5e877d5306a 0xb3337554c83f9711b09652837c4928f 0x46829694ba08c64fe2931be2ccc783ec 0x1474b333b000d1709f35e36358e2c6ac,
  pp3 0x618fda9fef868c5e24d792756fc96640 0x778dd97e0440c258b7ff5b125afd9375 0x3417e1e1e2a7e811fbff314886219627 0x3508c2eb8c3c867221e959a88f7b7bdc 0x21bcb19fb07aa134827ecdde111c430f 0x401e680b4e6658fae0c1fa50ab2f5746,
  pp3 0x20541c12b964447a2cc24bab313693cc 0x52905efb344e17f7374975b6fb81c3cc 0x3390bf75d2b9a3ec79c5c9b56d8b5f9e 0x2814165a42046b517ef3807d895bf4e4 0x3232fb4f4c9762ec7f8cfd09326fe158 0x6f7caffb0a7545e85678d6dacc194d25,
  pp3 0x691d7b7cb88a0ef5bd981637b23e7963 0x6fb144f8295a85b10ba319ae2062914 0x2a425971ec73d6b480e620976bf62f8f 0x230d7d8bd1a0469b800aa9e741d10b1c 0xfcab5297f58b66765aace37428dfe8c 0x7d90915b75d4dae7cf0e9526943af7b8,
  pp3 0x29bcc06374cce1b57455a46156259d6b 0x211a06af0e54dd58f2fb0ed3aa87aefd 0x6299b6ed25008ca76c0c95c5723de9bc 0x2cc93b4d9bc1db307fd63e784d4dfb18 0x3278e18d4d3d11a0ebc7e2d44c5d13ea 0x7eb2a7150b30416d349e3dd25a215f79,
  pp3 0x2a3771d48e33140505f3d7d5f6a094cb 0x12248373a36499208ef39e9dc96f009 0x2339d8c6dfd3ca6cf758f92fc9fd4d33 0x746ff43eb99d90548b000965962673b4 0x33d8f7c8267b7f0c47ecdc054a422eff 0x31e57f3d31fcd8e622fe00ac921a42ae,
  pp3 0x4ac8cdb0fa7ebbafbb912315a1c50869 0x7234900334b2c5d70541d74a60973edf 0x224e44e63db5ac96f2e545f730adfa33 0x2c93a4e6559936b5fcba3d005c6fdeb9 0x2e33100216719cdd7727a0d7ad88d758 0x1f6de5b74758afb47b2ef89aeb2c0254,
  pp3 0x3d605e9a6ec6d80d6ae89047114fb321 0x699088b5e9d0912f18e915c727a874d8 0x1b9169df8245e0b3af9344618e056f10 0x1609ddfb222b13c35eb8c33d70f4c891 0x7bc3cf9d9cb1a7b08131c885d1b366ed 0x13cbb4573a4ea7f5d297478d2fc93968,
  pp3 0x7ed3d1d7d81ab5dcdd37b5cc64d5986b 0x705675d333b91d7ac53485f23973c9e 0x6a8bdf57b4bfdf14ade5d213c43186c1 0x17f29220b519bce2a87f88a1de717963 0x28d1d3923b144a7c7af2d7fb0f95c610 0x100b40c62e72c18e73c3d8972813e1,
  pp3 0x4fa391d6589d824484de7a81fa1f50da 0x4d4acbd60a24e9cebcc3596f0834b285 0x33abcf8e29901d0b97fa98b8c1835a0d 0x60666aa4325b948d60a73d1975b3d082 0x227a98d113609b28ad54adb769284a39 0x1e4ee44bd67f818c4a1e1ffcae6a3872,
  pp3 0x19428c0b1b187955a74c6bb4387d315 0x2b3cabdf00dc4a615cc153e270bbb055 0x2d30e985f2d9f217834110c026924b57 0x53e3fd6a1820241747116979333389f5 0x58d92935e4112e82b1393cd79c2e5864 0x42a8fe4eee28f37a86989a7ec8305b6d,
  pp3 0x3277917a0397b1b974e212ef01591901 0xb8957701d09afb67bbcbe6e3d687544 0x48a9925ada9f83486cfbc8ee74503668 0x7d69ca3866223d6657045753ba2d0f4e 0x41bce1e1133b51dec7054ce22917271f 0x7eaada0f42d47cc33a3ae42df81ec35e,
  pp3 0x64f98abd7e915a8f13b138f1048a57cc 0x11be81a791d634d27af195eb16a0c732 0x767c7b38127100497d8df47430f61b8 0x3bdee340cd956dba3e949136fb940aa6 0x4cde2454d47f59dbb250ec4ff91d2602 0x5a8e2f2119d4d835af5e749530d978cb,
  pp3 0x3d3b08a7bf35d055df1cb5425a0744df 0x6eb8d97e09154d42c6335e832de4719c 0x13f23cfd276233da2f6a3f8de3d20dd9 0x58d876403acfd7d7b4a6b80dfc0fa41c 0x73dbee2abbaf494d2ad422078b8e139b 0x6ef9a9f1178b093809a2758891eca3c8,
  pp3 0x3a04345fc10b1a7cfc7e9ecb90c637da 0x6c4f9c3aa4aa33d8c024e9cb62f9ff1f 0x2243845195763a1b049d6995b95ac1f0 0x600fb7123a325905a1466a31700ac276 0x3b093b550641f1089d391a64a0d35a24 0x25f5e7465963db1e2275de5bfd2e221f,
  pp3 0x6f06a23bc1b85a8e3e220107f7e7fb84 0x5dc11761dad45fdab4198d19f6eb0e48 0x127c69c73da9f528ba303e492ab52a0d 0xd72b0c50819da5cd3a5b70cf6c790be 0x67f7d0cfc4f46daf193f90d62ec2cdf7 0x7c0a1dda4a28bf4d7aec083d52f380ea,
  pp3 0x7a588c914115d59546fd20fe6008cba7 0x851dac094e7b0368fb1d3daecf45f78 0x104f861322dddb2fcae0a76e2a32a892 0x1e4d28d7a2498912b79d81e46e1f9006 0x613d00f9a69c55c2af3175d3974b89bf 0x72f7ed65c6def0523f6883e8e65226f,
  pp3 0x1a81c4a7c9189b156690e643bb38e243 0x137f2a7418f190c1056d1669e4749ae 0x3ed76db45c38a37ced3192796e699d16 0x45985aacc495b16e78e86d1475a88243 0x6dbe5f68b4d0e78247d5c8208e8f1030 0x64c375ce172fadbd08d3d0182cf7f26b,
  pp3 0x57e1d90a53241250ba0f6db3a20c2875 0x33344750e37dad9b0315433fddf8e63e 0x435fe80f6100d54762cc0d28ae69b016 0x3b96913f8264d4a95874aea8669d3df5 0x48cccf24cc6f4ccf738067d6bb1314b0 0x34c2c37ba9635d666f5e2bbd68b777af,
  pp3 0x4e4f9d97afe11d43d731534900fdbe5b 0x1d48d100ad11a5ae81b41214351b73d7 0x34902e901877efb82a4ee76628e2b151 0x44317af6d5cd5ac0b5a8561a0fd45394 0x771fe2761cad022354c2469e9068bad 0x76cdeec6d4435495fda76ee8212d0f2b,
  pp3 0x2983325ed5d73a1b55c98575b3e825fd 0x731b0fa413338bb0563c4c4fb3f466e7 0x7a7e909b5c4f7351deb519ca57a05240 0x11ca1c865dee30b3efb7c153dd2ab28e 0x575e0bdaeee8cf9a013ca8348d9d7de1 0x683ddcd85c212ee3464c98a21083af7f,
  pp3 0x22c7e01c7f4d64c81171f0ab4cd02019 0x623f83c2611a476c972ec0ef3f2e2ed3 0x2d3ebc5468990e0b99b3f16be9aa25a1 0x4716e6919d2986e35d5fba8546a4d5f2 0x5f6257d3910cd4be3ab2f2bc183f5d6c 0x6ee8390b8a5064f5341c6f2a78f94f2b,
  pp3 0x33c5ad24466be3d9d8640b9b83ca8e7 0x52aa6b1c0f90f3f66f6cd68db30dfd59 0x11ab3fc960b05fb0fe7bcd4c97403646 0x427f8deb932da13724584b77575896da 0x4ae916fe863820e928a28cb505306f0 0x59e588ba994d9145aabaa98911b9cd3f,
  pp3 0x4ffc7ef3476ff8e9b8f1afabeee9e9f 0x73fe42a801524448e9cf53ce9937b146 0x5fa85056d59884a4224bda3cf3bbaaad 0x9230936d41736d28e6eead48345726b 0x8bb759b530b1eafe679eb58d1ad6be7 0x13704d2daf9af2789688eb527860e24b,
  pp3 0x57ee05fbbd40deb5d9273ac71b906f14 0x7967b6dc1c5d9699b7788e19ba9e61eb 0x2a716598bb2d519c36e043fc230127c0 0x1d3bfa489f756a3fc017b2840d4d1b07 0x1915e6f53e12625d4ad73abf24318d36 0x2280087a8f4762fcb219a7c941f89084,
  pp3 0x55b8d4ee5772fd798eb280345fd1b4e7 0x685741adbda93885c9e63a787e2ce2e1 0x7e891121f9356428ffb830ab11a3b491 0x71c45932930a2639c03aea271a629078 0x704aee8f183aadf1e7df192a6bf81795 0x52556d8763f3033c06ddb55a8a7a63d7,
  pp3 0x28666b87c362b95ab76b458c6f0c33a7 0x36ef35110562adfd365ae575a4c27b9b 0x526e787d6a586c9e89955dd8d927f9c7 0x6c9523b4b5ae4946762e0bc4eff988c1 0x658a7dc8b3ffada3e90a909688cfe95f 0x6819007d8573d1cfbee148ba7a58520f,
  pp3 0x4bc236ae634f3c2775d3b5ec141be9c5 0x4129d43e1d092cbf1192fa9b8b30e894 0x513e8d87b8116534fcac068558bbea45 0x6c93531e5545572f5377a179a155ecd4 0x7527139dbc96250727df81ba09aad91 0x2281e85f60a1809b150320b1d8ba172a,
  pp3 0x50d387163fea4ca87164b7d524eba6af 0x6ab369ba28c0410de90de17d62aebe78 0x58b496352453fefd17d07e315a95d138 0x40a8f0fb757e9b0eb87a04dbbc101b92 0x4e004a3a350c17d72148b48a696e64d1 0x29da9cd441e3e3c517927e9f386b563e,
  pp3 0x2e94653ff7862644883d2dc357417213 0x4475db3c300b93b53a37af548453df1 0x231a2db74c2c3ccd2d65fa4d815e7204 0x32d255c105f6d1221fd734c0cf4d97cd 0x12e33f1c81ac6f60bb74fd9201eb07b0 0x52e14b7db9cdcbc1fb9a6439bea97072,
  pp3 0x1c8622c35adc8224637ac1a91ae374cb 0x362823a7232a5893eb786c50a64b7d33 0x18598f0e0237f7c4f22dafca688d472a 0x7abf4cb27a9c5b7f97b8497bfff4bcf1 0x58728fe3e1827a43ea47c44e3b3d95d3 0x6db1dbbdc413de797fd3681a6df902c8,
  pp3 0x7f31a54744887cabbc4effed1ac3007f 0x18a78ec5b0c241dbe6559b4f8bd2519a 0x5c1323ea219a8ff4f6e10285b15d2030 0x5d0abddbc8998733134b6f20dd116b47 0xab6aeb494f6ad5da3c993938702e151 0x546ce323008c2fdc8cf3b4beda1815e6,
  pp3 0x26d2e8a8b8457da4a10eb5a6a78dbe39 0x2a35174b812f562c026ccbe31517d806 0x3368f951acd3c5e557d70499dd7a374d 0x316109e7c315c377490b2515f901062c 0x496a8c39d667d70932e20eba569535cf 0x608a162ce73903b05578096dc44d5e0f,
  pp3 0x75b09a2e6ed609a96b2e65852cb37cab 0x7690cbb594e84b947ac84b3082602455 0x738a74b08c9006d0fc85dad9511973fb 0x7fbfc08b5db3c9f483233fc939d5883e 0x2c255ef7e69a77c181a0e493fb5f7749 0x5960cf0b961f3cec234f02e609cc656f,
  pp3 0x434e038a29d446acac72940237b1f17a 0x1f1aad24001e473eca6a090e00d8b0c6 0x899ba41e9dd46076d64b6dc133399fe 0x57217978b0d8ce11ca590b3f25bbf5df 0x3c88520cf564f75dd6b4cb13da6de9ac 0x3f2593b90fe72161649fbd5075a7757f,
  pp3 0x10069dce4c74a92e1bee53e91dcc9a8 0x6cd8848183b53d73ef83968978aa855c 0x713225d446180a7f0b3df59610e403eb 0x105796b670a3730ccc23112cc59850e2 0x32da1f072d75b253a147f4ec7a2fa4cf 0x76a5376a771fdd604e7007455e85f560,
  pp3 0x4e45db6334c6ed9647eb4fabdcc699f7 0x4f48065593ecdec36066f2bab72546f 0x122f74626b64a5263fec02793fbb5601 0x1370610ede647f1c21d0f66ff83b4dbd 0x527dcbadfdc65ade57b82242b88172c9 0x64d1cf9e52548a6c5e9c9a04385c93f5,
  pp3 0x633ee14e50bcd615ba0073337865c994 0x49bb96812a98f08df840228ec4251095 0x6d7e43bffe7e0e182f57d0422f96678 0x4d46e7c66087e3833910cca752ae863 0x3f22e2f44d03c9acf14935c4167017c3 0x15a2b4ce514fa4dba6196244f2cd6164,
  pp3 0xe763360ecc8a19d5191a04c4abbd0c4 0x75c2f30a7c7433e7fef583c184a673c0 0x245c7ae44f6e7a83e947a55547c7c099 0x5de0b922fa645ac867a666f9e6bec2d4 0x139c2c857adba8edd9b3e4a5cb72e22 0x501381ef88ec2da0a7feb68e863ac231,
  pp3 0x51d65bdb8363062b2b8c6a470f40b01 0x1e510b525d19df0c4ce90414a6d65714 0x4bfe02fd38fde1f0569e723f5d374cf6 0xf7e2cb170dfde32ae7459ebc50f9aa2 0xcfc50a85ffd18423c3da2326a7407cb 0x22b4d9644bb3733362ab34c85e85c3c8,
  pp3 0x4f432c1cba49133f57d313b3d87c2d98 0x1ab94e122fddf12e6163d11fa4befc0c 0x5b20068f81d949b1fb7c9358aefc85a8 0x5794afc021932d00cf8ed6ff2145c810 0x6bb1f4b836fda03e5c8987ad9b6e35d5 0xcf6d128deb0e7bf794f1fed4a3ea1d7,
  pp3 0x2811763ba2200e54ec3e1c65878cf5 0x49e00cbd013a9e7f382d917051e77b71 0x4b4a66287970333accf576e9a4cf019c 0x278eb5eca6479685f772168915edfc1f 0x6e58c9c7826d39db8a95c8b9cf41cf06 0x73ecd21991bd98d4478e119889f2fe75,
  pp3 0x29825b71b0632e9526e751fe9fbb9502 0x2f2a899e53c9a00421668f96ef8bb5c5 0x72731055c7c65dec2803292ed4345ce8 0x6228d3ceda8bd6713aaaca9c4b6fe9a5 0x17ab19e0fea9ac9773e2c5effc48eaf 0x121e89f9b302c30f9609e10496c8d766,
  pp3 0x9bd8d170ba9dbab4e87d00a0be96480 0x2c9e40bbbccd0f5bc6756f947ecd4e52 0x66aba9583b080d9e42a5b77669fd812e 0x4cc00c5c5eff2509ee55df99d16e77c1 0xae5c96184ffefb8c84d5e20ab7c16b 0x5d1bda0a39dc3b72b295e90346dcef54,
  pp3 0x259d998c9ff9ac0e75f92d72a89b5ef2 0x23f5b71d49d676048a1cfb72a6c433c1 0x8fe61135218eca9478d8f30914f62ef 0x15f1eafd35283e2e4da2ce9bc6488c4a 0x2a5216539d6ee902c2d2be3ebc42ea0f 0x3a8f2631ec78290ca1e99052e7bdeeb2,
  pp3 0x24700671c46ebddcb71518a82ebfbfe4 0x4794614db6a67d926ef52d591a221f75 0x31d9dd8f2361b5d5761f5c8ee4bab607 0x7f06c365eb1162601a45593be8db3b29 0x5edcfcb5613eac189d305a66e52eb65b 0x790f805753b9d742ef34fd28154adb75,
  pp3 0xcbe14db5d9a88db6ecd5ac255dfb797 0x2c636133ba59d887c1c86c5efa815528 0x4bd3540c21e2ebd3c75d42c2d9f52297 0x1aae3c9837d3e30a32e7cdf790de6903 0x779ae12351efed1ceed028e49d436f09 0x25156e4cee9a407b6e0145587d9797a5,
  pp3 0x7f8c026f1d182ed2ac2fd82f2ac57119 0x5968db65d2d7545aeacc0d8fb3241611 0x57949fd7b80339cf7d525846b1121dbe 0x5c270057f1268efa471fe9bec9b66c01 0x16e8241cdc862cf9ce092463083f656e 0x3c25936bd8863416b7cb2bbcaa06b312,
  pp3 0x1ae43badfd21e63e19b8ca966c4a3827 0x4708e27f6d98e9971dfd002b95a6ac6a 0x53baf4d9a16dd550b5fd6322dc31ac7d 0x5b5b33c7a3cfa54f025aa2ea5463960c 0x4748c1f3f3a6dc4fdba287866ee96b90 0x4a47745d5b99fb962333ec05a80c154b,
  pp3 0x7791feea9015f17044955b062a6ecded 0x2632adbca5388026736bf603d12fc35a 0x4ee9adfe8600e32d956e4c48e1697c4f 0x34a3d7f4bf457353a584042a0da56406 0x15321ee855941f4e8d4fd4fe00176fab 0xc7d7c618aed0ba8670701ef81f340a4,
  pp3 0x34935a39e31bac6573283131d9bfd9d6 0x250dd54e18478ac6466cfbbcaae8b991 0x618ea014fec50e04659e46c51e40de4f 0x572cabbb6688c4f7fe64d883080b877c 0x6cd734876378120a2c817493a834146 0x36942f5191db53c4e3de0b717336a849,
  pp3 0x2a9a144b8087fa96a3f9adf66abf4d88 0x1be40a8616928babfe49fefcb78a5b4f 0x1fc66ea68369351007a901975521f7aa 0x1f374495b918c7374dbf0084ba42380e 0x1346f4766fcdaa07b8346956a380a00a 0x775e7f3274dc1316b4db5689d46312c1,
  pp3 0x144390a33b3e86df07898828f32341c0 0x127652de0022087370bc604ce1e9c5e4 0x236f4585150161f42874bc669df50d45 0x7cc92a61650597453bfa4ffd318214e2 0x26676bd59c4fcc3b2fae0e92090ef72a 0x66455887e98686e7220c030974d1d447,
  pp3 0x5517a86f840feb634164b8e4d8760ddc 0x3a7f03ceecc160b9d9b42c6c9371cade 0x1b6290c327842533dd4086d64cae366c 0x16621925ca10d31e144efcd2a7a0e82b 0x5a90f97edcb1c54ea9dcd13118e208f1 0x6f061a3569a80b5580c47331c8749d99,
  pp3 0x29106c98122245f40f6abf619e2a15c5 0x4f379a379e15f4105860b10985c9b47f 0x2c475167ad9b283c2dd6f45df68e1678 0x5532bc26a40c536523b7aa00952a6a3a 0x4fa3127a9aefa56fa5c0a8be3596ce22 0x3c7727d45ae87854944e843aa973e67f,
  pp3 0x7bca8e04ad3bbb9c48fa2ce675117ea4 0x3337d3a6a03b2286d57439e4726f88e5 0x514bd76734e6c0a1b0b6172902005953 0xabe13cee7f1b75ef97f8934eed7c6b4 0x634f966d7a6e11df6c88107a120e54a7 0x68d49fc65522b73a5044c53109b94097,
  pp3 0x542c4c5fd999a22469e295cd8c444666 0x7133fa786a87ecb413ff89418b5da76f 0x52ddada7931c4dcc2f180926456402b4 0x14ec2a2ec2318266eaf0d2130c71590 0x157acbfab118b219ac05b61443b34dd6 0xabf4a4da29a0eb8e4e2f4b84ad01099,
  pp3 0x1bd259c4726869ed5f852b85b59eab1f 0x17a48442bcf58a00ce565d9287790a15 0x2336d07a710da07a01e519522381363b 0x2f7a51474c23b8a9cfebf2fbdc714cb2 0x40e8d8d2d0a0980677db2a07d4e3716c 0x53f9cae0470172fd644363ce6d401ae4,
  pp3 0x15028204f3d6d69658d96ecd8ddadc53 0x738c5371236c3e566f40a09214439ce2 0x4f1899449a810fee64f87ee7a28bf9fc 0x6170cc24283856bcd0aa95f4bf21e376 0x227ea1563fa2e0129dfc4927d764ff75 0x473d3bea07a5285eaddd3665622ce087,
  pp3 0x78e584c740dd18edc0b986ee0d2b0eb2 0x1c6aed5ab59bedbbd5adbf30a04fd508 0x4a58fb6b3f89631925d05fccbddb5ba1 0x46a445de6d5b07e5db2f6343fd8144fa 0x57b2515923b15c9ff67a06684fe9e1da 0x62f4b9b26f04dab550439940820a2a0c,
  pp3 0x9bc6176f10fffbe79ea601d01b033d 0x253d0a9e626dd400333bff2f907ed39a 0x2d1b6a7a5b39342d7a9bbedcfcbef06a 0x2e8cde9d82c15cb0badfb462a124cc9a 0x4cb0b8fa40752947c3f81bcd6f1b2a1 0x59fef93442883553fa36d3db38cbd304,
  pp3 0x7b9d63ac17b0198291982a741cb9342e 0x611069ad9fa0f0a4530b4ec25a293ece 0x6fe6f8f4d6d015b07a262a59b656a79d 0x24b0c507058c911c2c2fd7641a5d4e50 0x68d0b01b13432761834882e492fe45ae 0x123e3a93006d7d010eacaaaf94178b8c,
  pp3 0x4fc960ab4408584becf2fe69377ff33c 0x4989681cd1d09a932adc445b1ee45654 0x7f6ffbbeee861c1579509599afe9e3b6 0x5e8bd52289b6ad272ed2859fd6391b25 0x510999e865f0cd54c949280adbce7c79 0x4b2c0ea4bab08ef27f957314ce7d373b,
  pp3 0x4609a0ea235076972d7cc08b5c05a8db 0x5e4d5903fdef61e6e204ba35182c55b8 0x782a3fd3ab62a179fe63842f2826598b 0xfb4c6bdd637fba2d2f01a1979e5a0f3 0x14859008c3d223c0fbff4c192020c350 0x1d78daf483fa12cb65ed7a889c1a2e55,
  pp3 0x54fde757373065155b54d11b01bc09ca 0x712d1f394adcda9989725231105b63a7 0x4dd8f7bbd4c5381b554006ee9abefab 0x637a53de6b57122f98d22b3a31995549 0x236f2a9514250df68367d69b4c92da63 0x8522e36bc4b65f8b265509af63d7b7c,
  pp3 0x493b257197a98ce9abae725012ce8301 0x65f5477ac414eb6c33185838570e5f0a 0x2be693b4d96efdb3d002a36854699753 0x55691ac09a8fae1e3b32484119bdc53d 0x765674c90b78171f0249e394514c047f 0x746adba4cb52d18f1166f64638d6ab37,
  pp3 0x5d004ed52ebf0b6893e293653dda6cda 0x3350dbe11cafca7465c7c42d0ad96cc2 0xff2dfffc5ac1164c638cfa8942fef67 0x13a219d03d2eb86d9e1b625e649aa471 0x645c50918f7d5abcdb92859ebaf9f7f9 0x13d858b53f90170d25c10cfe99f7e5c6,
  pp3 0x4849ff49f4e13fc4ddb258b13ab1e7a6 0x48c50d4d3b4d2f7a9ef87fa85511cda8 0x3fdd72e65a3d34916c98422c8007c9ac 0x6e2c6df9e3fc3daa56b18cb165b4ec3b 0x423fd4082f3fb795f6db5aa98ddc97a4 0x1a091c269613993642f8f5edf424d0a0,
  pp3 0x2e8d339eb0fb90993161c2bbb3b2d58a 0x7f222a068db3da4b45ef7d11f6fab685 0x55370df31dcec81c9af96f9742549a7c 0x58bd0622a474aceede98e81b131af02e 0x5b4db195655f24108ab40fa7ca882e0d 0x67a8a437d6fc8a7d4754eb479ada77fd,
  pp3 0x3232ba83bed0c6189888254a4f0c9d58 0x20df6becb096aa7587b0de0207b57d9 0x4ae671ee70a15a69ef9e41052a29a8ab 0x6878c3996c1de887167ce954923ee086 0x1cf41a9c2577d144b29c711490ac097e 0x1c2e6dc8d4aebb650590796ba46d8d29,
  pp3 0x4ea1742c786469e7bfb904f8ac9b4cb9 0xbe0afdc77d6d32f5a422f48401be57d 0x7dad0475059a089d5e8765cba2c738d3 0x51c65f97715a16d59288ae0c40df7df6 0x507ffe03ec0189efa9615d4c786ff9d4 0x282fe9d567db0efc1c1f46684604e41f,
  pp3 0x5bd4b6045c208d57ebee7f8381fb8178 0x7cddd5a373ebc5ecf35694743439ed71 0x40e6714f5c5c8df3a58df33cc68e3b5f 0x6b36400b491c28c1ea881d4bfd489131 0x5b630cddc72e654ad4475cf594b6303b 0x3ea3ba6014f86275a0b587ad34394ce3,
  pp3 0x2ef3568410a2b3bbc3deac125d20eeee 0x5fabcb3337aaa23cee6ba3fac5d7ec00 0xb37d285a9be51d16b1212e7b817889a 0x896b4ca694b01d0617ca543d762bf51 0x553dee7dd4784865e3add9718277a1fb 0x5b6a78f20b244b90904b8f7e936cf430,
  pp3 0x704de952e9d969f4a2b876c2914b9bfa 0x5d307bb3949cf660b04ea1b54b7e7654 0x7a88293bb1031063cee4c23ebd049d17 0x260a9c86a16216e500b8432b8286f656 0x296011ff5601a000d140e6e6629d8686 0x267409c23a823dd4536f0f76cd9b2928,
  pp3 0x3da6102605962ca90f041043797f8423 0x427e7eeeecd3a0c52e69dfeea02098ea 0x1f5841df6dfdfc9175efa5e8a590793d 0x7bd5b0983fcee911aa1e1b8b9f3c326 0x7940334f0bb9023dd169420be9c48939 0x674ff1b0cfe246c79bb330fff113764f,
  pp3 0x7e6223e3d9c04904e2083f8d7129cbab 0x72642664e7c255909be411a7d5e883a3 0x46716e8fd737280bbb1f783b5c412322 0x6c256c131fc2c3b9fa363eeaeffde271 0x53b96556e96aa70813259abfcb2ce1d8 0x5019f438e9f8995faa7c8d25119da19,
  pp3 0x63e8e14e6c2f3f0905e1d55a9424f1ee 0x51904ed1e94a0ca5e9d844e997a10158 0x2ee5308e62172691b09462d4df6bc6cc 0x62b92b8d9739ddd43f8438484547187a 0x25b3336048a288d43ca54ab5d39f083c 0x58ba2e783962cbb77cab0fd67e296979,
  pp3 0x290c219ee7153bdd77808f1a1b8f3515 0x442db406f5135e37584441f79128f01 0x37469756586776b2e741de52ec030a9d 0x2280b66d20888d0cbd64c2a7173adde0 0x3974964394c445bedd1b53cb4adb0fb2 0x6eacdc6f50496d9553b6a95e7c7fdd97,
  pp3 0xd171a5f5215c9c8178d04c0578a5bb3 0x4eece54b220495efe0d0171c504962e 0x6577c466962160afac4d145001db67aa 0x7a053a048d230d89cddae62d99686ad7 0x5d260426f355232f1ff09aa0e605a880 0x5eef31b9eb0df78cfbdaf7b0b53aab89,
  pp3 0x4dcccba87d630d06fb787e56b7276288 0xf0a981f71d8ae33415e4a4bc0a44b01 0xea4aa3ce70dc628e0ebb786f98a1502 0x2d20c0e1d2002b5b8d36240617ebe037 0x1d87c67d8178ec4c336f8aa411a30282 0x266086bd7f11c9bce468dff8ac26b63b,
  pp3 0x146902a029dd335505cfeedc80d829f8 0x55fa413791f64c38413db9327c068394 0x18d66268cf79ce45e06395c10021bf9d 0x3ad51dbe97b558f79e7ae6858dcc21bf 0x27ec9b782170abb706792c747aeef43c 0x18f7cbd98db641126aafca394a23e935,
  pp3 0x1dcfb4eab7ccea2334146ce6b36edbfa 0x1b20d71a3b71d41268498e1f45b35467 0x78c15fa449576c2b7a875fc94e602e3e 0x3f53f57324d70666b52326d01ccafe8a 0x27a30c73dd02c8843830836e39bcebaa 0x75ee4a8b6cf54f745dfed73dedf2306f,
  pp3 0x496b581690c3df2d97ecc9c5851a8e3e 0x4b06184810a77bd3f7bba1fe2d169e7d 0x3c90f63b5176906d40e6d643b903c7bd 0x70c2454c53cc0dcf92f47e1ac51f1ec6 0x7e5173a420a8b0dfb5a75d246c653b4e 0x69a3a4e92bbe5977cafb44c471d0f4a3,
  pp3 0x1e0489b56fa7e13026e93183cdfeb424 0xf8aea6a7ef65bf9669befa672fe9979 0x31a668763c3c8867ff0b883ea96b51ff 0x545644cd70c87d636887a0029701c9be 0x6ca227f10229b3b9537b6fb7db9410e0 0x522058d3b20569f9c7d1b4d71ff22468,
  pp3 0x105b94a3a42424a15f4bfd813a51fb62 0x14d98588154500bf96dfdb685825857b 0x67aaf998856faf37b4db83514c7a9404 0x7e617a17a2f72bd31229d7e95dbc821c 0x677619cc40a07eafe964cdba7222695a 0x2a219175ec95a1ad7f82c099a8df7538,
  pp3 0x4a87f652f86823ec755ac147b51ff3dc 0x4bb952ac98c0120a6d8d4a923f50278d 0x855a11481fd5653968c57a6a31e482c 0x33f9e5746e1079c63f05db6ac608d16d 0x4ae3fc836ceccf811f3458e3ec51f53a 0x42336a1262cbb5e03c0b2e2db5875ddf,
  pp3 0x25081cfd6e80a2dee3651453cadc3868 0x16ca9349a11a9c37d4cb31092872e53a 0x41b2d6ecbccbd6a4b1d3ae440d1cb675 0x2cd0e0dedbf07023475e6a844c3d0ca1 0x72a06e5419a6460985ad446ddb002a6e 0x414a8163a9408b109e779387e9a3276c,
  pp3 0x3ea57190b42cd83825c7b53c1791333e 0x47570cba99b06c9dbf20b346b094f121 0x3c0b0b8c4c0968efe6bd01c8746cb5f2 0x251737e4a5643da2b22009690e243975 0x68748cd1e3cc45a63cdd49123ab89dea 0x4e4c5b1c86eb3a29563746685effea7b,
  pp3 0x5cdd35a0c4ba93a3e1ba017516d32070 0x22107156a0f700f1dbc66a0c7de30288 0x111dcb9763d08bc00fb69045aac0f647 0x2a32587c7033892266db39f6d78cced 0x474db0f12fcfa96f76fc94ce6a2a4b19 0x5f435bf43140f4c00c44584c08377ac7,
  pp3 0x54596c23b536ff04b9741c3014eef7a3 0x32f24f6e1a656b10eadf56bb6ea39450 0xd6ad5785366060721422e4dd5f54e3f 0x72569c930015caa7f6f62ffdd0bf9928 0x49d6a4057e6827ef4293579931b9216 0x20d91ae969dfa9a46223e20060be0e05,
  pp3 0x601dd413d1bdea0f02611b345456d47a 0x63399ff3d6542359e6b017b26bbc9bf8 0x10acd93346649bebdbdfe225045a9764 0x49efbd5639c4caf1c652d5a50e0535ce 0x8ddebed0e865be865a5dbd8a304de65 0x34cf4c75496807e25db8337d5e715261,
  pp3 0x10fd30d282d8b151d840c7416e44b56a 0x66d8a38b6d31a2b136ffe6df2c1c9568 0x412a9fd87b303d9001fad3aa61984774 0xc91b4c7ea84cf372720945ee0f0ec9e 0x6f4cd578c490d84298462f25fd5832f0 0x580ab96994515fd8ecc7d24c31ed3342,
  pp3 0x16995dc010908ae36d8a97ed98465b3e 0x82636e5a8a9b56850626a4e555b774a 0x41fc423d10eff4e7a99435cc4823b413 0x6c3995c4bbe0aadc114236dce6f9f9dd 0x6b1b3f27edec2a78f3f22c975935753d 0x3856036f8a3795aadbadaac32ccc292e,
  pp3 0xa22e573e3f0f49b947154caaec01d73 0x2aadd0868535d0c8c50c949f39c184a3 0x15d36adfca3ace9022bc5bbe5f992446 0x161b06d8d7180307038010e37a6308f9 0x2a1765fe9c7696bacfbf4e3abef8d056 0x5405239c0369de646a15d44ce18ef392,
  pp3 0x40cbb03974b370355fabda1210f58e29 0x3b32ace85edac547a29fdf2875322520 0x7f07ecd47a7d2f0c0f0c92b41d679df8 0xe8b1da70636f221b5fc65c05accc95a 0x7df51e4aba57f391b2ebd131f4e8a846 0xee1e115fde5d582aa2f3d40fef689ed,
  pp3 0x29fc1befeb526af2f7d025b42e240ae6 0x4cf4d0d8840e2e1e7c5ffcaff205e565 0x44d3af686ba915ffb8b00d1810ad0ff6 0x3eb300adcf6edc4f86a8fd1eeea8d08c 0x289d0fd301e968818db03c266b588186 0x26ee69546ceb0c77ba83ba260cccc170,
  pp3 0x33aa036671937d11109d8bf92c4ea05 0x42bd48ed44fdbb714bd9902e5a664a0b 0xd6ee92855dae22f7359e19357a9622d 0x4c60fee1e191766ec24debb323643859 0x56c2ae1709c5b0a3beaec0e99faa328 0x7e3b5cd3ac4e6ce17fe89e0c62710909,
  pp3 0x4b1a8c62e99f9429e9d06486ac7370a4 0x75ec513c25dac300b11a50e20bc3197f 0x290379cfce59308cfb9fd064b1466dca 0x2af7a3e930faea44ca3ee3fb7db99943 0x7d534585181e001f0d294e6d1505e35b 0x419f25105d06c90e90285700831d4cfe,
  pp3 0x2921e2a433267985f71e79f5f828172 0x220c82041938573da0981553e84d4a6a 0x3c99a2dc611caddbfd2b5b78ef20c927 0x4b3a3739f724890cfb1247fd99ed2828 0x3ab07cb5ba8ac9877775ea2d7d2d1017 0x44965098aa82161f82e5123a20a6b5c3,
  pp3 0x521e934ab214157d20948c77e9ac4c0c 0x1da963c2ef46f27fc8f4f4052dffedab 0xd188e88d1a4184e3be7631e212fa2e0 0x4ffadfde83d2b0d9b4483ed385de4bae 0x40968c0c9302b0e8acebd9a51a938608 0x3e9f477a61a26d3785704404d06f3a5d,
  pp3 0x4fb87a47b9f2cb041da1efc7cbd18d12 0x7f6991b7723b35cc7556a45e8b5c8caf 0x15e61b1cd72bd52f3fa10a169532635f 0x45cf3bd4bbf39bafe6b45dc3b4667c21 0x457551c49ac495677343b0636a9d63f9 0x7d19e2584756b92d331e611a3fcec018,
  pp3 0x573cd896a79333778951df174059655 0x3cc032b1a1bebc3cb3e37121fd458870 0x17382ec4aa29ffa2571dd06d24d5a41 0x6af59bee2d7586d46cda850c15a224ed 0x6aa570b9e51d4f25287d3c4027f80ee9 0xfb62f93f43edfbf29f327c5e0490d5,
  pp3 0x5d8dc98e723b039e7b06e602dc313277 0x2a4c9f13eef7f1ec5bb61813041a589a 0x27f4d494e7784ad9439edcb4bbaba6f 0x230f37ba41aec2ff087ae2a2fd6bbc8d 0x28abd7ae6e17dbe363876e43daaac09c 0x1dd774a1273aea75d354d50cf000982a,
  pp3 0xdf50723a2da63d7243658930d4b0902 0x134123d68aa939cc22bc07b9ac9628c5 0x53a8c6dbd4aa9ed14e84ee2cf0d450e2 0x608da7f96f2f7e19d06e741c45610565 0xda36bb46fd1eb3d59b7fc9fe6a0243c 0x3becc1cc0b96f1e409a11de836914182,
  pp3 0x2a425dd0204a843c820b8a4cad71c17f 0x5fb74c0c961e6fb1f6f7fdaae1523c28 0x273db117946ce7780c76e0f72b7845a2 0x73aeeb1b24265d5d7a22d35cdea5934f 0x6050215beb6c1923938a618552e4392d 0x2e4ece5c476e1354f32f6ab781efbf2f,
  pp3 0x555185da018933fdf2a4a59613812356 0x72644f9c3181e7a62fffbf95863bce54 0x5bddd5730939d7d098c6b1d509e3d624 0x7671fafa1facb923dd197613d550fbad 0x616bc5c73ccdc3bd13dbb61148c5b802 0x498a1eeb000ab8700b175b4c46fd8871,
  pp3 0x6906346cce00be5aa49f1ca2d7802521 0x5d005ff3122fd749f1bc33c727dd52b0 0x50f93d6d15e46e8251318ad5d7c622e7 0x3848e6fce3cac6e588dfa2123ffff3b9 0xcc5e7dc4e5e144f6cefc31a33ea4f5e 0x257679fdb86f4712ee2009402e59a7e2,
  pp3 0x710f970c16ce20704cf68953d8b17e83 0x5af48dacd01f24f64000b8e9e51e6aad 0xa3538dd7cbe8232209679d5d3fcc916 0x46c718f2d4b2c1a62d6d7aba44d990d2 0x4f4e80f4a682e7a09953d799a378233c 0x317432079a195b2d9912f04acbb77eee,
  pp3 0x3fd895817d0f3be2accccda6a1c11e3b 0x635fc619a24009b6016db17673f750ea 0x6c893aa19abf4221b8447ab3370da1e7 0x13533d324d4adcb55f35ac703d8508d0 0x2223f126f9a70f4b84610370dece8512 0x174bd78b20ef854318f00d60f3bf6a04,
  pp3 0x732bf44a62015302eb179bc6a1698189 0x53f6640c1549e8598352342bc0e4bc6 0x790451f39f2fa27b65eee8b0397c7ce8 0x46d07cec4c967bf236ffa0cb286cdb97 0x6dee239d339ef4997c849ace30868412 0x1c5bebd8b7f5ef08ab78548f273e57f,
  pp3 0x65583f57fe057db6e440e5f042eae93b 0x6b3b87a0a6ad702fe6d5d26c24a565c9 0x4addb9d0da92df89d3f5d533117b8e64 0x30c624ec1dbcd0a4f1bd51990e0f9bfa 0x3086e132b54574e4afaf2f00da7023a0 0x690976ee132c892e93bdbd4bfd3dd8c7,
  pp3 0xf6b95662e02c73486fc11c79524d198 0x55c9b3f55d7cd16b5b78bb385564f568 0x93d67d3fdf312dedf1316434ad1c07f 0x4b5b18abe4b54439a1fd2257ea57b3d6 0x7baffe6e642fdea466c28f5b59d796b2 0x40903bd6dfb02d6fb9d3753265e68ae4,
  pp3 0x179330dea4659dd3357958d4d72d6bc8 0x209f09e03c9b2255a9ca85bc8721aef 0x5e0dde4d715e50c5c0bf2e9738933495 0x6af96188a0d6d3582743c96b66a6b951 0x5e9b8fd43327d9a0b2f3c72820f2a709 0x7abdeaf4f741bacef0b13f5324012177,
  pp3 0x3204eb91cfe9ed6c6f006249351471f7 0x6d70ed88d5de535be09af1c83c13afa2 0x5c73bedb8d96f3da2078873d1a2faa1f 0x7a40ec2fb54eea8541bbb407a3a1ce1d 0x10acf67805927b6ad6d569cb9dd722e3 0x57b175c9f59904e227c61d818cc0ea05,
  pp3 0x51431f647b46b89a4f7b40bc92b5a60d 0x6b36059700809a1ccd84dd55cc2a720e 0x630c0c1a146c77d478e3e5dd060e9a0f 0x4728f0604b16a06dc9925b0dea8fee2b 0x2484f7281864709bb4601050635b2318 0x6425d4ff23dd3a5bbe2ed2a2523211db,
  pp3 0x2733d1e1adc6d5eef0868c09017aef5e 0x36d753ced54d5727a631db49f17f87e9 0x1dcc4d611dd55b04451d17fb6c4af537 0x2fb2ca1271592c3d0bb8de0c8d3e549b 0x190809a196504d10d877914ffbc31ced 0x13195c678b4b01fa44bdd65a970277e3,
  pp3 0x61c7c870565e4508e69a41a54f84d41f 0x7f065480e257152aeca2d2fc6f0e1c9b 0x43fcdb8db58a324afaaa9f7c3a8873b0 0x4eab135af328b9d9969a79026e9da7a2 0x69eba4fe1a6b6f32b38aaafe87f85f7c 0x273072bea774f9e75607f6c6b4d27cbc,
  pp3 0x161f8cd433c28bfa3c1149e3c8d51db0 0x442b5d405f2036bb765a61f218fe70da 0x3d5dbb33505cc95696f790271c564cc1 0x2da978b45bb70ce6621a38b446af395c 0x46f2e33e55e86df8755aca711da49388 0x67df47d68d8f6d12fc5b454d5cb7be24,
  pp3 0x400219c89c2d13e7a1e224893898aad 0x4df64d5df8b60ad26c969e4d63d460d9 0x290c4b59e684b4ef1feed05a45ff89ed 0x4ac6037e76561c9697ffbc3df096adb6 0x7169e0a1d96aa1be1bc40299115e51b1 0x1cc6a0603081a17843f55f8b6bac596c,
  pp3 0x6ffb86eed51d29318e1d2db69bc925d0 0x338198152fcd6d7c3ad1eb242e0af1b5 0x5d9242fe1c60b02c1f381496df13943 0x24d8ba5ac76b12b839617510de7eec81 0x6c51317b3a8a93f0280eb2db9e548483 0x2da9de86c39f9aa6b2a9f90939bd1235,
  pp3 0x7be2be5ad32761697f54917103127b97 0x500df3bbb1f8a4ec969d703d31e9da7 0x49575a992d09345ea05c77685795917 0x383fad35a8e035cbd567f8de2daabe35 0x52b3953221860c5ab9353eb2bbd43d56 0x4b0db0b4a7b3279cf9e4bcd46dbec03e,
  pp3 0x1bd2ce464b5522158cc5f6b6e1ff80c0 0x3b4ce5bb2f42a9fcd008eb25b39c4236 0x3e022cb14bc4c5b9e1f249681d153d9d 0x560d3fb258bec4958a11d021c8ed5a53 0x5c8bccd2b1b3efd3f4405852705a6012 0x337798cb3e93dbbad93c0f63ba7ce0c3,
  pp3 0x579afe689f3ebcce7a9f68cf800c8e88 0x3802410c4e1b274e7dd41d6cdfbdb4a9 0x2f7c8133c74bde2364241d770cf0db02 0x741b1d88a3cee37bf3c3fd835ed1952e 0xc80dd9e0f7a91e174e1ae644683c68f 0x4b3eb97b6a39d2523984d741f3e47c24,
  pp3 0x11d09fdc04ec3b4132e9b9410da9a195 0x296e095589e0ce05f92fd5e53cddea30 0x7e33fbba44ecb32c4e3200c3a283b696 0x5c8ebb260b5ec084ed3c039790ad0033 0x12fbec9d4f5bb155a667455bb79d2e9d 0xca652ed7065d80b3aa5f6bb4d0d8d49,
  pp3 0x41644ac1a602f9f2b7938753d51c6f83 0x71057b4b8b93128284223d4d63c38f7d 0x7536c8a19c33c201d39fa015165f47b5 0x456c98c2b4198511be713ca4166c2dad 0x1d002f1cfe1a1ba74793f25e1cb44658 0x95dece028426bdb9f9ed6e1e1a27957,
  pp3 0x481c63a0d9b25e99e57d3412fc1001d6 0x24af047d79ed4683c756b6ba0dc02aa5 0x418b45e570802012e37ac10133b68275 0x7c5661923b8c974087578def0c3900ce 0xac6100825e4eb3c5f4ab0a6fdda7366 0x436e5979933ddde8308528e42c9e4d32,
  pp3 0x63d1768a46f33dc70cd6ebe123352222 0x474438da7140411d96cc55dff38c9273 0x6bf820a3aa675050a184b89b81cf6402 0x3f2b8f859a8e0cba3bd4720417391f0e 0x7eb1ac74165097ded952561b125da29 0x5ab896a489294a6cc3f70d0c7db0a9fd,
  pp3 0x6243b039f25d0456d4b608975c20018d 0x20035c09d2291e42f766e98fc24c7464 0x24bcba5505f90657cc0e5b5eeb462524 0x3b621ec4188264d443a98d98e4fa9bf6 0x31a20844a3316d23633472fe235c812c 0x22d482f5663780f947b80db7d7f5d0bd,
  pp3 0x25076d0624bf137e4df227dc52142020 0xce469dbb5ada433cb4a6ee30a657645 0x44f82274a8e8f538fdb06251f65b9c5b 0xccd61d1abb61d0d98fa4c81cdec4b97 0x35dcd9ccf8e5f919b9dc371344c5ab54 0x121b5aa1af6024da67fc81f369ba5722,
  pp3 0x4dc688d6d3b1805be0b1b16b0fb1f1fa 0x71af39c743daacd905c187cf10e40104 0xc46305b9243bf5be691e97f82acf4b3 0x4e26e72a1de067f6b063af137fde616b 0x172fe9240cea50b161fe66d01a221004 0x6be02ab0b89aa5d4ff50d37b2effefc,
  pp3 0x32322555b58a7ffcdd4aab96717af213 0x1bd608f60d6457a47812aa965889326d 0x113a86a87856a8a82c7b6b44e999e141 0x4a18dc36f6bfd586d95469fc33814855 0x4dc356685650fa900706b60bdb854fd3 0x19049c3e632deae824ef7cfce41f8dcc,
  pp3 0xf0b7dbc1e5087e25c9a4e28b7138a89 0x19e4b815e6576c85ebf49cdc66a362d2 0x9ecc741852a68e41896051ee3b6063d 0x36b440ff39b4b5e84009034def986795 0x62613c9dd152b3a89bc2647ee28af1cb 0x29ce5ef30009c855c2018ae5dfae5f2d,
  pp3 0x45e2c505d1f749360b653558b21d2b1c 0x528569885a8231048304373240553d3 0x5e610edc23cb9555a90d402e33924181 0x7e5132b6b1ebae3728890ae7e007d28a 0x308ddaea1fdbb6720d5252eb7c94cb1b 0x77d54ed63b9325b999fac0b431730534,
  pp3 0xe968b22ec2cad864d647bcb76c6ec3f 0x3b31df3b52326b5c4b22b5ec30b08a35 0x7db085f133ecbed3be84f638dac3105d 0x67b2e6c15d16e0aa7a8b694596f2cf2a 0x25d5fbbfbe66f8644808b20bf173011d 0x654250e89617ddf3f67f3f3cd9743987,
  pp3 0x3616c781799ab50af5a1a7e0ba0a88c0 0x3a8ec380e12fd7dd2669c27a2d256902 0x2942f3001d233645a25361f44a418e30 0x14deaaa12e5c7bdf60f1d3b7535a4133 0x4bf7c313757c803d0089fbece10c8d6f 0x4fed47af409a3fb365aa30bfbb70567d,
  pp3 0x36c49c2380e3c9bb07557dd875d3daf5 0x6cf6f7474338bcb0a21f643d329ae02f 0x31fb2df2e00e9d4b5df78136a0f3012 0x23f890e082d03b7d4d86fccbe75e79cd 0x199b50aa6cf33025716a1ffb50a8262 0x36095efc133493646a1be351f86090d5,
  pp3 0x65047a340b652f65ffe752be8ce46920 0x5af6aa45278409f6320ee55fd03156a6 0x4e3a988f61072f96a6caf283b1cf3850 0x9fc3f2927d21a4a750f67926b18f680 0x4d15b367121b3e75914893c2f2ce1169 0x3ee5b8c2a70e054a6cb12559723774f2,
  pp3 0x147d5a5a53f57a587dd9b3518d84d2d7 0x3a0f3b029c9a5845e1bd0904ad842a05 0x4e203d6737058c177153c03261410074 0x574b889870c279f4ebecf5cb79f28af9 0x7480da44b34f4b1e326317b005f444a4 0x210494b9ee24e4e07c5f21cdc46275b2,
  pp3 0x6bf3872ccbfed9403cbf6ca1f4aa4ead 0x61a80e16990401a219e8a84673a566ca 0x5762298465f0ebd3ea2e029e7f9b3824 0xb826180531c799f60e36d4969f9af0 0x47196cd6de85c7d017120ec95cf3c61d 0x29271400d7ede26bb0d47cff46a5cba3,
  pp3 0x4bc57f8c1eedec8e835908353516b894 0x7b9fc48ac4a689fb2ec5deede5c0db5f 0x6c5d84a70e03a3d6f82ce6de88fc10e5 0x7d5583e5918aa03e88a211fc4ea531f9 0x5926497e734ab18abdf2d70766fb8f39 0x757c1cd521fd22d6d6a9872b800cacb4,
  pp3 0x288a77d34a15e99a22d50b0c13ec4bc0 0x45ece109c15be16995c8e78fced3d4eb 0x48110e9fd98939d6878ef262d0132128 0x50ca6e71f599c65e3fc5425d2e7741e 0x2af48b9bfee410e4e02f97605d9fe375 0x43dc6f0cdcbd41fefd34a1c107229a54,
  pp3 0x369a7b0dd3e9124815b4eb7d65cc562b 0x116b234ddce09d7f2b087611edd32810 0x4017d51587566038cdb03cae8e90d2b0 0x5086e8e633cd52a1081793739242b600 0x773311b60d59a7e9f5ddaee155cb8087 0x7126a4281b19288236e5aa0acadf2068,
  pp3 0x3cd7d2fbb6e33f6754a10df54f7ecef8 0x517db54840feb2deac31eb6c3e740c25 0x4a8fecd1dcc99e7f17cb269b3ce27a2 0x280da7425bb55b01fc887c1f2f85a2da 0x71da839fc459f465a1af72f5256a5a53 0x8a4201f77a4f335c203fe7ba6587f71,
  pp3 0x5da17076b6b51ae26cb9ea5683014d96 0x41b9a32373d78f7ab55ac168c3e3997f 0x6ebfba3ec9d956cc96f58033b8600a50 0x2f562b035445226f0ff8883707d66d0c 0x2b7d802ce27f627e2388fc015bd368c7 0x77e139f6da8d5aaa301f0369c24083a6,
  pp3 0x2726c94565421b69f78574697fce43c 0x6134cc5eb35c02ff1ad6007338e26585 0x4e96543233c7a1377ae739c9cdcd1e1 0x6bcdff7e14cebb7397d3926dcded2e10 0x4a97b9a0473af8d9c46ae2b32489774 0x448212d3e2164ad7b0350bd910d9784e,
  pp3 0x68ab4d24b3ade8d6f3464e0351f5e995 0x613f7ffe5de92aeb86854d534002af20 0x220dccecbc6f2688b385b4f4608a370a 0x25a82841a2000fd8c31ec5384abd3680 0xbc1124d541781f5d19e422504694236 0x41b81f223d429c760808651edcd99176,
  pp3 0xb101fb0ef0d1f741a6dcb2662cc80c6 0x5b4c5176ccc4a3406f02aed8f8327119 0x548127287f447498fcefd200d6ee8ed 0xe74bc189dc9016ce1efeca1fadd1341 0x69513d3455bc890ce90470353f46cb12 0x280a0bb7733f10869503686f1f2497d1,
  pp3 0x7840ad84b03c387814e5f99930a91dea 0x7e88d2822bb2cecf46e32c654fdbceb1 0x70eb17416ef401804d78a8aed7f8661d 0x3d0d27fc4c7084ef97b6f1733c474a10 0x7bf6e3885d3d9302730f60f6a1ee0d71 0x73b798ec129822eda1e8af33742f1611,
  pp3 0x142927de789fc4a40f669bb094642a70 0x6ae4d37674be14510db18e01fa98cbd7 0x40534e319bc52c6c7175e98f178b4b74 0x1a7651f8f3ed1aaeb7211d252c4db879 0x630b232b7201c3599c9a43932d50cc97 0x5f0e19e78431864a327d77575f5b3839,
  pp3 0x19ba9d60d97f7857bfbb00b6530a3bb6 0x5facbe63177791e1759779de744bd764 0x1d8909e84083c31dc74ea511c56a3b61 0x2ef1b9c07c92ab37cd20094b507af492 0x3f9170e6df5b1fa18430ed9ef8494fc9 0x65b961b58008d0221fb8dbc837175d73,
  pp3 0x54c4b92c534871e97e1afb6816864b6f 0x4390f0e992c41298c0a1dcd60d61ef84 0x7a987e01a2ec308c1e54e2c8b7c27348 0x1ed8c77f8d7c609dee42fbd90c4a89fc 0xeb471e609fef4ed569dedaca99a3346 0x726453b246746bfbc915522a3b9fd03c,
  pp3 0x1bf1e4b34b9feef64ed3cae53dc5fa4b 0xa58d33cb2422e2f0850df9f0401fac3 0x45e46edba1cc432e3d197f9603ecfc29 0x18de3a458be2c33f96c0c93310d9bcaf 0x71a5345f0239b187c9e65e5bcc12a49a 0x438350f57ce2ec4a53b3b2f01c5710b3,
  pp3 0x4033638dfec29fe2dbbd368a760391db 0x269c08d54b106e8c297ad75ed73117fd 0x1f48a1cb09208aaaa4e3e4fd238b4218 0x59feeff0876fb74a9575153115cf5fa7 0x79be1fe79fa674d4fdedb4af6f368710 0x394a451499057bb1689d6bbb4c707c39,
  pp3 0x37628dfc4b5c23bf5887d4fb21fc43b3 0x6e97f0a8a45bcb36c66b76944b34bd13 0x313f4846b67458333ac6b10139edbbdd 0x2fdc98f02692537f8758d9777cd9037 0x25ac5d68c49b105c9e79f381fff833a5 0x788c85c9fe9543b31e9f48a076d8c9ee,
  pp3 0x7c44055b64db2776ea51db3b3b778 0x65000203be8ee9763c392c2a82fddd25 0x528b2700e8f82d39ea119666ab7c50ab 0x55e5a7d5382e0d3ac4aaf797118b8282 0x199f68594b1247a015a80b22e89f1039 0x2687f48cc6def5b28d5630750d622435,
  pp3 0x7aeb10834e93595aa16b0c0259eafaee 0x4e2c19829eee3c87e31bcf34ce679d9f 0x3cd35313c08504eba46869cb8ca35c9d 0x44c562f0f7262740a088eca66e98389c 0x43a0e059bfe37576d3eb8a28f447523a 0x5f30aaf0d1614c610312c5d6d0f2e0ad,
  pp3 0x575db3d21a82296b6f09a7a6e182b0aa 0x93f89458dcc2fe36599bb5eee7925e6 0x1230c0c519de548070c4af785151fc84 0x5de4a122633a5c6d0e66f8f93075a4f6 0x1c3acd4a13ded617db99cf83f9ece1b6 0x482ba1f7715a3c164dfe69e68f59c447,
  pp3 0x4e089eeb713a572fefeed2a7c81ea8fd 0x4b4951ce8eb86fbf78bc74acfbdf322b 0x72913ed109f7d4040eafb6b46ac6714d 0x3c08a283ef5ded62b498bf6fcde9e3a2 0x7ed52441d00d49809af09f593a48b346 0x25db12d420a86151a78e843ee5df44ac,
  pp3 0x5a34cbe928bf96ccec840e7e89d049e0 0x2af4442fc256827dd875dc5525da882c 0xb573ace080a3d9c089fb428c2ef5a5d 0x425ceda6707b6bc96f57282554c240da 0x264f6f6a445b5da994b5a8c3dde824fb 0x5e302e82fa4e5533adf292191c5c1eb7,
  pp3 0x2b0af62c42e56e66f51712fc44237f35 0x4d7e08fe8457a95b10392cb4d9c71b75 0x73329d1c7d88e1e5210b9eceb04534bf 0x3435ec04276ede87667a43fdb4ba79e9 0x4f6c266e6793bb7838b8540a1a78b098 0x109d7b742d8c3dac447ea35172754041,
  pp3 0x59040bb73f3bbd2ae3ccab45d2a4f6f7 0x5c61aed2f83382aa730b39d65645bab5 0x13455cb889b700f9a992143de3cf83e1 0x5b837752ee0f733a54648228b310e2f7 0x5ebebd01fc9ca9a23923a6c0e5ea0dd9 0x7d1a10029a0b6cd5a34c205b8fd94258,
  pp3 0x4127c85d6be1fc626c83c02241a46527 0x2167391e7dd95cd926f86ff5ca7240b6 0x1a2cf919b8832a0f79227506ac78caef 0x38095a07f5713ae107745266405cf574 0x6a5dd9eeb734d639e5eeab985ca3e7e7 0x311085fb4de9c1f0991027ebe44a4822,
  pp3 0x550091d2dfc8688f33f361e21066c3b5 0xaa0898f990931b5376345c5532bac13 0x208790ab78776afcea2f3346e5d3226e 0x3c5c373ada10ef52ac7c2ae63433850c 0x4546a9c475c0978196c1b4003f4cde6a 0x43f36e63fc0d50666c961fd3e8536294,
  pp3 0x241c1fc38565471b296601d8c42167f4 0x60381181b7e7e4eedb00a27e11ce9617 0x166010ffb8dda38c1076b7635ac4d52 0x63303a2015708b175238f69becc43e0b 0x3a10a4e218b6131de8badb2e5bb22591 0x1ce8a51a68a4126f236ab01aabf1a7b3,
  pp3 0x770b48eb4b73830159e775e2a2a87928 0x1957850fb64246600b43c2be176bf79b 0x620ceaa116eef4f044455ee1ecb0ab2a 0x3274f78eaf2d55db0198f62cb6183f6b 0x19cfc17bc0b66f43d2ba4e460cf7ed5f 0x5d93e44739147b58cbae6f45b1942722,
  pp3 0x35372b21b2ea5a46d07180b9d28fc597 0x7a9ebeeecc57e6c2ed2673477f083464 0x35e7d90f4ed6de58b51d991a81a6b314 0x446ffd2715c8d38045f21e209510dd05 0x1379e79fb96912e6e69b5c7a9b6d3e76 0x22264a049d8cfff6c161c848bd508738,
  pp3 0x57b0e50cc585b33332321a68ff7ef7b3 0x5534c793f92f00f51c08c65ba9d764e7 0x6b8933739202599c7a1ced97eafe6fe4 0x2a8719b3e6548653618c5f8fcadd3ff2 0x7a36b8d00d0eda58346a9ec5c4200f0c 0x769737059fc5e465844b22b75021accd,
  pp3 0x1777242305db9ac1db1ba69b5019f266 0x136198dfc57a3053491d11ad264b6ff3 0x14e811c97fc976504a6cc64741eb7176 0x3286fcadf019eb5e6b64667f71be386d 0x674fa7c32df7867b3f2591f4498e10a0 0x3b2c0a20a6372a4bae8ec7ee100dcf2,
  pp3 0x421fb6a7b8a3216b4c8d76b471e24474 0x202af653d9aff3f5c672bdb2fe8f514d 0x7b721fa3ccd42ffc05e5f80f9626953e 0x54c31746d23362b99d8e481c0f70479 0x60e1e3f02e7720c2fbef2e20430e8025 0x363924e90cbb77a6161701874eb347e3,
  pp3 0x2f79c0046ff79fe2180f5ee1863a1a6a 0x1c64c6dd73e0d63644679866e35447f0 0x5ba634965b8b9e871d8175566341469d 0x744f28d23db94c8a8f48744f976952a5 0x556f3d7aa38bee8cd15e84b1f232da34 0x1564fb9a0f81eb0314693c56e866ef89,
  pp3 0x6d3f7e01aebd1957e97eed56fa2b483f 0x3d41e85ba2afd3a9ae8f128aca3b3e45 0x65c49b4c3e98098ee4fe485e4b6d8328 0x394a2122738cd006e96a00e054d6e91a 0x7bc3dcde15890965715cca3dffd90785 0x435db9d6dbe1bd556dcdc47a33a148ac,
  pp3 0x25e727f6a5380553d74d4d6e0fd89c27 0x65c87d3c3e61939cbe54127ba6c5189a 0x7de6b787f097eafac34a6d122a809e2e 0x10705fbf97042046b8f8b6e701758661 0x7c74f26ec6eb070f1591614e6da2d44f 0x6e1bbd44d64b23029ad98c1a50249c60,
  pp3 0x5b4ccbc70beaf690937cee76047790f9 0x2e6394161d093556332e79ae75ae0dae 0x6c419fa0cebba72d4b378bf68f6849f0 0x357cec80bbe024fd8bb431e1e273f2a4 0x7808df02e252371883a6e913962f11a9 0x6cef23259375972ab6690b5dabc49e13,
  pp3 0x5a0ba1dddb15bd36d18ac767b5e551fc 0x3ec23588db9b5cfe6f7923de219e3e1f 0x21581a00768658cda4fc23d42c83bbe0 0x3e7bbab1d15f477fa295b6e57110218e 0x4174f08a95be03b52266c03d3f0d0635 0x6bdf6ba553ae3390aa1a674abb8cbeb8,
  pp3 0x2a9e37a0f0eede538a31f824638545e2 0x64c587e816d96316148a53d8cba69f65 0x13728e46befb2e0e777a028a47e97e93 0xfca8c38a87775f613138b44862fa665 0x40f2f7642e22d02ecc44bd580dd067fa 0x5068aa2e2d25b7f9ab3ba6db80c2f728,
  pp3 0x67c39e8a1006c1965a8a842c0a2923ff 0x2e735c20a419a5188f5cb9ff55460a84 0x5bf6ed60a87b92bd0c6ee3fcbfdc2da4 0x932ceb3e50028e85e4ce130e8e1608f 0x4e89e2c018beb7bd793cf8a0538cbfb8 0x542a38a4d13f0016caaa79642f5060de,
  pp3 0x5158bf1f7b33c0e4a1b0fd9aac663e55 0x32347069a1529fc4060e82f65a4119fe 0x409a902134df6ffe5c96ef69127480d5 0x73f2c48b0e3b4a79dbe8c392eb6c7013 0x1534f901278611d9ddf5060b937e2dff 0x7a2c0bfe75539f29f47fe29ae4fd49a7,
  pp3 0x56381ebd8181b50e19e04d1b2b0fe7fb 0x8acaece8ede76855c8970c249df4ac3 0x623edc8d92e4ac3ac44f1a71aca0d20b 0x20a9ba37315b116e5496a7e5885a0c95 0x23c44c42ebef2ff53765873809f5b55d 0x3217815b72b8a9eb56a96d921f724573,
  pp3 0x31f0b36e85b8c70b2cc1b42f5350a489 0x1af8ea26b3786eac504a5c8c4d2ce34d 0x21e399d04247bf9a69bc5e26d7afd62f 0x476212b9fe9a6fd46e6d6676a88efb27 0x5f7570be65e694080740fb65284168de 0x6565489007c4ed6d0166c3279dd81c29,
  pp3 0x251709f2e210f7bafb5bd37b5219c9 0xf3c0df3be3de8110d22639b51c1198b 0x834744318ffa0aa3552612be3374eef 0x20c359f5de8b6614cb9f1c1e3557a00c 0x42165771b46b75d7d319482a34d05268 0x4d072f70067a47e1ca336c22e8d911a6,
  pp3 0x4c8c7eaf7cc2d6979022c6f101555e9e 0x25110bc01b06c9c1629810b2d8044817 0x6cc36f151f52b4e81bf9c06bf39eaff7 0x47dcb0dc89db382176b73a6a14b62068 0x625b5c93b973c417fe9dfeac2f670f41 0x6bd35f3e0992bb2b5f8c917930133c1a,
  pp3 0x7981d8fd1636276703b5391a85409e5e 0x67356a7ef48b2dc3db45c80a32a23cb6 0x7a1e954e5032bd66189236e9f01adaf 0x25d67e4163cec01453d627199c69727e 0x3112be4cb5dcbc7418e7bb6a63a80738 0x116112cbeabb734dad9ad6d381643f04,
  pp3 0x4d780300822436de32623abe2d66ff07 0x40db29b39ce867009bed066c04497808 0x52f227f2b1b9b40d6e5e5eb3805602a5 0x6d8bca423ee270bc51c2c4c197a18394 0x7dd66c3970f940c6d6e60cfe8fb07f72 0x75fcf8b00160d72966aea7b59a0b17cc,
  pp3 0xdc3600425feedd5bedc5ea39b2402b5 0x205ee93e3aae976aadc1ddf2cb1b6631 0x7d12eb776d56872c7a2cb4e333c98498 0x4600f0a53fac94278e339bc1b41599fe 0x7b54e020b22db7421049d3a372f14304 0x27a1178b1115f0c4d567962272a35739,
  pp3 0x5cb96fd1a9d9d4866cfb39d619c35e1b 0x4a73d7b2ba9321d1af45cef7fb4fffea 0x2769b50579e8f73444b46b4a80be86ac 0x2bccfba1cbe995b6ab5d109e7472f372 0x7acb287da1561c53c00026115332f6a3 0x7731d1b2878dae1321555c608cd90dd9,
  pp3 0x592b5fa180ec846732122bf5ec1a0649 0x484c1cc5bb34819d876be1b5ad9ce66f 0x2766065f0e4d22ce08e4cc425b30b06c 0x3a835fcc7fc456a6d90825644987aeff 0x41d767ecca55f839f4d801d2cc806d69 0x74d01b97462211cbf2dea9fd01f1e74f,
  pp3 0x5cdf66a69029b231e43e280ad29f80cc 0x388e38b58d0e8c79e8d655a03c862cd9 0x14d6fbee4d6cbe745d9aaa4848ff83a2 0x1bb7b9cd75d4b5410426dcda912109ea 0x35a3c5882b31367a3a3c0504b39b8505 0x66abca7e20202034678793d635a6473a,
  pp3 0x18f29036544d26844a90ff1dad300021 0x36490f5645d18cc82036d39b8f69095d 0x7f8108a04558487e9414d7368ad3562e 0x3f413ea960537bb93db0e56d653e40b 0x6c5d9da4a5ee7305984717b77f7267ef 0x274397f8e79a239e725318dc36060a49,
  pp3 0x6292b2505c7866e3bda7965b4095bab0 0x37c560f40242a859451fb6a0672d6733 0x63451986f0c22ee1151e56eb818f1423 0x178cdc734a32b96a9275ff873a5c75e1 0x76518aa0dfd96ddcff7adbb24244aacc 0x584d44c10a3e6dc161c1c8c81071219,
  pp3 0x1298e49c34514ebd2727282a09e9acab 0x6072c8b87dd26bc60323d059ca1c0e6d 0x2a977cb5aae4ea2a36eca2ab28d36f26 0x4d60af0ed661d29f157d43a0b9546a7 0x7677ef9a2158917134bc1080126e4402 0x32c0daf0b57f20acbd13797278f07a40,
  pp3 0x6cd07286c4e670ecbc83fd1b8366dc2e 0x6e7e9285f2247e8bf35485a3f339dc8a 0x43fa5197eed852a6a9d19d3a09943bae 0x4a100dcb1312cbe9f911398a043242fe 0x614fd829368d7937be2fd86be910a692 0x46f1d23e1b0dca7edb5a98b1a92d578f,
  pp3 0x68bc89078129ce918bf4c6725e813f36 0x2b6e0f4e42178ce5ff56503ae28f5c7f 0x7aa90b66280ff6c9a97cd947ec65895b 0x6a748d0ac02bb713ebbaf32df158a0a0 0x16934947f6485b69df79b5d619e83397 0x20791e276a7460c9e75185521ab32881,
  pp3 0xbf079518e66e1d3d25c403e22c70bc9 0x66bd2c6a30be232c45dd5c971d3711de 0x30ed414e71dc08a2607829e5b29e53ca 0x5a881a121f37fc5c3fd38589ea0f1d39 0x321fe45e13afae2d27b9394368987a4f 0x2166d52f45eebbdc6feb75080f33ea0,
  pp3 0x1141be93d5bc3d6d15026a1b0ccd2fc9 0x4059e26b00ad78c4fd20df606fc676c9 0x68f020e8acf478e50709b409cec6b505 0x66eb377735162ff1875d77d1f5df0cfc 0x21175f47da213935860482ab417a32ae 0x26ae5f177ae2b8e7a07ff0cda099ecdb,
  pp3 0x2581feeba7383f81a9a070ea5120eaf7 0x7fe93c51cfd1ec6249e0f137f1fa2a7a 0x562da2ba74e823ff2d74dbdca7777f7e 0x3a0f65212f234ec8543b4f8609d77a2e 0x4524322c6a289e11f842e3fea270ebc6 0x46f49d53c3fe29a380815887aa6a8576,
  pp3 0x4db312076ef0ad2bbcc93cedfdb0d388 0x4c6446970034d15f1f2cd56373654ad9 0x6198950d03db2ae534d2cdbfd5d7130c 0x1f6ca46a9f2588f7736094b72faf1b1a 0x24e5a23d8d6be3a8cba0b03d6259772a 0x287ba27ee54e84667090e340c94f6d6f,
  pp3 0x44fd5802509df17187320c8822d607f0 0x6cf53130ef77cc0af35c09860bf6ba4a 0x649f4c775b0d8b48aa81167a00b48ce4 0x651479007d1061a659a25683ee98d33d 0x411d036475404bf2155487411f6e16da 0x4f36b7633f7dd368c231f1344162458a,
  pp3 0x55d8a5da6eacd542a98ddc0a4e7a89a4 0x5c7785ccafa702b95c3fb48b1001ed45 0x1f405ef10e940669a64369fd216afb79 0x2bc1b67d71f1882d755f4831bc327b6f 0x517370d580d993268eab15cfed7777d0 0x234d84cb52f7b6210811b75701c9db39,
  pp3 0x3ba8d842475e41e1970c4fbddddae49c 0x275cd5c5184bf345b0720f6ad75e7008 0x1b3a42dfde11c2f35eb9833888d3796a 0x119917b50f263cc9946548fe092b5f4d 0x6a552ea3a60c7ff4622de955a20a3f82 0x18083b9518de76a7c79230138150372a,
  pp3 0x523eea9a70ff833455fb74dd7d3b5455 0x3bb011f60430f1d25994a7335e356271 0x69b632960feb57801ec434cba1d6ea7c 0x1470bfbf9d2383046c50417541ebf07 0x1c124638f35ee8ede9551f4c049bc5cc 0x44daaf3e7411127b09ca3a9141e83a38,
  pp3 0x518ab46b26d5914b0e54717b6c2fcd10 0x2247fa99d41f4672528ac6c82341e833 0x3ac74e012b77e1b4abe30c65c0f327a2 0x7c382e10bfe60e4e35defd694c0e86b3 0x4d47481c53631e1af37e382996b8461c 0x5ae1bb6ab1a4c643ac8f167884f7b7b1,
  pp3 0x623126862a793fa163eb02590829df80 0x7bf96130aaecfd2b6e1e242f1ce09807 0x66b548233b94d26eedc5e9ea10bff70a 0x79b0006c8811353e70c70ee4594d30ab 0xc7bf15181a9f5394352792c91710c1f 0x44871c6cb9dcedcdfc995ee769e3779c,
  pp3 0x5445c598c45d0cd90d180bbf2c9a046b 0x5b0d235355660f35defb32386875fb94 0x10658ec4e1bbe147be1dea825b3a7973 0x55f5d3c94a7dd69448af5e87fad77504 0x36c0a7e3f9e0ea31a9a3e7062cad6ba2 0x1d031dfc8b9fb598c4bd65217010aebc,
  pp3 0x774b77ee1e6a6477e3621c104113889e 0x5a6c0df18188cada124c5b8a07785fd7 0x38100fffb66ba966f4adcd545e72d7be 0x4489be2df052c1752100cbe35fe4a4d0 0x5ae4a0a0fec13928a03a22403b26899f 0x34917e9c4ecf253289dfbfb802795eaa,
  pp3 0x25c098506334c71d64b93674c60cbbb3 0x3a960adf48f141e48a723f66f1ee34e1 0x577a0fbf6e8095e6659f386695e440bb 0x44176a30b9e465b8ef419b0f4b25496 0x77d0b2483aa95ce77a98705df2013e6f 0x8f1e55bfe942c7f309e917b978effd7,
  pp3 0x140f2e35cd68949ffc241629b8d613c8 0x7abc8ecdd300f3b538899f6a3ee4f9fa 0x75e73f09376b2c7cd3dad23505d23eaf 0x511ade8afe1eaec95644a663b60ec5c4 0x2838de73b0ca1f6cbb005fe4e1abca89 0x48aaba61c91641ec800a6658b80d28c8,
  pp3 0x106dd3c0ce85beca222759cab704d4e2 0x1651b210e8e4ee10a1ce1ce341f69d03 0x58c02f47dc9367b947329a5e7133e136 0x435c251178125b4809dcba56947b02af 0x2f02b0a6422afddbd56979a3f0cd9315 0xab833238232cb5d23920f500731f32d,
  pp3 0x2342c2a03c6eaec2a7b3d1bfb0bb60db 0x5b9a421ddc42a24bac5e6e5a14d5282e 0x6d7c377c084954e6018506414543e056 0x5150dbc15ab109794f8bf71ed3db1ced 0x140be5c3d324470500b50a1b373a7fbf 0x77cea555bb133f3e5005bfe96e5b7911,
  pp3 0x3897ac98314968d32ab1e1a9d7a973c6 0x2e5ecbbae41997cd9e0f74764b23c9c3 0x3a515a0e4808e69c43e2ea5648f12433 0x44cebd053481ce4317d36c03c36bb343 0x2f8513fcb9009be689008656c21b0d76 0x3828c2d4efd36a732e223f90208a0e83,
  pp3 0x59ebb42b9656151dbf17d64f89a8527d 0x191b682a0cb695ec7d7bc7245c7dc5ef 0x239b6cbbab2ebdcf8931172fad9f9add 0xc140548f858d8b576932f9ca7002dd1 0x3b39c4b9e2e1a5676c7adfddcf741ea5 0x690d8fecb7dd0ae0c5135a25f87436fe,
  pp3 0x4f2a84b3134cf832d782a618ecda10c2 0x457f88ed64ae639835a81f71bbc955a4 0x4ae91808569aab32c27eb71c31479985 0x619cb199b837ed36a5f2e9785a75eb11 0x3b5831e87fdbcaf00e7e5912b9484e40 0x3d4b81e07f49061a49a2779c2d2b039d,
  pp3 0x265c1b11b42fd4e2aa119b0fa222b55c 0x3d2da7900de5a4b26b4d28e519dd7637 0x4ce62bd9e6a1ee1899b06586b5f21d63 0x390b7821d0987834b671e753932f8c92 0x78c636a8514a7af91adf7c73c3f1fc2f 0x7fbd199278f6ffd7aee3b35fe11e7533,
  pp3 0x1b27fdf18b96bf6a41aabbf4363d77de 0x36efc08530c0bf9ada264a1dff9a981c 0x23d7c905e656e6cb5bd8862a5d830854 0x36627f376238665f4523324c5b64fdcf 0x17c7cc86a1913022564f53925c6d5ea4 0x15192dc91f8b994bf90db52a543b009b,
  pp3 0x48fca8ea99772ecc80bfa3c1a79ec6e2 0x46a8c75601b81e22fee6a3b98c0f1824 0x1d1dff9c04305ce22cb3c402a8895fcc 0x79c6a083ab5a80b2c1aefe78e85971d7 0x2419358989b3ca02379c7bca5dbf2518 0x4481c2ce91b14459c9c42c9cfa5f470e,
  pp3 0x26ee3ceee0d0a1016b04dea1ea26deca 0x4d14709719764fbde36cc6bcd8fa4f26 0xf75fb69a23f2ec1e0572a706f1fef52 0xb6373a91b94477332ae4b04a864cf3b 0x586b0d5ace4017471a8f2bc20bd088af 0x1752a123c268c1c7a0e6b094a3c51433,
  pp3 0x536cb9d1b71eeb43643c2a93b5770ea1 0x1f4dcfeec3adefc36bfb0525d0cc6b3f 0x1336c9aa20a3544928a0169dd0bf57f0 0x5e33478283c1e03dbbcda068703ad7a1 0x789af507a17bb867f1997733d18fdaf2 0x79452342e845256f79970c14d5695613,
  pp3 0x11beda1c8f9cdfbe6c12f9367a26a018 0x7706e91e3e544755720e6ddf24b30929 0x7e01916c3678c4244460381d3a6c9059 0x68bae01d79c869e26024355a61d2bb07 0x2f7ee6aeb57c933f21cbcff285df659 0x39b4fdb5170a103ce0f078c17266467,
  pp3 0x33d37a152a778695d5de0fec61a4ae1b 0x1f1d394373bdb213ea64e40e6a10ded9 0x57922adc3ae52283f63598b6ef59fd14 0x27f3dbebd98a9daee39a90e18b76f4a1 0x511d72c1912e2d7318179dd9c03804b3 0x56009999cdc2997f88e1f6d24b2f3225,
  pp3 0x76f746bba63da226da6df977b7d82fe4 0x4a31eb04f66f0e180b5facfc3bf13bd7 0x19aa731bc30c20b18ace73d5e7cfe28f 0x6795ce71a09c7c9fa91979fe73400317 0x3850eaf08b1fd14d93d55501933700ba 0x1be5db848bdfa5ef450c5abc89edca71,
  pp3 0x673b6e6c4824bc4577667d3f4fcf082b 0x6ee6722b5dfed16f22c12a5fe0ed6d 0x40564879a378e6e4b47a13c1468d0c62 0x21761c79e44dfcfd0bc6b553a9d3ab58 0x2e67df1312dd01d366f36ed3eb1050fb 0x7844962b6d6e039c48744c4a68dbf2ad,
  pp3 0x336262aa3d2c1df0e07b5675d378b65f 0x4f668dd96dda5e2a320a5667d78c2e2b 0x3061905b2ef82bb1e21556795c7b8470 0x1f87377fee0d7a39aee53211472206b6 0x6e3c4ce04f0d7ffddac58c52a3b1a0c7 0x4b5340f79e2ae2c2fdffec45d4a3990f,
  pp3 0x55292744ae35ee1a0537c8b7b3d1f332 0x5ac40e9e645cb3d742336d0e6d057f1e 0x74bda86736eff150848f7b7f845e46c7 0x14bcef9cf39667bb891acf622baf4f35 0x27e855a19295e59f9aa1354d9731b9b3 0x3bbc43f9ec4437a71a829a8e10662ed0,
  pp3 0x3432778068d355498bfa8b1cb1de5341 0x1bb6ee1ce2efe552e3d807da41f25a48 0x290f1c5299a917a808d9bded0bd3affc 0x1bf7aae68686211fda8dfd79562f8939 0x7bef6e2f0eb58a0b2ab6daf9bc860765 0x17ea87750bb8bda8746faab7c439b94,
  pp3 0x35cec0d2887b3a13f8dfeb22239c9a7c 0x7470553f8ba6176768aa94ac601f1606 0x55b22aeb8337f73237894f91c9eac410 0xaec068aec69023a53f8d90f29a2fe94 0x6a327ff1ac1e547540506162ad6182ee 0x3f93f46195f67521968d7095492df3c8,
  pp3 0x2716b931296b53c24983bca28970d546 0x76f29b084b6a369ff42b013266b6f8b3 0x4f2fa1d3a6c1acfd8e28749222216249 0x37c33e28fec0cce50ee66697eab8f954 0x1f04d4299b94daa7d0419e2bafd1dd1 0x3a24c66060ed72a95ec06abbc1e5c7e6,
  pp3 0x1d5973d5d59f9c3a0db764e15f960f26 0x1d80e0461b72f518f3dc2608dc6d9149 0x1f03e7a246334d5e2264dccd49c8b09c 0x418588ae4f284bd32d6e38871b1fc2ad 0x799ba0c80bdd8dc3efb071bafe1afa2 0x13859f08ac8a4b23a6b273222dcc4a76,
  pp3 0x459fa55bd0bbedf60194acc2663c5acb 0x9e5fad46599ea751b055550f06f8cc1 0x4aaaa5c18093a4316b3916ef772958a3 0x620ef55048a263b98e1503e36610f594 0x6aee46b1b740c15a5a28963c8cb8ecbc 0x13a579e3777ca8b167e39606f59cfea9,
  pp3 0x53068a1a42460eab45ad92f61cbb8de3 0x7bf38a7cecd48609b163546de379578 0x402aed6399f78ffcf84c77031d282de1 0x3702e257340d2ecdfb83dd20295f6d45 0x617526d2a50b0c51b8db2d8b979b97c8 0x2f35eedec55f9d92d86f6278313017db,
  pp3 0x7a111a74e0baf09aeecb69493517973b 0x4217076312833746b82c6da8ec39f63d 0x7baebcb360f2a8875d36d11f3dda88d9 0x10f17a2f6edf28fd9829b62d093d6cbb 0x731ca3065c118e34fe3efa4353f40626 0x7f906a4f4c6355c6185678827960895,
  pp3 0x2b5f5d452dd861ce361d9cd10e657142 0x533723bc4cfcc0dba3e01df05d04b69a 0x4e67e941595d8dfd820384afa1bbccb5 0x6887a0573a5969680f8da50839e13646 0xd4076f28ecf96c8e93dd1df5ace7343 0x5eb2a314a41a40b60ba2f854988074c1,
  pp3 0x15f7ca40acd5114e49ff6d27a676b27e 0x3bedbe891f79eb5cc171f9a750d7da95 0x88b1af3aa331a4c5b643bceb83f74ff 0xa0770fc8120b151de294c7e0a60c4a9 0x34b797c03efd9c88f09b757a0c7c1937 0x66db34ec5ac5122c051e3edb2c28cc49,
  pp3 0x797897c8121818cf95fde0d3d3dc8cbf 0x533a505803f809c51fd46d197710f89d 0x4a7c3479af5c9d82b60f1c090c9fd211 0x6949f4a61306821f4bfc3ffa4c8cf5a5 0x419a5e33166863c4d814c949c67abcdc 0x497cc1449a54545a9de646f6bd0895e0,
  pp3 0x323c83233967f47769eb31247fe126f2 0x42a0e188e7b9380c52e0db4d3d78127d 0x79f4168aa9a0b4aa3a6b011c46e34e7e 0x2bb28618cbc9cdc894270a25d708fa4d 0x2790c52fb2ce982741e46bb04606819 0x32aa96ae061e94126dbb92d0c6d0af10,
  pp3 0x4d1dfe650c0a71361376700c90d98eaa 0x4836ac4a041bae37b397f8eef89aff20 0xd063fa2467b3a37f37c1076a80a02b8 0x65ef1194db859a5d498f2617b56b7e7b 0x228ee6f49459c083d1fe25d5d28ffcb6 0x713b185ef1fccbfc6b7e82b3b009b15b,
  pp3 0x2b7ba65d02519614552468f1ff60c298 0x7bf9249284bd02e58a86ad90ff0816c2 0x171473b77f8045403008c56e474c2d10 0x66ac67c7b9b0951f15fb79d07bdea766 0x13c63dd2687d617b34bca15bb6d2f652 0xe543c6765fbfef2c515ae237715c19c,
  pp3 0x1e2e9e3b3d9962b8668c80faf156fb5e 0x322add21cf1659cf89ebaa264394e113 0x723bfc8b792147f0f9e6e26733619f8e 0x1aa61c59290b501179aef2837d7e092f 0x2c3d6e6a5a1ce0da9955ae576a499cd3 0x4961a21f1080285fb864cfa199a8676b,
  pp3 0xc84bda97e7ce725828e184adf9d997b 0x4ec8cd773946105be6974677094cfcc5 0x6ade87f8f7a5f269a48681bcc95fb5c6 0x3bde0ee1f19f18429b97628fdd39c03d 0x769bf8f8d07de9bf4ef8c8fb117c0ca1 0x79987aa861bbcf9cc8f5f435b78a57e5,
  pp3 0x119bd819111c69d17f6c557204b02022 0x4317f0511bfb7b39f0c61ef00b3eb70b 0x1c1a3862da3369cb36a2b944e84d608e 0x3835751e107419ad37dbf471085f1775 0x63758bfbc7df13a004ab0c84bb07a3fe 0x1ff11c442b1515b715ffd20cb554f23e,
  pp3 0x615efe82b83538f8171377f1bf937186 0x7af02427d7241502321e7cfae352a761 0x65a1d8a017659d7586546e47f2cc559f 0x1e887cb68990623c95d8aa5b8bfdac9 0x40ce5e4f2ba3908ff1f8ee8c466bcc3d 0x51625d3eabf708cdd2b81a3480c16b35,
  pp3 0x7f1de74a022958a044d770a210105739 0x204fbacb13586460fbe4c91bd1e8f732 0x541ad5591934b11497d79097d62e3cf8 0x354926e5244fdecffdfb47919c141909 0x2b9a9a69d3a6c3d16291b0a0e2e994b0 0x3645c65df1a881cd8189be54302371e7,
  pp3 0x7ea384dc52d0d26edf0460f445e3877b 0x1f6e62daa7c5d4e60c2e5f768d46b6b0 0x2b7183c8767d372cf8b026b33b2343ee 0x4ddb3d287c470d60bd45d1b6b6731517 0x4e737fa0d659045f1031dba40263ece2 0x34a35128a2bcb7f58cbc98d07d09b455]

/-- `table_lookup_fixed_base(P, digit, sign)`: table entry, negated (swap
`xy`/`yx`, negate `t2` — the source's `~`/`0x7FFF... -` word pattern is
exactly `fpneg1271` on both components) when `sign` is nonzero. -/
def table_lookup_fixed_base (digit sgn : Nat) : PointPrecomp :=
  let e := FIXED_BASE_TABLE.getD digit (pp3 0 0 0 0 0 0)
  if sgn ≠ 0 then ⟨e.yx, e.xy, fp2neg1271 e.t2⟩ else e

/-- The first 49 sign digits of `ecc_mul_fixed` (`digits[i] = (scalar & 1) - 1`
as a 32-bit unsigned value, i.e. 0 for a set bit and `2^32 - 1` for a clear
bit), together with the scalar remaining after the 49 shifts. -/
def mulFixedSignDigits : Nat → Nat → List Nat × Nat
  | 0, s => ([], s)
  | n + 1, s =>
    let r := mulFixedSignDigits n (s / 2)
    (((s % 2 + 2 ^ 32 - 1) % 2 ^ 32) :: r.1, r.2)

/-- The 200 magnitude digits of `ecc_mul_fixed` (`digits[i] = scalar & 1`,
with the borrow-style correction `scalar += (0 - digits[i mod 50]) & digits[i]`
folding negative sign rows into the remaining scalar).  `i` is the absolute
digit index (starting at 50). -/
def mulFixedRestDigits (signRow : List Nat) : Nat → Nat → Nat → List Nat
  | 0, _, _ => []
  | n + 1, i, s =>
    let dg := s % 2
    let s1 := s / 2
    let temp := ((2 ^ 32 - signRow.getD (i % 50) 0) % 2 ^ 32) &&& dg
    dg :: mulFixedRestDigits signRow n (i + 1) ((s1 + temp) % 2 ^ 256)

/-- The table index of one `table_lookup_fixed_base` call of `ecc_mul_fixed`:
column `c` (4 down to 0) and row `r` (0 to 9) select
`16*c + 8*digits[200+10c+9-r] + 4*digits[150+10c+9-r] + 2*digits[100+10c+9-r]
+ digits[50+10c+9-r]` with sign digit `digits[10c+9-r]`. -/
def mulFixedIdx (d : Nat → Nat) (c r : Nat) : Nat :=
  16 * c + 8 * d (200 + 10 * c + 9 - r) + 4 * d (150 + 10 * c + 9 - r) +
    2 * d (100 + 10 * c + 9 - r) + d (50 + 10 * c + 9 - r)

/-- `ecc_mul_fixed(k)`: fixed-base scalar multiplication `k*G` by signed comb
over the 80-entry table.  The unrolled 45 lookup/add pairs of the source are
the column lists `[3,2,1,0]` (row 0, after the initializing column-4 lookup)
and `[4,3,2,1,0]` (rows 1 to 9, each preceded by one doubling). -/
def ecc_mul_fixed (k : Nat) : PointAffine :=
  let scalar := Montgomery_multiply_mod_order (Montgomery_multiply_mod_order k montgomeryRprime) 1
  let sOdd := if scalar % 2 = 0 then (scalar + curveOrder) % 2 ^ 256 else scalar
  let s1 := sOdd / 2
  let sr := mulFixedSignDigits 49 s1
  let signRow := sr.1 ++ [0]
  let digits := signRow ++ mulFixedRestDigits signRow 200 50 sr.2
  let d := fun i => digits.getD i 0
  let S := table_lookup_fixed_base (mulFixedIdx d 4 0) 0
  let rx := fp2div1271 (fp2sub1271 S.xy S.yx)
  let ry := fp2div1271 (fp2add1271 S.xy S.yx)
  let R0 : PointExtproj := ⟨rx, ry, f2one, rx, ry⟩
  let row := fun (R : PointExtproj) (r : Nat) (cs : List Nat) =>
    cs.foldl (fun R c =>
      eccmadd (table_lookup_fixed_base (mulFixedIdx d c r) (d (10 * c + 9 - r))) R) R
  let R1 := row R0 0 [3, 2, 1, 0]
  let Rf := (List.range 9).foldl (fun R r => row (eccdouble R) (r + 1) [4, 3, 2, 1, 0]) R1
  eccnorm Rf

/-- `ecc_precomp_double`: the 4-entry table P, 3P, 5P, 7P in (X+Y,Y-X,2Z,2dT). -/
def ecc_precomp_double (P : PointExtproj) : List PointExtprojPrecomp :=
  let T0 := R1_to_R2 P
  let A := eccdouble P
  let PP := R1_to_R3 A
  let Q1 := eccadd_core T0 PP
  let T1 := R1_to_R2 Q1
  let Q2 := eccadd_core T1 PP
  let T2 := R1_to_R2 Q2
  let Q3 := eccadd_core T2 PP
  [T0, T1, T2, R1_to_R2 Q3]

/-- Zero `point_extproj_precomp` (never selected; `List.getD` default). -/
def ppZero : PointExtprojPrecomp := ⟨(0, 0), (0, 0), (0, 0), (0, 0)⟩

/-- One digit of one variable-base sub-scalar inside the main loop of
`ecc_mul_double`: add (or subtract, via `eccneg_extproj_precomp`) the selected
multiple of the decomposed point. -/
def mulDoubleStepL (digits : List Int) (tab : List PointExtprojPrecomp) (i : Nat)
    (T : PointExtproj) : PointExtproj :=
  let dg := digits.getD i 0
  if dg < 0 then eccadd (eccneg_extproj_precomp (tab.getD ((-dg).toNat / 2) ppZero)) T
  else if 0 < dg then eccadd (tab.getD (dg.toNat / 2) ppZero) T
  else T

/-- One digit of one fixed-base sub-scalar inside the main loop of
`ecc_mul_double`, over `DOUBLE_SCALAR_TABLE` at the given 64-entry block. -/
def mulDoubleStepK (digits : List Int) (off : Nat) (i : Nat)
    (T : PointExtproj) : PointExtproj :=
  let dg := digits.getD i 0
  if dg < 0 then eccmadd (eccneg_precomp (DOUBLE_SCALAR_TABLE.getD (off + (-dg).toNat / 2) (pp3 0 0 0 0 0 0))) T
  else if 0 < dg then eccmadd (DOUBLE_SCALAR_TABLE.getD (off + dg.toNat / 2) (pp3 0 0 0 0 0 0)) T
  else T

/-- `ecc_mul_double(k, l, Q) = k*G + l*Q`, or `none` when the point validation
of `Q` fails (the only failing branch of the source). -/
def ecc_mul_double (k l : Nat) (Q : PointAffine) : Option PointAffine :=
  let Q1 := point_setup Q
  if ¬ ecc_point_validate Q1 then none
  else
    let Q2 := ecc_phi Q1
    let Q3 := ecc_psi Q1
    let Q4 := ecc_psi Q2
    let ks := decompose k
    let ls := decompose l
    let dk1 := wNAF_recode ks.1 8
    let dk2 := wNAF_recode ks.2.1 8
    let dk3 := wNAF_recode ks.2.2.1 8
    let dk4 := wNAF_recode ks.2.2.2 8
    let dl1 := wNAF_recode ls.1 4
    let dl2 := wNAF_recode ls.2.1 4
    let dl3 := wNAF_recode ls.2.2.1 4
    let dl4 := wNAF_recode ls.2.2.2 4
    let t1 := ecc_precomp_double Q1
    let t2 := ecc_precomp_double Q2
    let t3 := ecc_precomp_double Q3
    let t4 := ecc_precomp_double Q4
    let T0 : PointExtproj := ⟨(0, 0), f2one, f2one, (0, 0), (0, 0)⟩
    let step := fun (T : PointExtproj) (i : Nat) =>
      mulDoubleStepK dk4 192 i (mulDoubleStepK dk3 128 i (mulDoubleStepK dk2 64 i
        (mulDoubleStepK dk1 0 i (mulDoubleStepL dl4 t4 i (mulDoubleStepL dl3 t3 i
          (mulDoubleStepL dl2 t2 i (mulDoubleStepL dl1 t1 i (eccdouble T))))))))
    some (eccnorm ((List.range 65).foldl (fun T j => step T (64 - j)) T0))

/-- `encode(P)`: the 32 bytes of y, with the top bit carrying the "sign"
(bit 126) of the x-coordinate — of its real part, or of its imaginary part
when the real part is zero. -/
def encode (P : PointAffine) : Bytes :=
  let temp1 := (P.x.2 / 2 ^ 64 &&& 0x4000000000000000) <<< 1
  let temp2 := (P.x.1 / 2 ^ 64 &&& 0x4000000000000000) <<< 1
  let yv := P.y.1 + 2 ^ 128 * P.y.2
  ⟨32, if P.x.1 = 0 then yv ||| (temp1 <<< 192) else yv ||| (temp2 <<< 192)⟩

/-- `decode(Pencoded, P)`: recover the x-coordinate from the encoded y via the
GF(p^2) square root of `u/v = (y^2-1)/(d*y^2+1)`, select the root matching
the encoded sign bit, validate, retrying once with the conjugated abscissa,
and fail (`none`) if neither candidate is on the curve. -/
def decode (enc : Bytes) : Option PointAffine :=
  let v := enc.val % 2 ^ 256
  let y : Nat × Nat := (v % 2 ^ 128, v / 2 ^ 128 % 2 ^ 127)
  let u := fp2sqr1271 y
  let w := fp2mul1271 u PARAMETER_d
  let u1 := fp2sub1271 u f2one
  let v1 := fp2add1271 w f2one
  let t0 := fpadd1271 (fpsqr1271 v1.1) (fpsqr1271 v1.2)
  let t1 := fpadd1271 (fpmul1271 u1.1 v1.1) (fpmul1271 u1.2 v1.2)
  let t2 := fpsub1271 (fpmul1271 u1.2 v1.1) (fpmul1271 u1.1 v1.2)
  let t3 := fpadd1271 (fpsqr1271 t1) (fpsqr1271 t2)
  let t3b := fpsqrN 125 t3
  let ta := mod1271 (fpadd1271 t1 t3b)
  let t := if ta = 0 then fpsub1271 t1 t3b else ta
  let t' := fpadd1271 t t
  let t3c := fpmul1271 t0 (fpsqr1271 t0)
  let t3d := fpmul1271 t' t3c
  let r := fpexp1251 t3d
  let t3e := fpmul1271 t0 r
  let x0 := fpmul1271 t' t3e
  let t1r := fpmul1271 t0 (fpsqr1271 x0)
  let x0h := fpdiv2_1271 x0
  let x1 := fpmul1271 t2 t3e
  let tt := mod1271 (fpsub1271 t' t1r)
  let xp := if tt ≠ 0 then (x1, x0h) else (x0h, x1)
  let x0m := mod1271 xp.1
  let sbit := byteAt enc 31 / 128
  let chosen := if x0m = 0 then xp.2 else x0m
  let x : Nat × Nat := if sbit ≠ chosen / 0x40000000000000000000000000000000 then fp2neg1271 (x0m, xp.2) else (x0m, xp.2)
  let R := point_setup ⟨x, y⟩
  if ecc_point_validate R then some ⟨x, y⟩
  else
    let nx1 := fpneg1271 x.2
    if ecc_point_validate ⟨(x.1, nx1), R.y, R.z, R.ta, R.tb⟩ then some ⟨(x.1, nx1), y⟩
    else none

/-- The challenge hash of `signWithNonceK` (`KangarooTwelve(temp, 32+64, h, 64)`
where `temp` holds the encoded commitment, the public key, and the message
digest): named separately so that claims about its input can be stated. -/
def signChallenge (encR pubkey digest : Bytes) : Bytes :=
  KangarooTwelve (bcat (bcat encR pubkey) digest) 64

/-- `signWithNonceK(k, publicKey, messageDigest, signature)` with the 64-byte
precomputed `k`: nonce scalar from hashing `k[32..63] || messageDigest`,
commitment `r*G`, challenge from `signChallenge`, and the response
`r - privateScalar*challenge mod order` in the upper signature half
(`r` and `h` are used through their low four 64-bit words, `% 2^256`). -/
def signWithNonceK (k pubkey messageDigest : Bytes) : Bytes :=
  let rBytes := KangarooTwelve (bcat (btake 32 (bdrop 32 k)) (btake 32 messageDigest)) 64
  let r := rBytes.val % 2 ^ 256
  let encR := encode (ecc_mul_fixed r)
  let h := (signChallenge encR (btake 32 pubkey) (btake 32 messageDigest)).val % 2 ^ 256
  let r1 := Montgomery_multiply_mod_order (Montgomery_multiply_mod_order r montgomeryRprime) 1
  let h1 := Montgomery_multiply_mod_order (Montgomery_multiply_mod_order h montgomeryRprime) 1
  let s1 := Montgomery_multiply_mod_order ((btake 32 k).val) montgomeryRprime
  let h2 := Montgomery_multiply_mod_order h1 montgomeryRprime
  let s2 := Montgomery_multiply_mod_order s1 h2
  let s3 := Montgomery_multiply_mod_order s2 1
  let d := (r1 + 2 ^ 256 - s3) % 2 ^ 256
  bcat encR ⟨32, if r1 < s3 then (d + curveOrder) % 2 ^ 256 else d⟩

/-- `sign(subseed, publicKey, messageDigest, signature)`: expand the subseed
with KangarooTwelve and call `signWithNonceK`. -/
def sign (subseed pubkey messageDigest : Bytes) : Bytes :=
  signWithNonceK (KangarooTwelve (btake 32 subseed) 64) pubkey messageDigest

/-- The challenge hash recomputed by `verify` (`KangarooTwelve(temp, 32+64, h, 64)`
over commitment, public key and digest). -/
def verifyChallenge (pubkey digest sig : Bytes) : Bytes :=
  KangarooTwelve (bcat (bcat (btake 32 sig) (btake 32 pubkey)) (btake 32 digest)) 64

/-- `verify(publicKey, messageDigest, signature)`: canonical-encoding gate,
public-key decoding, challenge hash, double-base multiplication
`response*G + challenge*A`, and byte comparison with the commitment half. -/
def verify (pubkey digest sig : Bytes) : Bool :=
  if byteAt pubkey 15 &&& 0x80 ≠ 0 ∨ byteAt sig 15 &&& 0x80 ≠ 0 ∨
      byteAt sig 62 &&& 0xC0 ≠ 0 ∨ byteAt sig 63 ≠ 0 then false
  else
    match decode (btake 32 pubkey) with
    | none => false
    | some A =>
      let h := (verifyChallenge pubkey digest sig).val % 2 ^ 256
      let resp := (btake 32 (bdrop 32 sig)).val
      match ecc_mul_double resp h A with
      | none => false
      | some A2 => encode A2 == btake 32 sig

/-!
Auxiliary arithmetic lemmas for the field layer.
-/

theorem two_pow_63_eq : (2 : Nat) ^ 63 = 9223372036854775808 := by norm_num

theorem two_pow_64_eq : (2 : Nat) ^ 64 = 18446744073709551616 := by norm_num

theorem two_pow_127_eq : (2 : Nat) ^ 127 = 170141183460469231731687303715884105728 := by
  norm_num

theorem two_pow_128_eq : (2 : Nat) ^ 128 =
    340282366920938463463374607431768211456 := by norm_num

theorem p1271_eq : p1271 = 170141183460469231731687303715884105727 := by
  norm_num [p1271]

/-- The final carry fold of `fpadd1271`/`fpmul1271` preserves the residue
modulo p. -/
theorem fold1271_cong (s : Nat) :
    (s % 2 ^ 127 + s / 2 ^ 127) % p1271 = s % p1271 := by
  simp only [p1271]
  omega

/-- `fpadd1271` stays below 2^127 and is the modular sum. -/
theorem fpadd1271_spec (a b : Nat) (ha : a < 2 ^ 127) (hb : b < 2 ^ 127) :
    fpadd1271 a b < 2 ^ 127 ∧ fpadd1271 a b % p1271 = (a + b) % p1271 := by
  simp only [fpadd1271, p1271]
  omega

/-- `fpsub1271` stays below 2^127 and is the modular difference. -/
theorem fpsub1271_spec (a b : Nat) (ha : a < 2 ^ 127) (hb : b < 2 ^ 127) :
    fpsub1271 a b < 2 ^ 127 ∧ (fpsub1271 a b + b) % p1271 = a % p1271 := by
  simp only [fpsub1271, p1271]
  have hb128 : b % 2 ^ 128 = b := Nat.mod_eq_of_lt (by omega)
  rw [hb128]
  clear hb128
  rcases le_or_lt b a with hba | hba
  · have h1 : (a + 2 ^ 128 - b) % 2 ^ 128 = a - b := by omega
    rw [h1]
    clear h1
    have h2 : ((a - b) % 2 ^ 127 + 2 ^ 128 - (a - b) / 2 ^ 127) % 2 ^ 128 = a - b := by
      omega
    rw [h2]
    clear h2
    omega
  · have h1 : (a + 2 ^ 128 - b) % 2 ^ 128 = 2 ^ 128 - (b - a) := by omega
    rw [h1]
    clear h1
    have h2 : ((2 ^ 128 - (b - a)) % 2 ^ 127 + 2 ^ 128 -
        (2 ^ 128 - (b - a)) / 2 ^ 127) % 2 ^ 128 = 2 ^ 127 - 1 - (b - a) := by
      omega
    rw [h2]
    clear h2
    omega

/-- On inputs below 2^127, `fpneg1271` is exact subtraction from p. -/
theorem fpneg1271_eq (a : Nat) (ha : a < 2 ^ 127) : fpneg1271 a = p1271 - a := by
  simp only [fpneg1271, p1271]
  omega

/-- `mod1271` maps any value in [0, 2p) to its canonical residue. -/
theorem mod1271_spec (a : Nat) (h : a < 2 * p1271) : mod1271 a = a % p1271 := by
  simp only [mod1271, p1271] at *
  split <;> omega

/-- Halving a doubled canonical element recovers it. -/
theorem fpdiv2_fpadd_self (a : Nat) (ha : a < p1271) :
    fpdiv2_1271 (fpadd1271 a a) = a := by
  have ha' : a < 2 ^ 127 - 1 := by simpa [p1271] using ha
  clear ha
  have h128 : (a + a) % 2 ^ 128 = a + a := Nat.mod_eq_of_lt (by omega)
  simp only [fpadd1271, h128]
  clear h128
  rcases lt_or_ge (a + a) (2 ^ 127) with hc | hc
  · have h1 : (a + a) % 2 ^ 127 + (a + a) / 2 ^ 127 = a + a := by omega
    rw [h1]
    clear h1
    simp only [fpdiv2_1271]
    rw [if_neg (by omega)]
    omega
  · have h1 : (a + a) % 2 ^ 127 + (a + a) / 2 ^ 127 = a + a - (2 ^ 127 - 1) := by omega
    rw [h1]
    clear h1
    simp only [fpdiv2_1271, p1271]
    have hodd : (a + a - (2 ^ 127 - 1)) % 2 = 1 := by omega
    rw [if_pos hodd]
    have h3 : (a + a - (2 ^ 127 - 1) + (2 ^ 127 - 1)) % 2 ^ 128 = a + a := by omega
    rw [h3]
    omega

/-- `fpmul1271` stays below 2^127 and is the modular product. -/
theorem fpmul1271_spec (a b : Nat) (ha : a < 2 ^ 127) (hb : b < 2 ^ 127) :
    fpmul1271 a b < 2 ^ 127 ∧ fpmul1271 a b % p1271 = a * b % p1271 := by
  have hda : a / 2 ^ 64 < 2 ^ 64 := by omega
  have hdb : b / 2 ^ 64 < 2 ^ 64 := by omega
  simp only [fpmul1271, Nat.mod_eq_of_lt hda, Nat.mod_eq_of_lt hdb]
  clear hda hdb
  set a0 := a % 2 ^ 64 with ha0d
  set a1 := a / 2 ^ 64 with ha1d
  set b0 := b % 2 ^ 64 with hb0d
  set b1 := b / 2 ^ 64 with hb1d
  have h1 : a = 2 ^ 64 * a1 + a0 := by rw [ha1d, ha0d]; omega
  have h2 : b = 2 ^ 64 * b1 + b0 := by rw [hb1d, hb0d]; omega
  have hab : a * b = a0 * b0 + 2 ^ 64 * (a0 * b1 + a1 * b0) + 2 ^ 128 * (a1 * b1) := by
    conv_lhs => rw [h1, h2]
    ring
  have ha0l : a0 < 2 ^ 64 := by omega
  have hb0l : b0 < 2 ^ 64 := by omega
  have ha1l : a1 < 2 ^ 63 := by omega
  have hb1l : b1 < 2 ^ 63 := by omega
  have hx00 : a0 * b0 ≤ (2 ^ 64 - 1) * (2 ^ 64 - 1) :=
    Nat.mul_le_mul (by omega) (by omega)
  have hx01 : a0 * b1 ≤ (2 ^ 64 - 1) * (2 ^ 63 - 1) :=
    Nat.mul_le_mul (by omega) (by omega)
  have hx10 : a1 * b0 ≤ (2 ^ 63 - 1) * (2 ^ 64 - 1) :=
    Nat.mul_le_mul (by omega) (by omega)
  have hx11 : a1 * b1 ≤ (2 ^ 63 - 1) * (2 ^ 63 - 1) :=
    Nat.mul_le_mul (by omega) (by omega)
  clear h1 h2 ha0l hb0l ha1l hb1l ha hb
  clear ha0d ha1d hb0d hb1d
  set x00 := a0 * b0
  set x01 := a0 * b1
  set x10 := a1 * b0
  set x11 := a1 * b1
  clear_value x00 x01 x10 x11
  clear a0 a1 b0 b1
  have hm1 : x01 + x00 / 2 ^ 64 + x10 < 2 ^ 128 := by omega
  rw [Nat.mod_eq_of_lt hm1]
  have hu1 : (x01 + x00 / 2 ^ 64 + x10) / 2 ^ 63 + 2 * x11 < 2 ^ 128 := by omega
  rw [Nat.mod_eq_of_lt hu1]
  have ht1 : x00 % 2 ^ 64 + 2 ^ 64 * ((x01 + x00 / 2 ^ 64 + x10) % 2 ^ 63) +
      ((x01 + x00 / 2 ^ 64 + x10) / 2 ^ 63 + 2 * x11) < 2 ^ 128 := by omega
  rw [Nat.mod_eq_of_lt ht1]
  rw [hab]
  clear hab
  constructor
  · omega
  · rw [fold1271_cong _]
    have key : x00 + 2 ^ 64 * (x01 + x10) + 2 ^ 128 * x11 =
        (x00 % 2 ^ 64 + 2 ^ 64 * ((x01 + x00 / 2 ^ 64 + x10) % 2 ^ 63) +
          ((x01 + x00 / 2 ^ 64 + x10) / 2 ^ 63 + 2 * x11)) +
        p1271 * ((x01 + x00 / 2 ^ 64 + x10) / 2 ^ 63 + 2 * x11) := by
      simp only [p1271]
      omega
    rw [key, Nat.add_mul_mod_self_left]

/-- `fpsqr1271` stays below 2^127 and is the modular square. -/
theorem fpsqr1271_spec (a : Nat) (ha : a < 2 ^ 127) :
    fpsqr1271 a < 2 ^ 127 ∧ fpsqr1271 a % p1271 = a * a % p1271 := by
  have hda : a / 2 ^ 64 < 2 ^ 64 := by omega
  simp only [fpsqr1271, Nat.mod_eq_of_lt hda]
  clear hda
  set a0 := a % 2 ^ 64 with ha0d
  set a1 := a / 2 ^ 64 with ha1d
  have h1 : a = 2 ^ 64 * a1 + a0 := by rw [ha1d, ha0d]; omega
  have hab : a * a = a0 * a0 + 2 ^ 64 * (2 * (a0 * a1)) + 2 ^ 128 * (a1 * a1) := by
    conv_lhs => rw [h1]
    ring
  have ha0l : a0 < 2 ^ 64 := by omega
  have ha1l : a1 < 2 ^ 63 := by omega
  have hx00 : a0 * a0 ≤ (2 ^ 64 - 1) * (2 ^ 64 - 1) :=
    Nat.mul_le_mul (by omega) (by omega)
  have hx01 : a0 * a1 ≤ (2 ^ 64 - 1) * (2 ^ 63 - 1) :=
    Nat.mul_le_mul (by omega) (by omega)
  have hx11 : a1 * a1 ≤ (2 ^ 63 - 1) * (2 ^ 63 - 1) :=
    Nat.mul_le_mul (by omega) (by omega)
  clear h1 ha0l ha1l ha
  clear ha0d ha1d
  set x00 := a0 * a0
  set x01 := a0 * a1
  set x11 := a1 * a1
  clear_value x00 x01 x11
  clear a0 a1
  have hm0 : x01 + x00 / 2 ^ 64 < 2 ^ 128 := by omega
  rw [Nat.mod_eq_of_lt hm0]
  have hm1 : x01 + (x01 + x00 / 2 ^ 64) < 2 ^ 128 := by omega
  rw [Nat.mod_eq_of_lt hm1]
  have hu1 : (x01 + (x01 + x00 / 2 ^ 64)) / 2 ^ 63 + 2 * x11 < 2 ^ 128 := by omega
  rw [Nat.mod_eq_of_lt hu1]
  have ht1 : x00 % 2 ^ 64 + 2 ^ 64 * ((x01 + (x01 + x00 / 2 ^ 64)) % 2 ^ 63) +
      ((x01 + (x01 + x00 / 2 ^ 64)) / 2 ^ 63 + 2 * x11) < 2 ^ 128 := by omega
  rw [Nat.mod_eq_of_lt ht1]
  rw [hab]
  clear hab
  constructor
  · omega
  · rw [fold1271_cong _]
    have key : x00 + 2 ^ 64 * (2 * x01) + 2 ^ 128 * x11 =
        (x00 % 2 ^ 64 + 2 ^ 64 * ((x01 + (x01 + x00 / 2 ^ 64)) % 2 ^ 63) +
          ((x01 + (x01 + x00 / 2 ^ 64)) / 2 ^ 63 + 2 * x11)) +
        p1271 * ((x01 + (x01 + x00 / 2 ^ 64)) / 2 ^ 63 + 2 * x11) := by
      simp only [p1271]
      omega
    rw [key, Nat.add_mul_mod_self_left]

/-- `fpsqrN` stays below 2^127 and computes the 2^n-th modular power. -/
theorem fpsqrN_spec (n : Nat) (x : Nat) (hx : x < 2 ^ 127) :
    fpsqrN n x < 2 ^ 127 ∧ fpsqrN n x % p1271 = x ^ 2 ^ n % p1271 := by
  induction n generalizing x with
  | zero =>
    refine ⟨hx, ?_⟩
    simp [fpsqrN]
  | succ n ih =>
    have hs := fpsqr1271_spec x hx
    have h2 := ih (fpsqr1271 x) hs.1
    refine ⟨h2.1, ?_⟩
    have step : fpsqrN (n + 1) x = fpsqrN n (fpsqr1271 x) := rfl
    rw [step, h2.2]
    have hcong : fpsqr1271 x % p1271 = x ^ 2 % p1271 := by
      rw [hs.2, pow_two]
    calc fpsqr1271 x ^ 2 ^ n % p1271 = (x ^ 2) ^ 2 ^ n % p1271 :=
          Nat.ModEq.pow _ hcong
    _ = x ^ 2 ^ (n + 1) % p1271 := by
        rw [← pow_mul]
        congr 1
        rw [pow_succ]
        ring

/-- Multiplying two powers of `a` through `fpmul1271` adds the exponents. -/
theorem fp_chain_step (a x y ex ey : Nat) (hx : x < 2 ^ 127) (hy : y < 2 ^ 127)
    (hcx : x % p1271 = a ^ ex % p1271) (hcy : y % p1271 = a ^ ey % p1271) :
    fpmul1271 x y < 2 ^ 127 ∧ fpmul1271 x y % p1271 = a ^ (ex + ey) % p1271 := by
  obtain ⟨h1, h2⟩ := fpmul1271_spec x y hx hy
  refine ⟨h1, ?_⟩
  rw [h2, pow_add]
  exact Nat.ModEq.mul hcx hcy

/-- Iterated squaring of a power of `a` multiplies the exponent by 2^n. -/
theorem fp_sqrN_step (a x e n : Nat) (hx : x < 2 ^ 127)
    (hc : x % p1271 = a ^ e % p1271) :
    fpsqrN n x < 2 ^ 127 ∧ fpsqrN n x % p1271 = a ^ (e * 2 ^ n) % p1271 := by
  obtain ⟨h1, h2⟩ := fpsqrN_spec n x hx
  refine ⟨h1, ?_⟩
  rw [h2, pow_mul]
  exact Nat.ModEq.pow _ hc

/-- Squaring a power of `a` through `fpsqr1271` doubles the exponent. -/
theorem fp_sqr_step (a x e : Nat) (hx : x < 2 ^ 127)
    (hc : x % p1271 = a ^ e % p1271) :
    fpsqr1271 x < 2 ^ 127 ∧ fpsqr1271 x % p1271 = a ^ (e + e) % p1271 := by
  obtain ⟨h1, h2⟩ := fpsqr1271_spec x hx
  refine ⟨h1, ?_⟩
  rw [h2, pow_add]
  exact Nat.ModEq.mul hc hc

/-- C8: for every field element a in [0, p) with p = 2^127-1, the fixed
addition chain `fpexp1251` computes exactly a^(2^125-1) mod p. -/
theorem fpexp1251_spec (a : Nat) (ha : a < p1271) :
    fpexp1251 a % p1271 = a ^ (2 ^ 125 - 1) % p1271 := by
  have ha' : a < 2 ^ 127 := by simp only [p1271] at ha; omega
  clear ha
  have ha1 : a % p1271 = a ^ 1 % p1271 := by rw [pow_one]
  have h0 := fp_sqr_step a a 1 ha' ha1
  have h2 := fp_chain_step a a (fpsqr1271 a) 1 _ ha' h0.1 ha1 h0.2
  delta fpexp1251
  lift_lets
  intro t2 t3 t4 t5 t2b t1 t1b t1c t1d t1e
  have s2 := fp_sqrN_step a t2 _ 2 h2.1 h2.2
  have h3 := fp_chain_step a t2 (fpsqrN 2 t2) _ _ h2.1 s2.1 h2.2 s2.2
  have s3 := fp_sqrN_step a t3 _ 4 h3.1 h3.2
  have h4 := fp_chain_step a t3 (fpsqrN 4 t3) _ _ h3.1 s3.1 h3.2 s3.2
  have s4 := fp_sqrN_step a t4 _ 8 h4.1 h4.2
  have h5 := fp_chain_step a t4 (fpsqrN 8 t4) _ _ h4.1 s4.1 h4.2 s4.2
  have s5 := fp_sqrN_step a t5 _ 16 h5.1 h5.2
  have h6 := fp_chain_step a t5 (fpsqrN 16 t5) _ _ h5.1 s5.1 h5.2 s5.2
  have s6 := fp_sqrN_step a t2b _ 32 h6.1 h6.2
  have h7 := fp_chain_step a t2b (fpsqrN 32 t2b) _ _ h6.1 s6.1 h6.2 s6.2
  have s7 := fp_sqrN_step a t1 _ 32 h7.1 h7.2
  have h8 := fp_chain_step a (fpsqrN 32 t1) t2b _ _ s7.1 h6.1 s7.2 h6.2
  have s8 := fp_sqrN_step a t1b _ 16 h8.1 h8.2
  have h9 := fp_chain_step a t5 (fpsqrN 16 t1b) _ _ h5.1 s8.1 h5.2 s8.2
  have s9 := fp_sqrN_step a t1c _ 8 h9.1 h9.2
  have h10 := fp_chain_step a t4 (fpsqrN 8 t1c) _ _ h4.1 s9.1 h4.2 s9.2
  have s10 := fp_sqrN_step a t1d _ 4 h10.1 h10.2
  have h11 := fp_chain_step a t3 (fpsqrN 4 t1d) _ _ h3.1 s10.1 h3.2 s10.2
  have hsq := fp_sqr_step a t1e _ h11.1 h11.2
  have hfin := fp_chain_step a a (fpsqr1271 t1e) 1 _ ha' hsq.1 ha1 hsq.2
  have hval := hfin.2
  norm_num at hval
  norm_num
  exact hval

/-- C7: for canonical field elements a, b in [0, p), p = 2^127-1: `fpadd1271`
agrees with big-integer addition mod p, `fpmul1271` agrees with big-integer
multiplication mod p, a plus `fpneg1271 a` is congruent to 0 mod p, and
halving the doubling of a returns a. -/
theorem fp_arith_reference (a b : Nat) (ha : a < p1271) (hb : b < p1271) :
    fpadd1271 a b % p1271 = (a + b) % p1271 ∧
    fpmul1271 a b % p1271 = a * b % p1271 ∧
    (a + fpneg1271 a) % p1271 = 0 ∧
    fpdiv2_1271 (fpadd1271 a a) = a := by
  have ha' : a < 2 ^ 127 := by simp only [p1271] at ha; omega
  have hb' : b < 2 ^ 127 := by simp only [p1271] at hb; omega
  refine ⟨(fpadd1271_spec a b ha' hb').2, (fpmul1271_spec a b ha' hb').2, ?_,
    fpdiv2_fpadd_self a ha⟩
  rw [fpneg1271_eq a ha']
  have hs : a + (p1271 - a) = p1271 := by simp only [p1271] at *; omega
  rw [hs, Nat.mod_self]

/-- Witness for C7 at a = 5, b = 12. -/
theorem fp_arith_reference_witness :
    5 < p1271 ∧ 12 < p1271 ∧
    (fpadd1271 5 12 % p1271 = (5 + 12) % p1271 ∧
     fpmul1271 5 12 % p1271 = 5 * 12 % p1271 ∧
     (5 + fpneg1271 5) % p1271 = 0 ∧
     fpdiv2_1271 (fpadd1271 5 5) = 5) :=
  ⟨by decide, by decide, fp_arith_reference 5 12 (by decide) (by decide)⟩

/-- Witness for C8 at a = 3. -/
theorem fpexp1251_spec_witness :
    3 < p1271 ∧ fpexp1251 3 % p1271 = 3 ^ (2 ^ 125 - 1) % p1271 :=
  ⟨by decide, fpexp1251_spec 3 (by decide)⟩

/-- C9: for every 256-bit scalar k, the first (principal) sub-scalar produced
by `decompose` is odd: the single conditional subtraction of the lattice
vector (B41, B42, B43, B44) always suffices. -/
theorem decompose_scalars0_odd (k : Nat) : (decompose k).1 % 2 = 1 := by
  simp only [decompose]
  split
  · next h =>
      simp only [B41c] at h ⊢
      omega
  · next h =>
      omega

/-- C5: whenever a reserved top bit of the public key, of the commitment half,
or of the response half is set, `verify` answers false through its leading
canonical-encoding gate. -/
theorem verify_rejects_reserved_bits (pubkey digest sig : Bytes)
    (h : byteAt pubkey 15 &&& 0x80 ≠ 0 ∨ byteAt sig 15 &&& 0x80 ≠ 0 ∨
      byteAt sig 62 &&& 0xC0 ≠ 0 ∨ byteAt sig 63 ≠ 0) :
    verify pubkey digest sig = false := by
  simp only [verify]
  rw [if_pos h]

/-- Witness for C5: a public key with byte 15 equal to 0x80 is rejected. -/
theorem verify_rejects_reserved_bits_witness :
    (byteAt ⟨32, 2 ^ 127⟩ 15 &&& 0x80 ≠ 0 ∨ byteAt ⟨64, 0⟩ 15 &&& 0x80 ≠ 0 ∨
      byteAt ⟨64, 0⟩ 62 &&& 0xC0 ≠ 0 ∨ byteAt ⟨64, 0⟩ 63 ≠ 0) ∧
    verify ⟨32, 2 ^ 127⟩ ⟨32, 0⟩ ⟨64, 0⟩ = false :=
  ⟨by decide, verify_rejects_reserved_bits ⟨32, 2 ^ 127⟩ ⟨32, 0⟩ ⟨64, 0⟩ (by decide)⟩

/-- C6: `ecc_mul_double` fails exactly when on-curve validation of its input
point fails, and `verify` fails closed when the public-key decode or the
double-base multiplication fails. -/
theorem mul_double_and_verify_fail_closed :
    (∀ (k l : Nat) (Q : PointAffine),
        ecc_mul_double k l Q = none ↔
          ecc_point_validate (point_setup Q) = false) ∧
    (∀ pubkey digest sig : Bytes,
        (decode (btake 32 pubkey) = none ∨
          ∃ A, decode (btake 32 pubkey) = some A ∧
            ecc_mul_double ((btake 32 (bdrop 32 sig)).val)
              ((verifyChallenge pubkey digest sig).val % 2 ^ 256) A = none) →
        verify pubkey digest sig = false) := by
  constructor
  · intro k l Q
    rcases Bool.eq_false_or_eq_true (ecc_point_validate (point_setup Q)) with hv | hv
    · simp [ecc_mul_double, hv]
    · simp [ecc_mul_double, hv]
  · intro pubkey digest sig h
    rcases h with hdec | ⟨A, hA, hmul⟩
    · simp [verify, hdec]
    · have hmul' : ecc_mul_double ((btake 32 (bdrop 32 sig)).val)
          ((verifyChallenge pubkey digest sig).val %
            115792089237316195423570985008687907853269984665640564039457584007913129639936)
          A = none := hmul
      simp [verify, hA, hmul']

/-- Witness for C6: the bytes 0x02..0x00 are not a decodable public key, and
`verify` rejects them. -/
theorem mul_double_and_verify_fail_closed_witness :
    (decode (btake 32 ⟨32, 2⟩) = none ∨
      ∃ A, decode (btake 32 ⟨32, 2⟩) = some A ∧
        ecc_mul_double ((btake 32 (bdrop 32 (⟨64, 0⟩ : Bytes))).val)
          ((verifyChallenge ⟨32, 2⟩ ⟨32, 0⟩ ⟨64, 0⟩).val % 2 ^ 256) A = none) ∧
    verify ⟨32, 2⟩ ⟨32, 0⟩ ⟨64, 0⟩ = false :=
  ⟨Or.inl (by decide),
   mul_double_and_verify_fail_closed.2 ⟨32, 2⟩ ⟨32, 0⟩ ⟨64, 0⟩ (Or.inl (by decide))⟩

/-- C2 counterexample: an input of exactly one chunk (8192 bytes) does NOT
take the single-node short-input path: the final node receives the tree
suffix 0x03 and a phantom empty leaf, not the short suffix 0x07. -/
theorem k12_one_chunk_not_single_node :
    KangarooTwelve ⟨8192, 0⟩ 32 ≠ K12SingleNode ⟨8192, 0⟩ 32 := by decide

/-- C2 (amended): every input strictly shorter than one chunk is hashed
directly as a single node with the short-input suffix. -/
theorem k12_short_input_single_node (input : Bytes) (outputByteLen : Nat)
    (hwf : input.val < 2 ^ (8 * input.len)) (hlen : input.len < K12_chunkSize) :
    KangarooTwelve input outputByteLen = K12SingleNode input outputByteLen := by
  have h1 : ¬ (K12_chunkSize < input.len) := by
    simp only [K12_chunkSize] at *
    omega
  have h2 : input.len ≠ K12_chunkSize := by
    simp only [K12_chunkSize] at *
    omega
  have h3 : btake input.len input = input := by
    simp only [btake, min_self, Nat.mod_eq_of_lt hwf]
  simp only [KangarooTwelve]
  rw [if_neg h1]
  rw [if_neg (fun hc => h2 hc.1)]
  rw [if_neg h2]
  rw [h3]
  rfl

/-- Witness for C2 at the three-byte input 05 00 00. -/
theorem k12_short_input_single_node_witness :
    (⟨3, 5⟩ : Bytes).val < 2 ^ (8 * (⟨3, 5⟩ : Bytes).len) ∧
    (⟨3, 5⟩ : Bytes).len < K12_chunkSize ∧
    KangarooTwelve ⟨3, 5⟩ 32 = K12SingleNode ⟨3, 5⟩ 32 :=
  ⟨by decide, by decide, k12_short_input_single_node ⟨3, 5⟩ 32 (by decide) (by decide)⟩

/-- C3 counterexample: the challenge hash is NOT the hash of
commitment‖pubkey alone — the message digest is also absorbed. -/
theorem signChallenge_not_pubkey_only :
    signChallenge ⟨32, 0⟩ ⟨32, 0⟩ ⟨32, 0⟩ ≠
      KangarooTwelve (bcat ⟨32, 0⟩ ⟨32, 0⟩) 64 := by decide

/-- C3 (amended): the challenge hash of `signWithNonceK` is the KangarooTwelve
hash of exactly commitment‖pubkey‖digest, `verify` recomputes the same hash
over the signature's commitment half, and the digest genuinely enters (two
digests differing in one byte give different challenges). -/
theorem signChallenge_includes_digest :
    (∀ encR pubkey digest : Bytes, signChallenge encR pubkey digest =
        KangarooTwelve (bcat (bcat encR pubkey) digest) 64) ∧
    (∀ pubkey digest sig : Bytes, verifyChallenge pubkey digest sig =
        signChallenge (btake 32 sig) (btake 32 pubkey) (btake 32 digest)) ∧
    signChallenge ⟨32, 0⟩ ⟨32, 0⟩ ⟨32, 0⟩ ≠ signChallenge ⟨32, 0⟩ ⟨32, 0⟩ ⟨32, 1⟩ :=
  ⟨fun _ _ _ => rfl, fun _ _ _ => rfl, by decide⟩

/-- C10 counterexample: on operands merely "loosely reduced" into [0, 2p)
the two-word form does overflow: at a = b = 2p-1 = 2^128-3, `fpadd1271`
drops the carry out of the high word and the result is no longer congruent
to a+b mod p. -/
theorem fpadd1271_loose_range_fails :
    ¬ (fpadd1271 (2 ^ 128 - 3) (2 ^ 128 - 3) % p1271 =
        ((2 ^ 128 - 3) + (2 ^ 128 - 3)) % p1271) := by decide

/-- C10 (amended): the working range closed under the GF(p) operations is
[0, 2^127), not [0, 2p): on operands below 2^127 each operation returns a
value below 2^127 congruent mod p to the exact result (subtraction after
adding back b, negation exactly), and `mod1271` canonicalizes any value in
[0, 2p) into [0, p). -/
theorem fp_loose_range_invariant (a b : Nat) (ha : a < 2 ^ 127) (hb : b < 2 ^ 127) :
    (fpadd1271 a b < 2 ^ 127 ∧ fpadd1271 a b % p1271 = (a + b) % p1271) ∧
    (fpsub1271 a b < 2 ^ 127 ∧ (fpsub1271 a b + b) % p1271 = a % p1271) ∧
    (fpneg1271 a = p1271 - a) ∧
    (fpmul1271 a b < 2 ^ 127 ∧ fpmul1271 a b % p1271 = a * b % p1271) ∧
    (fpsqr1271 a < 2 ^ 127 ∧ fpsqr1271 a % p1271 = a * a % p1271) ∧
    (∀ c, c < 2 * p1271 → mod1271 c = c % p1271 ∧ mod1271 c < p1271) := by
  refine ⟨fpadd1271_spec a b ha hb, fpsub1271_spec a b ha hb, fpneg1271_eq a ha,
    fpmul1271_spec a b ha hb, fpsqr1271_spec a ha, ?_⟩
  intro c hc
  refine ⟨mod1271_spec c hc, ?_⟩
  rw [mod1271_spec c hc]
  exact Nat.mod_lt _ (by simp [p1271])

/-- Witness for C10 at a = 9, b = 4. -/
theorem fp_loose_range_invariant_witness :
    9 < 2 ^ 127 ∧ 4 < 2 ^ 127 ∧
    ((fpadd1271 9 4 < 2 ^ 127 ∧ fpadd1271 9 4 % p1271 = (9 + 4) % p1271) ∧
     (fpsub1271 9 4 < 2 ^ 127 ∧ (fpsub1271 9 4 + 4) % p1271 = 9 % p1271) ∧
     (fpneg1271 9 = p1271 - 9) ∧
     (fpmul1271 9 4 < 2 ^ 127 ∧ fpmul1271 9 4 % p1271 = 9 * 4 % p1271) ∧
     (fpsqr1271 9 < 2 ^ 127 ∧ fpsqr1271 9 % p1271 = 9 * 9 % p1271) ∧
     (∀ c, c < 2 * p1271 → mod1271 c = c % p1271 ∧ mod1271 c < p1271)) :=
  ⟨by decide, by decide, fp_loose_range_invariant 9 4 (by decide) (by decide)⟩

/-- C4 (code bug): the valid order-4 point (-i, 0) — x = (0, p-1), y = (0, 0),
which `ecc_point_validate` accepts — does not survive the encode/decode
round trip: `decode` returns the non-canonical x = (p, p-1) because the
sign-correcting `fpneg1271` of the zero real part yields p instead of 0 and
no `mod1271` is applied afterwards. -/
theorem decode_encode_low_order_divergence :
    ecc_point_validate (point_setup ⟨(0, p1271 - 1), (0, 0)⟩) = true ∧
    decode (encode ⟨(0, p1271 - 1), (0, 0)⟩) = some ⟨(p1271, p1271 - 1), (0, 0)⟩ ∧
    (⟨(p1271, p1271 - 1), (0, 0)⟩ : PointAffine) ≠ ⟨(0, p1271 - 1), (0, 0)⟩ := by
  refine ⟨by decide, by decide, by decide⟩
